import Mathlib

/-!
# Spectrum-aware Wi-Fi PHY: band index model, receive dispatch, transmit path and capture

A shallow embedding of `src/wifi/model/spectrum-wifi-phy.cc` and of the capture functions
of `src/wifi/helper/wifi-helper.cc` (`GetRadiotapHeader`, `PcapSniffTxEvent`,
`PcapSniffRxEvent`).

Conventions of the embedding.

* Machine integers are natural numbers; every place where the C++ arithmetic can
  wrap is written with an explicit `% 2 ^ w`.
* `NS_FATAL_ERROR`, `NS_ABORT_MSG_IF` and a failed `NS_ASSERT_MSG` end the
  simulation; a function that can reach one returns `Except Fatal _`
  (assertions are modelled as enabled, as in a debug build).
* Calls into classes whose code is not part of these sources (the interference
  helper, the base-class reception routines, trace sinks, the channel, the
  setters of the radiotap header) are recorded, in program order, as values:
  lists of `PhyCall`s, `ConfigCall`s and `TxCall`s, and the record `RadiotapHeader`
  of the arguments of its setters.
-/

namespace ns3

/-- Ways in which the modelled functions end the simulation. -/
inductive Fatal where
  /-- Raised by `NS_FATAL_ERROR ("Standard unknown: ...")` in `GetBandBandwidth`. -/
  | standardUnknown
  /-- Raised by `NS_ASSERT_MSG (..., "Should have odd number of bands")` in `GetBand`. -/
  | shouldHaveOddNumberOfBands
  /-- Raised by `NS_ASSERT_MSG (..., "Band index is out of bound")` in `GetBand`. -/
  | bandIndexOutOfBound
  /-- Raised by `NS_FATAL_ERROR ("ChannelWidth ... unsupported")` in `ConvertHeRuSubcarriers`. -/
  | channelWidthUnsupported
  /-- Taking `front ()` or `back ()` of an empty sub-carrier group (undefined behaviour). -/
  | emptySubcarrierGroup
  /-- Raised by `NS_ASSERT_MSG (IsInitialized (), "Executing method before run-time")` in
  `ResetSpectrumModel`. -/
  | executingMethodBeforeRunTime
  /-- Raised by `NS_ABORT_MSG_IF (channelWidth != 22, "Invalid channel width for DSSS")` in
  `GetTxPowerSpectralDensity`. -/
  | invalidChannelWidthForDsss
  /-- Raised by `NS_FATAL_ERROR ("modulation class unknown")` in
  `GetTxPowerSpectralDensity`. -/
  | modulationClassUnknown
  /-- Raised by `NS_ASSERT_MSG (m_wifiSpectrumPhyInterface, "SpectrumPhy() is not set; ...")`
  in `StartTx`. -/
  | spectrumPhyIsNotSet
  /-- Raised by `NS_ASSERT (ppdu->IsUlMu ())` in `StartOfdmaTx`. -/
  | ppduIsNotUlMu
  /-- Raised by `NS_FATAL_ERROR ("...: DLT_PRISM_HEADER not implemented")` in
  `PcapSniffTxEvent` and `PcapSniffRxEvent`. -/
  | dltPrismHeaderNotImplemented
  /-- Raised by `NS_ABORT_MSG ("...: Unexpected data link type ...")` in `PcapSniffTxEvent`
  and `PcapSniffRxEvent`. -/
  | unexpectedDataLinkType
  deriving DecidableEq, Repr

/-- The enumerators of `WifiPhyStandard` that `GetBandBandwidth` lists, and
`WIFI_PHY_STANDARD_UNSPECIFIED` for the enumerator that reaches its `default:` label. -/
inductive WifiPhyStandard where
  | WIFI_PHY_STANDARD_80211a
  | WIFI_PHY_STANDARD_80211b
  | WIFI_PHY_STANDARD_80211g
  | WIFI_PHY_STANDARD_80211_10MHZ
  | WIFI_PHY_STANDARD_80211_5MHZ
  | WIFI_PHY_STANDARD_holland
  | WIFI_PHY_STANDARD_80211n_2_4GHZ
  | WIFI_PHY_STANDARD_80211n_5GHZ
  | WIFI_PHY_STANDARD_80211ac
  | WIFI_PHY_STANDARD_80211ax_2_4GHZ
  | WIFI_PHY_STANDARD_80211ax_5GHZ
  | WIFI_PHY_STANDARD_UNSPECIFIED
  deriving DecidableEq, Repr

open WifiPhyStandard

/-- A band of the spectrum model: the pair (start index, stop index), both inclusive.
The type `WifiSpectrumBand` is declared outside these sources, as
`std::pair<uint32_t, uint32_t>`; the two members keep the names `first` and `second`
of `std::pair`, and assignments to them are taken modulo `2 ^ 32`. -/
structure WifiSpectrumBand where
  first : Nat
  second : Nat
  deriving DecidableEq, Repr

/-- Identifier of a reception event (`Ptr<Event>`). -/
abbrev Event := Nat

/-- The members of `SpectrumWifiPhy` (its own and those of its base class `WifiPhy`)
that the modelled functions read or write.  The PHY is one whose receive spectrum
model has been created: `GetRxSpectrumModel ()` takes its first branch and returns
`m_rxSpectrumModel`, of which only the number of bands is read.  (On a PHY without
one, the first call creates it and registers the bands with the interference
helper; that first call is outside the model.) -/
structure SpectrumWifiPhy where
  /-- Value of `GetStandard ()`. -/
  standard : WifiPhyStandard
  /-- Value of `GetChannelWidth ()`, MHz, `uint16_t`. -/
  channelWidth : Nat
  /-- Value of `GetRxSpectrumModel ()->GetNumBands ()`, `size_t`. -/
  rxNumBands : Nat
  /-- Attribute `DisableWifiReception`. -/
  m_disableWifiReception : Bool
  /-- UID of the HE TB PPDU being received, `uint64_t`. -/
  m_currentHeTbPpduUid : Nat
  /-- The current reception event, `none` for the null pointer. -/
  m_currentEvent : Option Event
  /-- The pending preamble events, keyed by PPDU UID. -/
  m_currentPreambleEvents : List (Nat × Event)
  deriving DecidableEq, Repr

/-- Embedding of `SpectrumWifiPhy::GetBandBandwidth`: the width of one band of the
spectrum model, in Hz. -/
def GetBandBandwidth (phy : SpectrumWifiPhy) : Except Fatal Nat :=
  match phy.standard with
  | WIFI_PHY_STANDARD_80211a
  | WIFI_PHY_STANDARD_80211g
  | WIFI_PHY_STANDARD_holland
  | WIFI_PHY_STANDARD_80211b
  | WIFI_PHY_STANDARD_80211n_2_4GHZ
  | WIFI_PHY_STANDARD_80211n_5GHZ
  | WIFI_PHY_STANDARD_80211ac => .ok 312500
  | WIFI_PHY_STANDARD_80211_10MHZ => .ok 156250
  | WIFI_PHY_STANDARD_80211_5MHZ => .ok 78125
  | WIFI_PHY_STANDARD_80211ax_2_4GHZ
  | WIFI_PHY_STANDARD_80211ax_5GHZ => .ok 78125
  | WIFI_PHY_STANDARD_UNSPECIFIED => .error .standardUnknown

/-- Embedding of `SpectrumWifiPhy::GetGuardBandwidth`: the guard band, in MHz, for a
channel width. -/
def GetGuardBandwidth (currentChannelWidth : Nat) : Nat :=
  if currentChannelWidth = 22 then 10 else currentChannelWidth

/-- Value of `static_cast<size_t> (width * 1e6 / bandBandwidth)`.  The three band
widths `GetBandBandwidth` returns divide `5 * 10 ^ 6`, so the exact quotient is a
multiple of `1/5`: the correctly rounded `double` quotient has the same integer part,
and the conversion yields the natural-number quotient. -/
def numBandsOf (width bandBandwidth : Nat) : Nat :=
  width * 1000000 / bandBandwidth

/-- The local `numBandsInBand` of `GetBand`: the number of bands of the spectrum
model in a sub-band of `bandWidth` MHz. -/
def numBandsInBand (bandBandwidth bandWidth : Nat) : Nat :=
  numBandsOf bandWidth bandBandwidth

/-- The local `numBandsInChannel` of `GetBand` after the symmetry adjustment: the
number of bands in the channel, plus one when `numBandsInBand` is even. -/
def numBandsInChannel (bandBandwidth channelWidth bandWidth : Nat) : Nat :=
  if numBandsInBand bandBandwidth bandWidth % 2 = 0 then
    numBandsOf channelWidth bandBandwidth + 1
  else
    numBandsOf channelWidth bandBandwidth

/-- First statement of `GetBand`, `bandWidth = (bandWidth == 22) ? 20 : bandWidth`:
the width of a DSSS channel is taken as 20 MHz. -/
def effectiveBandWidth (bandWidth : Nat) : Nat :=
  if bandWidth = 22 then 20 else bandWidth

/-- Embedding of `SpectrumWifiPhy::GetBand (bandWidth, bandIndex)`: the start and stop
indices of sub-band `bandIndex` of width `bandWidth` MHz.  `size_t` arithmetic is
modulo `2 ^ 64`, the members of the band modulo `2 ^ 32`. -/
def GetBand (phy : SpectrumWifiPhy) (bandWidth bandIndex : Nat) :
    Except Fatal WifiSpectrumBand :=
  let bandWidth := effectiveBandWidth bandWidth
  let channelWidth := phy.channelWidth
  match GetBandBandwidth phy with
  | .error e => .error e
  | .ok bandBandwidth =>
    let numBandsInChannel := numBandsInChannel bandBandwidth channelWidth bandWidth
    let numBandsInBand := numBandsInBand bandBandwidth bandWidth
    let totalNumBands := phy.rxNumBands
    if ¬ (numBandsInChannel % 2 = 1 ∧ totalNumBands % 2 = 1) then
      .error .shouldHaveOddNumberOfBands
    else if ¬ (bandIndex * bandWidth < channelWidth) then
      .error .bandIndexOutOfBound
    else
      let first :=
        (((totalNumBands + 2 ^ 64 - numBandsInChannel) % 2 ^ 64) / 2
          + bandIndex * numBandsInBand) % 2 ^ 64 % 2 ^ 32
      let first := if first ≥ totalNumBands / 2 then (first + 1) % 2 ^ 32 else first
      let second := (first + numBandsInBand + 2 ^ 64 - 1) % 2 ^ 64 % 2 ^ 32
      .ok ⟨first, second⟩

/-- Value of `static_cast<uint32_t> ((2 * guard * 1e6) / bandBandwidth + 0.5)`: the
quotient rounded half up.  The exact quotient is a multiple of `1/5`, so its distance to the
next half-integer is at least `1/10` and the `double` evaluation rounds as the
exact one does. -/
def nGuardBandsOf (guardBandwidth bandBandwidth : Nat) : Nat :=
  ((2 * (2 * guardBandwidth * 1000000) + bandBandwidth) / (2 * bandBandwidth)) % 2 ^ 32

/-- The type `HeRu::SubcarrierRange`: a pair of `int16_t` sub-carrier indices relative to the
centre sub-carrier. -/
abbrev SubcarrierRange := Int × Int

/-- Embedding of `SpectrumWifiPhy::ConvertHeRuSubcarriers`: the sub-carrier range of an
HE RU as indices of the spectrum model.  The sums are `uint32_t` sums, modulo
`2 ^ 32`. -/
def ConvertHeRuSubcarriers (phy : SpectrumWifiPhy) (channelWidth : Nat)
    (range : SubcarrierRange) : Except Fatal WifiSpectrumBand :=
  match GetBandBandwidth phy with
  | .error e => .error e
  | .ok bandBandwidth =>
    let nGuardBands := nGuardBandsOf (GetGuardBandwidth channelWidth) bandBandwidth
    let centerFrequencyIndex : Except Fatal Nat :=
      if channelWidth = 20 then .ok ((nGuardBands / 2 + 6 + 122) % 2 ^ 32)
      else if channelWidth = 40 then .ok ((nGuardBands / 2 + 12 + 244) % 2 ^ 32)
      else if channelWidth = 80 then .ok ((nGuardBands / 2 + 12 + 500) % 2 ^ 32)
      else if channelWidth = 160 then .ok ((nGuardBands / 2 + 12 + 1012) % 2 ^ 32)
      else .error .channelWidthUnsupported
    match centerFrequencyIndex with
    | .error e => .error e
    | .ok centerFrequencyIndex =>
      .ok ⟨(((centerFrequencyIndex : Int) + range.1) % 2 ^ 32).toNat,
           (((centerFrequencyIndex : Int) + range.2) % 2 ^ 32).toNat⟩

/-- Simulation time (`ns3::Time`), in integer ticks. -/
abbrev Time := Int

/-- The enumerators of `WifiPreamble`, an enumeration declared outside these sources.
The code modelled tells `WIFI_PREAMBLE_HE_TB` from all the others. -/
inductive WifiPreamble where
  | WIFI_PREAMBLE_LONG
  | WIFI_PREAMBLE_SHORT
  | WIFI_PREAMBLE_HT_MF
  | WIFI_PREAMBLE_HT_GF
  | WIFI_PREAMBLE_VHT_SU
  | WIFI_PREAMBLE_VHT_MU
  | WIFI_PREAMBLE_HE_SU
  | WIFI_PREAMBLE_HE_ER_SU
  | WIFI_PREAMBLE_HE_MU
  | WIFI_PREAMBLE_HE_TB
  | WIFI_PREAMBLE_NONE
  deriving DecidableEq, Repr

open WifiPreamble

/-- The enumerators of `WifiModulationClass` that the sources name, an enumeration
declared outside them; `WIFI_MOD_CLASS_UNKNOWN` stands for every other enumerator. -/
inductive WifiModulationClass where
  | WIFI_MOD_CLASS_UNKNOWN
  | WIFI_MOD_CLASS_DSSS
  | WIFI_MOD_CLASS_HR_DSSS
  | WIFI_MOD_CLASS_ERP_OFDM
  | WIFI_MOD_CLASS_OFDM
  | WIFI_MOD_CLASS_HT
  | WIFI_MOD_CLASS_VHT
  | WIFI_MOD_CLASS_HE
  deriving DecidableEq, Repr

open WifiModulationClass

/-- A transmission mode (`WifiMode`): the identifier of the mode, its modulation
class and its MCS value. -/
structure WifiMode where
  /-- Identifier of the mode. -/
  uid : Nat
  /-- Value of `GetModulationClass ()`. -/
  modulationClass : WifiModulationClass
  /-- Value of `GetMcsValue ()`, `uint8_t`. -/
  mcsValue : Nat
  deriving DecidableEq, Repr

/-- The parameters of a `WifiTxVector` that the modelled code reads. -/
structure WifiTxVector where
  /-- Value of `GetPreambleType ()`. -/
  preambleType : WifiPreamble
  /-- Value of `GetChannelWidth ()`, MHz, `uint16_t`. -/
  channelWidth : Nat
  /-- Value of `GetMode ()`. -/
  mode : WifiMode
  /-- Value of `GetGuardInterval ()`, nanoseconds, `uint16_t`. -/
  guardInterval : Nat
  /-- Value of `GetNss ()`, `uint8_t`. -/
  nss : Nat
  /-- Value of `GetNess ()`, `uint8_t`. -/
  ness : Nat
  /-- Value of `IsStbc ()`. -/
  stbc : Bool
  /-- Value of `IsAggregation ()`. -/
  aggregation : Bool
  deriving DecidableEq, Repr

/-- A PPDU (`WifiPpdu`): its TXVECTOR, its UID and its transmission duration. -/
structure WifiPpdu where
  /-- Value of `GetTxVector ()`. -/
  txVector : WifiTxVector
  /-- Value of `GetUid ()`, `uint64_t`. -/
  uid : Nat
  /-- Value of `GetTxDuration ()`. -/
  txDuration : Time
  deriving DecidableEq, Repr

/-- The type `RxPowerWattPerChannelBand`: received power per band, in insertion order.
`W` is the type of powers in watts (`double`). -/
abbrev RxPowerWattPerChannelBand (W : Type) := List (WifiSpectrumBand × W)

/-- An incoming signal (`SpectrumSignalParameters`) as `StartRx` reads it. -/
structure SpectrumSignalParameters (W : Type) where
  /-- Value of `rxParams->duration`. -/
  duration : Time
  /-- The power, in watts, that the RF filter built for a band lets through:
  `Integral ((*filter) * (*receivedSignalPsd)) * DbToRatio (GetRxGain ())`, with
  `filter` the result of `WifiSpectrumValueHelper::CreateRfFilter` for that band. -/
  rxPowerPerBandW : WifiSpectrumBand → W
  /-- Node id of the sending device, when `txPhy` and its device are set. -/
  txNodeId : Option Nat
  /-- The PPDU carried, when the parameters are `WifiSpectrumSignalParameters`
  (`none` when the dynamic cast fails: a non Wi-Fi signal). -/
  ppdu : Option WifiPpdu

/-- What `StartRx` takes from code outside these sources: `double` arithmetic on
powers (`W` watts, `D` dBm), the RX sensitivity, the HE RU tables and the duration
of the preamble and PHY header of a TXVECTOR. -/
structure RxEnv (W D : Type) where
  /-- The `double` value `0`. -/
  zeroW : W
  /-- Addition of two `double` values. -/
  addW : W → W → W
  /-- The function `WToDbm`. -/
  WToDbm : W → D
  /-- The comparison `<` of two `double` values. -/
  ltD : D → D → Bool
  /-- Value of `GetRxSensitivity ()`, dBm. -/
  GetRxSensitivity : D
  /-- Value of `HeRu::GetNRus (channelWidth, ruType)`, the RU type given by its
  number 0..6. -/
  GetNRus : Nat → Nat → Nat
  /-- Value of `HeRu::GetSubcarrierGroup (channelWidth, ruType, index)`. -/
  GetSubcarrierGroup : Nat → Nat → Nat → List SubcarrierRange
  /-- Value of `CalculatePlcpPreambleAndHeaderDuration (txVector)`. -/
  CalculatePlcpPreambleAndHeaderDuration : WifiTxVector → Time

/-- The calls `StartRx` makes into code outside these sources. -/
inductive PhyCall (W D : Type) where
  /-- Call `m_signalCb (isWifi, senderNodeId, rxPowerDbm, rxDuration)`, the trace source. -/
  | m_signalCb (isWifi : Bool) (senderNodeId : Nat) (rxPowerDbm : D) (rxDuration : Time)
  /-- Call `m_interference.AddForeignSignal (rxDuration, rxPowerW)`. -/
  | AddForeignSignal (rxDuration : Time) (rxPowerW : RxPowerWattPerChannelBand W)
  /-- Call `MaybeCcaBusy ()`. -/
  | MaybeCcaBusy
  /-- Call `StartReceiveOfdmaPayload (ppdu, rxPowerW)`. -/
  | StartReceiveOfdmaPayload (ppdu : WifiPpdu) (rxPowerW : RxPowerWattPerChannelBand W)
  /-- Call `m_interference.Add (ppdu, txVector, rxDuration, rxPowerW)`. -/
  | InterferenceAdd (ppdu : WifiPpdu) (txVector : WifiTxVector) (rxDuration : Time)
      (rxPowerW : RxPowerWattPerChannelBand W)
  /-- Call `Reset ()`. -/
  | Reset
  /-- Call `StartReceivePreamble (ppdu, rxPowerW)`. -/
  | StartReceivePreamble (ppdu : WifiPpdu) (rxPowerW : RxPowerWattPerChannelBand W)

/-- Result of `m_currentPreambleEvents.find (uid)`: the event stored under a UID. -/
def preambleEventsFind : List (Nat × Event) → Nat → Option Event
  | [], _ => none
  | (k, e) :: rest, uid => if k = uid then some e else preambleEventsFind rest uid

/-- Effect of `m_currentPreambleEvents.erase (it)` for `it = find (uid)`, guarded by
`it != end ()`: the entry stored under the UID is removed, if there is one. -/
def preambleEventsErase : List (Nat × Event) → Nat → List (Nat × Event)
  | [], _ => []
  | (k, e) :: rest, uid => if k = uid then rest else (k, e) :: preambleEventsErase rest uid

/-- The bands of the first two blocks of `StartRx`: the whole channel when its width
is 5 or 10 MHz, then the 20 MHz bands `GetBand (20, i)` for `i < channelWidth / 20`.
The loop variable is a `uint8_t`: with 256 or more 20 MHz bands it never leaves the
loop, which is reported as `none` bands after the calls of `GetBand` it makes. -/
def StartRx.channelBands (phy : SpectrumWifiPhy) :
    Except Fatal (Option (List WifiSpectrumBand)) :=
  let channelWidth := phy.channelWidth
  let narrow : Except Fatal (List WifiSpectrumBand) :=
    if channelWidth = 5 ∨ channelWidth = 10 then
      match GetBand phy channelWidth 0 with
      | .error e => .error e
      | .ok filteredBand => .ok [filteredBand]
    else .ok []
  match narrow with
  | .error e => .error e
  | .ok narrowBands =>
    match (List.range (min (channelWidth / 20) 256)).mapM (fun i => GetBand phy 20 i) with
    | .error e => .error e
    | .ok bands20 =>
      if channelWidth / 20 ≤ 255 then .ok (some (narrowBands ++ bands20)) else .ok none

/-- Whether the standard is one of the two 802.11ax standards. -/
def isHeStandard (standard : WifiPhyStandard) : Bool :=
  standard = WIFI_PHY_STANDARD_80211ax_2_4GHZ || standard = WIFI_PHY_STANDARD_80211ax_5GHZ

/-- The bands of the third block of `StartRx`: for the 802.11ax standards, one band
per RU of each of the seven RU types, from the first sub-carrier of the first range
of its group to the last sub-carrier of the last one. -/
def StartRx.ruBands {W D : Type} (env : RxEnv W D) (phy : SpectrumWifiPhy) :
    Except Fatal (List WifiSpectrumBand) :=
  let channelWidth := phy.channelWidth
  if isHeStandard phy.standard then
    (((List.range 7).map (fun type =>
        (List.range' 1 (env.GetNRus channelWidth type)).map
          (fun index => (type, index)))).flatten).mapM
      (fun ti =>
        let group := env.GetSubcarrierGroup channelWidth ti.1 ti.2
        match group.head?, group.getLast? with
        | some front, some back => ConvertHeRuSubcarriers phy channelWidth (front.1, back.2)
        | _, _ => .error .emptySubcarrierGroup)
  else .ok []

/-- The local `totalRxPowerW`: the powers of the channel bands, added in order from `0`. -/
def StartRx.totalRxPowerW {W D : Type} (env : RxEnv W D) (rxParams : SpectrumSignalParameters W)
    (channelBands : List WifiSpectrumBand) : W :=
  channelBands.foldl (fun total band => env.addW total (rxParams.rxPowerPerBandW band)) env.zeroW

/-- The local `rxPowerW`: the power of every band, channel bands first, then RU bands. -/
def StartRx.rxPowerW {W : Type} (rxParams : SpectrumSignalParameters W)
    (channelBands ruBands : List WifiSpectrumBand) : RxPowerWattPerChannelBand W :=
  (channelBands ++ ruBands).map (fun band => (band, rxParams.rxPowerPerBandW band))

/-- Outcome of `StartRx`. -/
inductive RxOutcome (W D : Type) where
  /-- The function returns: the PHY after its own assignments, and the calls it made. -/
  | returned (phy : SpectrumWifiPhy) (calls : List (PhyCall W D))
  /-- The function never leaves the loop over the 20 MHz bands. -/
  | loopsForever

/-- Embedding of `SpectrumWifiPhy::StartRx (rxParams)`, on a PHY whose receive spectrum
model has been created.  The result holds the PHY after the assignments `StartRx`
makes itself and, in program order, its calls into the interference helper and the
base class; the effects of those calls are theirs. -/
def StartRx {W D : Type} (env : RxEnv W D) (phy : SpectrumWifiPhy)
    (rxParams : SpectrumSignalParameters W) : Except Fatal (RxOutcome W D) :=
  let rxDuration := rxParams.duration
  let senderNodeId := rxParams.txNodeId.getD 0
  match StartRx.channelBands phy with
  | .error e => .error e
  | .ok none => .ok .loopsForever
  | .ok (some channelBands) =>
    match StartRx.ruBands env phy with
    | .error e => .error e
    | .ok ruBands =>
      let totalRxPowerW := StartRx.totalRxPowerW env rxParams channelBands
      let rxPowerW := StartRx.rxPowerW rxParams channelBands ruBands
      let wifiRxParams := rxParams.ppdu
      let trace : PhyCall W D :=
        .m_signalCb wifiRxParams.isSome senderNodeId (env.WToDbm totalRxPowerW) rxDuration
      if env.ltD (env.WToDbm totalRxPowerW) env.GetRxSensitivity then
        .ok (.returned phy [trace])
      else
        match wifiRxParams with
        | none =>
          .ok (.returned phy [trace, .AddForeignSignal rxDuration rxPowerW, .MaybeCcaBusy])
        | some ppdu =>
          if phy.m_disableWifiReception then
            .ok (.returned phy [trace, .AddForeignSignal rxDuration rxPowerW, .MaybeCcaBusy])
          else if ppdu.txVector.preambleType = WIFI_PREAMBLE_HE_TB then
            let isOfdma : Bool :=
              rxDuration
                = ppdu.txDuration - env.CalculatePlcpPreambleAndHeaderDuration ppdu.txVector
            if phy.m_currentHeTbPpduUid = ppdu.uid ∧ phy.m_currentEvent ≠ none then
              .ok (.returned phy [trace, .StartReceiveOfdmaPayload ppdu rxPowerW])
            else if isOfdma then
              let events := preambleEventsErase phy.m_currentPreambleEvents ppdu.uid
              let phy1 : SpectrumWifiPhy :=
                ⟨phy.standard, phy.channelWidth, phy.rxNumBands, phy.m_disableWifiReception,
                  phy.m_currentHeTbPpduUid, phy.m_currentEvent, events⟩
              if events.isEmpty then
                .ok (.returned phy1
                  [trace, .InterferenceAdd ppdu ppdu.txVector rxDuration rxPowerW, .Reset])
              else
                .ok (.returned phy1
                  [trace, .InterferenceAdd ppdu ppdu.txVector rxDuration rxPowerW])
            else
              .ok (.returned phy [trace, .StartReceivePreamble ppdu rxPowerW])
          else
            .ok (.returned phy [trace, .StartReceivePreamble ppdu rxPowerW])

/-- The calls the configuration functions of the PHY make into code outside these
sources. -/
inductive ConfigCall where
  /-- Call `m_interference.RemoveBands ()`. -/
  | RemoveBands
  /-- Call `m_interference.AddBand (band)`. -/
  | AddBand (band : WifiSpectrumBand)
  /-- Call `m_channel->AddRx (m_wifiSpectrumPhyInterface)`. -/
  | AddRx
  deriving DecidableEq, Repr

/-- The two tables of class `HeRu`, whose code is outside these sources. -/
structure HeRu where
  /-- Value of `HeRu::GetNRus (channelWidth, ruType)`, the RU type given by its
  number 0..6. -/
  GetNRus : Nat → Nat → Nat
  /-- Value of `HeRu::GetSubcarrierGroup (channelWidth, ruType, index)`. -/
  GetSubcarrierGroup : Nat → Nat → Nat → List SubcarrierRange

/-- The bands of the first block of `UpdateInterferenceHelperBands`: the whole channel
when it is narrower than 20 MHz, the 20 MHz bands `GetBand (20, i)` for
`i < channelWidth / 20` otherwise.  The loop variable is a `uint8_t`: with 256 or more
20 MHz bands it never leaves the loop, which is reported as `none` after the calls
of `GetBand` it makes. -/
def UpdateInterferenceHelperBands.channelBands (phy : SpectrumWifiPhy) :
    Except Fatal (Option (List WifiSpectrumBand)) :=
  let channelWidth := phy.channelWidth
  if channelWidth < 20 then
    match GetBand phy channelWidth 0 with
    | .error e => .error e
    | .ok band => .ok (some [band])
  else
    match (List.range (min (channelWidth / 20) 256)).mapM (fun i => GetBand phy 20 i) with
    | .error e => .error e
    | .ok bands => if channelWidth / 20 ≤ 255 then .ok (some bands) else .ok none

/-- The bands of the second block of `UpdateInterferenceHelperBands`: for the 802.11ax
standards, one band per RU of each of the seven RU types. -/
def UpdateInterferenceHelperBands.ruBands (heRu : HeRu) (phy : SpectrumWifiPhy) :
    Except Fatal (List WifiSpectrumBand) :=
  let channelWidth := phy.channelWidth
  if phy.standard = WIFI_PHY_STANDARD_80211ax_2_4GHZ
      ∨ phy.standard = WIFI_PHY_STANDARD_80211ax_5GHZ then
    (((List.range 7).map (fun type =>
        (List.range' 1 (heRu.GetNRus channelWidth type)).map
          (fun index => (type, index)))).flatten).mapM
      (fun ti =>
        let group := heRu.GetSubcarrierGroup channelWidth ti.1 ti.2
        match group.head?, group.getLast? with
        | some front, some back => ConvertHeRuSubcarriers phy channelWidth (front.1, back.2)
        | _, _ => .error .emptySubcarrierGroup)
  else .ok []

/-- Embedding of `SpectrumWifiPhy::UpdateInterferenceHelperBands`, on a PHY whose receive
spectrum model has been created: the calls it makes on the interference helper, in
program order, or `none` when it never leaves its first loop. -/
def UpdateInterferenceHelperBands (heRu : HeRu) (phy : SpectrumWifiPhy) :
    Except Fatal (Option (List ConfigCall)) :=
  match UpdateInterferenceHelperBands.channelBands phy with
  | .error e => .error e
  | .ok none => .ok none
  | .ok (some channelBands) =>
    match UpdateInterferenceHelperBands.ruBands heRu phy with
    | .error e => .error e
    | .ok ruBands =>
      .ok (some (.RemoveBands :: (channelBands ++ ruBands).map .AddBand))

/-- A `SpectrumWifiPhy` together with the two further values its run-time configuration
functions read. -/
structure RunTimePhy where
  /-- The members modelled by `SpectrumWifiPhy`. -/
  phy : SpectrumWifiPhy
  /-- Value of `GetFrequency ()`, MHz, `uint16_t`. -/
  frequency : Nat
  /-- Value of `IsInitialized ()`. -/
  isInitialized : Bool
  deriving DecidableEq, Repr

/-- What the run-time configuration functions take from code outside these sources:
the tables of `HeRu`, the number of bands of the spectrum model that
`WifiSpectrumValueHelper::GetSpectrumModel` builds, and the four setters of the base
class `WifiPhy`, which may end in a fatal error. -/
structure ConfigEnv where
  /-- The tables of `HeRu`. -/
  heRu : HeRu
  /-- Value of `WifiSpectrumValueHelper::GetSpectrumModel (centerFrequency,
  channelWidth, bandBandwidth, guardBandwidth)->GetNumBands ()`. -/
  GetSpectrumModelNumBands : Nat → Nat → Nat → Nat → Nat
  /-- Effect of `WifiPhy::SetChannelNumber (nch)`. -/
  WifiPhySetChannelNumber : RunTimePhy → Nat → Except Fatal RunTimePhy
  /-- Effect of `WifiPhy::SetFrequency (freq)`. -/
  WifiPhySetFrequency : RunTimePhy → Nat → Except Fatal RunTimePhy
  /-- Effect of `WifiPhy::SetChannelWidth (channelwidth)`. -/
  WifiPhySetChannelWidth : RunTimePhy → Nat → Except Fatal RunTimePhy
  /-- Effect of `WifiPhy::ConfigureStandard (standard)`. -/
  WifiPhyConfigureStandard : RunTimePhy → WifiPhyStandard → Except Fatal RunTimePhy

/-- The PHY with `m_rxSpectrumModel` replaced by a model of `numBands` bands. -/
def withRxSpectrumModel (phy : SpectrumWifiPhy) (numBands : Nat) : SpectrumWifiPhy :=
  ⟨phy.standard, phy.channelWidth, numBands, phy.m_disableWifiReception,
    phy.m_currentHeTbPpduUid, phy.m_currentEvent, phy.m_currentPreambleEvents⟩

/-- Embedding of `SpectrumWifiPhy::ResetSpectrumModel`: the PHY after it and its calls
into code outside these sources, in program order; `none` when
`UpdateInterferenceHelperBands` never returns. -/
def ResetSpectrumModel (env : ConfigEnv) (o : RunTimePhy) :
    Except Fatal (Option (RunTimePhy × List ConfigCall)) :=
  if ¬ o.isInitialized then .error .executingMethodBeforeRunTime
  else
    let channelWidth := o.phy.channelWidth
    match GetBandBandwidth o.phy with
    | .error e => .error e
    | .ok bandBandwidth =>
      let m_rxSpectrumModel :=
        env.GetSpectrumModelNumBands o.frequency channelWidth bandBandwidth
          (GetGuardBandwidth channelWidth)
      let phy1 := withRxSpectrumModel o.phy m_rxSpectrumModel
      match UpdateInterferenceHelperBands env.heRu phy1 with
      | .error e => .error e
      | .ok none => .ok none
      | .ok (some calls) => .ok (some (⟨phy1, o.frequency, o.isInitialized⟩, .AddRx :: calls))

/-- The common body of the four setters after the call of the base class:
`if (IsInitialized ()) ResetSpectrumModel ()`. -/
def resetIfInitialized (env : ConfigEnv) (o : Except Fatal RunTimePhy) :
    Except Fatal (Option (RunTimePhy × List ConfigCall)) :=
  match o with
  | .error e => .error e
  | .ok o1 => if o1.isInitialized then ResetSpectrumModel env o1 else .ok (some (o1, []))

/-- Embedding of `SpectrumWifiPhy::SetChannelNumber (nch)`. -/
def SetChannelNumber (env : ConfigEnv) (o : RunTimePhy) (nch : Nat) :
    Except Fatal (Option (RunTimePhy × List ConfigCall)) :=
  resetIfInitialized env (env.WifiPhySetChannelNumber o nch)

/-- Embedding of `SpectrumWifiPhy::SetFrequency (freq)`. -/
def SetFrequency (env : ConfigEnv) (o : RunTimePhy) (freq : Nat) :
    Except Fatal (Option (RunTimePhy × List ConfigCall)) :=
  resetIfInitialized env (env.WifiPhySetFrequency o freq)

/-- Embedding of `SpectrumWifiPhy::SetChannelWidth (channelwidth)`. -/
def SetChannelWidth (env : ConfigEnv) (o : RunTimePhy) (channelwidth : Nat) :
    Except Fatal (Option (RunTimePhy × List ConfigCall)) :=
  resetIfInitialized env (env.WifiPhySetChannelWidth o channelwidth)

/-- Embedding of `SpectrumWifiPhy::ConfigureStandard (standard)`. -/
def ConfigureStandard (env : ConfigEnv) (o : RunTimePhy) (standard : WifiPhyStandard) :
    Except Fatal (Option (RunTimePhy × List ConfigCall)) :=
  resetIfInitialized env (env.WifiPhyConfigureStandard o standard)

/-- A configuration environment for the worked examples: no RU, spectrum models of
`3 * channelWidth * 10 ^ 6 / bandBandwidth + 1` bands, and base-class setters that
store their argument and nothing else (the channel number is not part of the
modelled state). -/
def exampleConfigEnv : ConfigEnv :=
  ⟨⟨fun _ _ => 0, fun _ _ _ => []⟩,
    fun _ channelWidth bandBandwidth _ => 3 * channelWidth * 1000000 / bandBandwidth + 1,
    fun o _ => .ok o,
    fun o freq => .ok ⟨o.phy, freq, o.isInitialized⟩,
    fun o channelwidth =>
      .ok ⟨⟨o.phy.standard, channelwidth, o.phy.rxNumBands, o.phy.m_disableWifiReception,
        o.phy.m_currentHeTbPpduUid, o.phy.m_currentEvent, o.phy.m_currentPreambleEvents⟩,
        o.frequency, o.isInitialized⟩,
    fun o standard =>
      .ok ⟨⟨standard, o.phy.channelWidth, o.phy.rxNumBands, o.phy.m_disableWifiReception,
        o.phy.m_currentHeTbPpduUid, o.phy.m_currentEvent, o.phy.m_currentPreambleEvents⟩,
        o.frequency, o.isInitialized⟩⟩

/-- The constants of class `RadiotapHeader` that `GetRadiotapHeader` names.  The class
is declared outside these sources, so their values are parameters. -/
structure RadiotapConstants where
  FRAME_FLAG_NONE : Nat
  FRAME_FLAG_FCS_INCLUDED : Nat
  FRAME_FLAG_SHORT_PREAMBLE : Nat
  FRAME_FLAG_SHORT_GUARD : Nat
  CHANNEL_FLAG_CCK : Nat
  CHANNEL_FLAG_OFDM : Nat
  CHANNEL_FLAG_SPECTRUM_2GHZ : Nat
  CHANNEL_FLAG_SPECTRUM_5GHZ : Nat
  MCS_KNOWN_NONE : Nat
  MCS_KNOWN_INDEX : Nat
  MCS_KNOWN_BANDWIDTH : Nat
  MCS_KNOWN_GUARD_INTERVAL : Nat
  MCS_KNOWN_HT_FORMAT : Nat
  MCS_KNOWN_NESS : Nat
  MCS_KNOWN_NESS_BIT_1 : Nat
  MCS_KNOWN_FEC_TYPE : Nat
  MCS_KNOWN_STBC : Nat
  MCS_FLAGS_NONE : Nat
  MCS_FLAGS_BANDWIDTH_40 : Nat
  MCS_FLAGS_GUARD_INTERVAL : Nat
  MCS_FLAGS_HT_GREENFIELD : Nat
  MCS_FLAGS_NESS_BIT_0 : Nat
  MCS_FLAGS_STBC_STREAMS : Nat
  A_MPDU_STATUS_NONE : Nat
  A_MPDU_STATUS_LAST_KNOWN : Nat
  A_MPDU_STATUS_LAST : Nat
  VHT_KNOWN_NONE : Nat
  VHT_KNOWN_STBC : Nat
  VHT_KNOWN_GUARD_INTERVAL : Nat
  VHT_KNOWN_BEAMFORMED : Nat
  VHT_KNOWN_BANDWIDTH : Nat
  VHT_FLAGS_NONE : Nat
  VHT_FLAGS_STBC : Nat
  VHT_FLAGS_GUARD_INTERVAL : Nat
  HE_DATA1_STBC_KNOWN : Nat
  HE_DATA1_DATA_MCS_KNOWN : Nat
  HE_DATA1_FORMAT_EXT_SU : Nat
  HE_DATA1_FORMAT_MU : Nat
  HE_DATA1_FORMAT_TRIG : Nat
  HE_DATA2_NUM_LTF_SYMS_KNOWN : Nat
  HE_DATA2_GI_KNOWN : Nat
  HE_DATA3_STBC : Nat
  HE_DATA5_DATA_BW_RU_ALLOC_40MHZ : Nat
  HE_DATA5_DATA_BW_RU_ALLOC_80MHZ : Nat
  HE_DATA5_DATA_BW_RU_ALLOC_160MHZ : Nat
  HE_DATA5_GI_1_6 : Nat
  HE_DATA5_GI_3_2 : Nat
  deriving DecidableEq, Repr

/-- The arguments of `RadiotapHeader::SetVhtFields`. -/
structure VhtFields where
  known : Nat
  flags : Nat
  bandwidth : Nat
  mcs_nss : List Nat
  coding : Nat
  group_id : Nat
  partial_aid : Nat
  deriving DecidableEq, Repr

/-- A `RadiotapHeader` as `GetRadiotapHeader` fills it: for each setter of the class
(whose code is outside these sources) the arguments of its call, `none` when the
setter is not called. -/
structure RadiotapHeader where
  /-- Argument of `SetTsft`. -/
  tsft : Option Nat
  /-- Argument of `SetFrameFlags`, `uint8_t`. -/
  frameFlags : Option Nat
  /-- Argument of `SetRate`, `uint8_t`. -/
  rate : Option Nat
  /-- Arguments of `SetChannelFrequencyAndFlags`: frequency and flags, `uint16_t`. -/
  channel : Option (Nat × Nat)
  /-- Arguments of `SetMcsFields`: known, flags and MCS index, `uint8_t`. -/
  mcsFields : Option (Nat × Nat × Nat)
  /-- Arguments of `SetAmpduStatus`: reference number, flags and CRC. -/
  ampduStatus : Option (Nat × Nat × Nat)
  /-- Arguments of `SetVhtFields`. -/
  vhtFields : Option VhtFields
  /-- Arguments of `SetHeFields`: data1, data2, data3 and data5, `uint16_t`. -/
  heFields : Option (Nat × Nat × Nat × Nat)
  deriving DecidableEq, Repr

/-- The enumerators of `MpduType`, an enumeration declared outside these sources.  The
code modelled tells `LAST_MPDU_IN_AGGREGATE` from the others. -/
inductive MpduType where
  | NORMAL_MPDU
  | MPDU_IN_AGGREGATE
  | LAST_MPDU_IN_AGGREGATE
  deriving DecidableEq, Repr

open MpduType

/-- The two members of `MpduInfo`. -/
structure MpduInfo where
  type : MpduType
  /-- Reference number of the A-MPDU, `uint32_t`. -/
  mpduRefNumber : Nat
  deriving DecidableEq, Repr

/-- What `GetRadiotapHeader` reads of an `AmpduSubframeHeader`. -/
structure AmpduSubframeHeader where
  /-- Value of `GetLength ()`, `uint16_t`. -/
  length : Nat
  /-- Value of `GetEof ()`. -/
  eof : Bool
  deriving DecidableEq, Repr

/-- The bytes of a `Packet`. -/
abbrev Packet := List Nat

/-- What `GetRadiotapHeader` takes from code outside these sources. -/
structure RadiotapEnv where
  /-- Value of `Simulator::Now ().GetMicroSeconds ()`. -/
  nowMicroSeconds : Nat
  /-- Value of `mode.GetDataRate (channelWidth, guardInterval, nss)`, `uint64_t`. -/
  GetDataRate : WifiMode → Nat → Nat → Nat → Nat
  /-- Effect of `packet->RemoveHeader (hdr)` for an `AmpduSubframeHeader`: the header
  read from the front of the packet and the bytes left. -/
  RemoveHeader : Packet → AmpduSubframeHeader × Packet
  /-- Value of `packet->CreateFragment (start, length)`. -/
  CreateFragment : Packet → Nat → Nat → Packet

/-- The local `frameFlags` of `GetRadiotapHeader`, a `uint8_t`. -/
def GetRadiotapHeader.frameFlags (k : RadiotapConstants) (txVector : WifiTxVector) : Nat :=
  let preamble := txVector.preambleType
  let frameFlags := k.FRAME_FLAG_NONE % 2 ^ 8
  let frameFlags := (frameFlags ||| k.FRAME_FLAG_FCS_INCLUDED) % 2 ^ 8
  let frameFlags :=
    if preamble = WIFI_PREAMBLE_SHORT then
      (frameFlags ||| k.FRAME_FLAG_SHORT_PREAMBLE) % 2 ^ 8
    else frameFlags
  let frameFlags :=
    if txVector.guardInterval = 400 then (frameFlags ||| k.FRAME_FLAG_SHORT_GUARD) % 2 ^ 8
    else frameFlags
  frameFlags

/-- The condition under which `GetRadiotapHeader` computes the legacy rate: the
modulation class is none of HT, VHT and HE. -/
def GetRadiotapHeader.isLegacy (txVector : WifiTxVector) : Bool :=
  txVector.mode.modulationClass ≠ WIFI_MOD_CLASS_HT
    && txVector.mode.modulationClass ≠ WIFI_MOD_CLASS_VHT
    && txVector.mode.modulationClass ≠ WIFI_MOD_CLASS_HE

/-- The local `rate` of `GetRadiotapHeader`, a `uint64_t`: 0, or for a legacy mode the
data rate for one stream times the number of streams, in units of 500 kbit/s. -/
def GetRadiotapHeader.rate (env : RadiotapEnv) (txVector : WifiTxVector) : Nat :=
  if GetRadiotapHeader.isLegacy txVector then
    (env.GetDataRate txVector.mode txVector.channelWidth txVector.guardInterval 1
      * txVector.nss) % 2 ^ 64 / 500000
  else 0

/-- The local `channelFlags` of `GetRadiotapHeader`, a `uint16_t`. -/
def GetRadiotapHeader.channelFlags (k : RadiotapConstants) (rate channelFreqMhz : Nat) : Nat :=
  let channelFlags := 0
  let channelFlags :=
    if rate = 2 ∨ rate = 4 ∨ rate = 10 ∨ rate = 22 then
      (channelFlags ||| k.CHANNEL_FLAG_CCK) % 2 ^ 16
    else (channelFlags ||| k.CHANNEL_FLAG_OFDM) % 2 ^ 16
  let channelFlags :=
    if channelFreqMhz < 2500 then (channelFlags ||| k.CHANNEL_FLAG_SPECTRUM_2GHZ) % 2 ^ 16
    else (channelFlags ||| k.CHANNEL_FLAG_SPECTRUM_5GHZ) % 2 ^ 16
  channelFlags

/-- The local `mcsKnown` of the HT block of `GetRadiotapHeader`, a `uint8_t`. -/
def GetRadiotapHeader.mcsKnown (k : RadiotapConstants) (txVector : WifiTxVector) : Nat :=
  let mcsKnown := k.MCS_KNOWN_NONE % 2 ^ 8
  let mcsKnown := (mcsKnown ||| k.MCS_KNOWN_INDEX) % 2 ^ 8
  let mcsKnown := (mcsKnown ||| k.MCS_KNOWN_BANDWIDTH) % 2 ^ 8
  let mcsKnown := (mcsKnown ||| k.MCS_KNOWN_GUARD_INTERVAL) % 2 ^ 8
  let mcsKnown := (mcsKnown ||| k.MCS_KNOWN_HT_FORMAT) % 2 ^ 8
  let mcsKnown := (mcsKnown ||| k.MCS_KNOWN_NESS) % 2 ^ 8
  let mcsKnown :=
    if txVector.ness &&& 0x02 ≠ 0 then (mcsKnown ||| k.MCS_KNOWN_NESS_BIT_1) % 2 ^ 8
    else mcsKnown
  let mcsKnown := (mcsKnown ||| k.MCS_KNOWN_FEC_TYPE) % 2 ^ 8
  let mcsKnown := (mcsKnown ||| k.MCS_KNOWN_STBC) % 2 ^ 8
  mcsKnown

/-- The local `mcsFlags` of the HT block of `GetRadiotapHeader`, a `uint8_t`. -/
def GetRadiotapHeader.mcsFlags (k : RadiotapConstants) (txVector : WifiTxVector) : Nat :=
  let mcsFlags := k.MCS_FLAGS_NONE % 2 ^ 8
  let mcsFlags :=
    if txVector.channelWidth = 40 then (mcsFlags ||| k.MCS_FLAGS_BANDWIDTH_40) % 2 ^ 8
    else mcsFlags
  let mcsFlags :=
    if txVector.guardInterval = 400 then (mcsFlags ||| k.MCS_FLAGS_GUARD_INTERVAL) % 2 ^ 8
    else mcsFlags
  let mcsFlags :=
    if txVector.preambleType = WIFI_PREAMBLE_HT_GF then
      (mcsFlags ||| k.MCS_FLAGS_HT_GREENFIELD) % 2 ^ 8
    else mcsFlags
  let mcsFlags :=
    if txVector.ness &&& 0x01 ≠ 0 then (mcsFlags ||| k.MCS_FLAGS_NESS_BIT_0) % 2 ^ 8
    else mcsFlags
  let mcsFlags :=
    if txVector.stbc then (mcsFlags ||| k.MCS_FLAGS_STBC_STREAMS) % 2 ^ 8 else mcsFlags
  mcsFlags

/-- The local `ampduStatusFlags` of the A-MPDU block of `GetRadiotapHeader`, a
`uint16_t`, for the MPDU information supplied and the subframe header removed. -/
def GetRadiotapHeader.ampduStatusFlags (k : RadiotapConstants) (aMpdu : MpduInfo)
    (hdr : AmpduSubframeHeader) : Nat :=
  let ampduStatusFlags := k.A_MPDU_STATUS_NONE % 2 ^ 16
  let ampduStatusFlags := (ampduStatusFlags ||| k.A_MPDU_STATUS_LAST_KNOWN) % 2 ^ 16
  let ampduStatusFlags :=
    if aMpdu.type = LAST_MPDU_IN_AGGREGATE ∨ (hdr.eof = true ∧ hdr.length > 0) then
      (ampduStatusFlags ||| k.A_MPDU_STATUS_LAST) % 2 ^ 16
    else ampduStatusFlags
  ampduStatusFlags

/-- The arguments of `SetVhtFields` in the VHT block of `GetRadiotapHeader`. -/
def GetRadiotapHeader.vhtFields (k : RadiotapConstants) (txVector : WifiTxVector) : VhtFields :=
  let vhtKnown := k.VHT_KNOWN_NONE % 2 ^ 16
  let vhtFlags := k.VHT_FLAGS_NONE % 2 ^ 8
  let vhtBandwidth := 0
  let vhtMcsNss0 := 0
  let vhtCoding := 0
  let vhtGroupId := 0
  let vhtPartialAid := 0
  let vhtKnown := (vhtKnown ||| k.VHT_KNOWN_STBC) % 2 ^ 16
  let vhtFlags := if txVector.stbc then (vhtFlags ||| k.VHT_FLAGS_STBC) % 2 ^ 8 else vhtFlags
  let vhtKnown := (vhtKnown ||| k.VHT_KNOWN_GUARD_INTERVAL) % 2 ^ 16
  let vhtFlags :=
    if txVector.guardInterval = 400 then (vhtFlags ||| k.VHT_FLAGS_GUARD_INTERVAL) % 2 ^ 8
    else vhtFlags
  let vhtKnown := (vhtKnown ||| k.VHT_KNOWN_BEAMFORMED) % 2 ^ 16
  let vhtKnown := (vhtKnown ||| k.VHT_KNOWN_BANDWIDTH) % 2 ^ 16
  let vhtBandwidth :=
    if txVector.channelWidth = 40 then 1
    else if txVector.channelWidth = 80 then 4
    else if txVector.channelWidth = 160 then 11
    else vhtBandwidth
  let vhtMcsNss0 := (vhtMcsNss0 ||| (txVector.nss &&& 0x0f)) % 2 ^ 8
  let vhtMcsNss0 := (vhtMcsNss0 ||| ((txVector.mode.mcsValue <<< 4) &&& 0xf0)) % 2 ^ 8
  ⟨vhtKnown, vhtFlags, vhtBandwidth, [vhtMcsNss0, 0, 0, 0], vhtCoding, vhtGroupId,
    vhtPartialAid⟩

/-- The arguments of `SetHeFields` in the HE block of `GetRadiotapHeader`, each a
`uint16_t`. -/
def GetRadiotapHeader.heFields (k : RadiotapConstants) (txVector : WifiTxVector) :
    Nat × Nat × Nat × Nat :=
  let preamble := txVector.preambleType
  let data1 := (k.HE_DATA1_STBC_KNOWN ||| k.HE_DATA1_DATA_MCS_KNOWN) % 2 ^ 16
  let data1 :=
    if preamble = WIFI_PREAMBLE_HE_ER_SU then (data1 ||| k.HE_DATA1_FORMAT_EXT_SU) % 2 ^ 16
    else if preamble = WIFI_PREAMBLE_HE_MU then (data1 ||| k.HE_DATA1_FORMAT_MU) % 2 ^ 16
    else if preamble = WIFI_PREAMBLE_HE_TB then (data1 ||| k.HE_DATA1_FORMAT_TRIG) % 2 ^ 16
    else data1
  let data2 := (k.HE_DATA2_NUM_LTF_SYMS_KNOWN ||| k.HE_DATA2_GI_KNOWN) % 2 ^ 16
  let data3 := 0
  let data3 := if txVector.stbc then (data3 ||| k.HE_DATA3_STBC) % 2 ^ 16 else data3
  let data5 := 0
  let data5 :=
    if txVector.channelWidth = 40 then
      (data5 ||| k.HE_DATA5_DATA_BW_RU_ALLOC_40MHZ) % 2 ^ 16
    else if txVector.channelWidth = 80 then
      (data5 ||| k.HE_DATA5_DATA_BW_RU_ALLOC_80MHZ) % 2 ^ 16
    else if txVector.channelWidth = 160 then
      (data5 ||| k.HE_DATA5_DATA_BW_RU_ALLOC_160MHZ) % 2 ^ 16
    else data5
  let data5 :=
    if txVector.guardInterval = 1600 then (data5 ||| k.HE_DATA5_GI_1_6) % 2 ^ 16
    else if txVector.guardInterval = 3200 then (data5 ||| k.HE_DATA5_GI_3_2) % 2 ^ 16
    else data5
  (data1, data2, data3, data5)

/-- Result of `GetRadiotapHeader`: the header returned, the packet of the caller after
the call, and the packet the by-value parameter `packet` points to at the end. -/
structure RadiotapResult where
  header : RadiotapHeader
  /-- The packet object the caller passed, after the call. -/
  packet : Packet
  /-- The packet the local `packet` points to when the function returns. -/
  localPacket : Packet
  deriving DecidableEq, Repr

/-- Embedding of `WifiPhyHelper::GetRadiotapHeader (packet, channelFreqMhz, txVector,
aMpdu)`.  The parameter `packet` is a `Ptr<Packet>` passed by value: `RemoveHeader`
changes the packet of the caller, the assignment of the fragment rebinds the local
pointer only. -/
def GetRadiotapHeader (k : RadiotapConstants) (env : RadiotapEnv) (packet : Packet)
    (channelFreqMhz : Nat) (txVector : WifiTxVector) (aMpdu : MpduInfo) : RadiotapResult :=
  let frameFlags := GetRadiotapHeader.frameFlags k txVector
  let rate := GetRadiotapHeader.rate env txVector
  let headerRate : Option Nat :=
    if GetRadiotapHeader.isLegacy txVector then some (rate % 2 ^ 8) else none
  let channelFlags := GetRadiotapHeader.channelFlags k rate channelFreqMhz
  let mcsFields : Option (Nat × Nat × Nat) :=
    if txVector.mode.modulationClass = WIFI_MOD_CLASS_HT then
      some (GetRadiotapHeader.mcsKnown k txVector, GetRadiotapHeader.mcsFlags k txVector,
        txVector.mode.mcsValue)
    else none
  let removed := env.RemoveHeader packet
  let extractedLength := removed.1.length
  let ampduStatus : Option (Nat × Nat × Nat) :=
    if txVector.aggregation then
      some (aMpdu.mpduRefNumber, GetRadiotapHeader.ampduStatusFlags k aMpdu removed.1, 1)
    else none
  let callerPacket := if txVector.aggregation then removed.2 else packet
  let localPacket :=
    if txVector.aggregation then env.CreateFragment removed.2 0 extractedLength else packet
  let vhtFields : Option VhtFields :=
    if txVector.mode.modulationClass = WIFI_MOD_CLASS_VHT then
      some (GetRadiotapHeader.vhtFields k txVector)
    else none
  let heFields : Option (Nat × Nat × Nat × Nat) :=
    if txVector.mode.modulationClass = WIFI_MOD_CLASS_HE then
      some (GetRadiotapHeader.heFields k txVector)
    else none
  ⟨⟨some env.nowMicroSeconds, some frameFlags, headerRate, some (channelFreqMhz, channelFlags),
      mcsFields, ampduStatus, vhtFields, heFields⟩, callerPacket, localPacket⟩

/-- The values of the constants in the radiotap format, for the worked examples. -/
def radiotapConstants : RadiotapConstants :=
  ⟨0x00, 0x10, 0x02, 0x80,
    0x0020, 0x0040, 0x0080, 0x0100,
    0x00, 0x02, 0x01, 0x04, 0x08, 0x40, 0x80, 0x10, 0x20,
    0x00, 0x01, 0x04, 0x08, 0x80, 0x60,
    0x00, 0x04, 0x08,
    0x0000, 0x0001, 0x0004, 0x0020, 0x0040,
    0x00, 0x01, 0x04,
    0x0200, 0x0020, 0x0001, 0x0002, 0x0003,
    0x0004, 0x0002, 0x8000,
    0x0001, 0x0002, 0x0003, 0x0010, 0x0020⟩

/-- An environment for the worked examples of the radiotap header: time 0, a data rate
of `1000000 * uid` bit/s per stream for the mode with identifier `uid`, a subframe
header of four bytes whose first byte is the length and whose second byte is the
EOF flag, and fragments taken by position. -/
def exampleRadiotapEnv : RadiotapEnv :=
  ⟨0, fun mode _ _ nss => 1000000 * mode.uid * nss,
    fun packet => (⟨packet.headD 0, decide ((packet.drop 1).headD 0 = 1)⟩, packet.drop 4),
    fun packet start length => (packet.drop start).take length⟩

/-- A transmission vector for the worked examples, with long guard interval, no
extension stream, no STBC and no aggregation. -/
def exampleTxVector (preamble : WifiPreamble) (channelWidth : Nat) (mode : WifiMode)
    (nss : Nat) : WifiTxVector :=
  ⟨preamble, channelWidth, mode, 800, nss, 0, false, false⟩

/-- The local `isOfdma` of `StartRx`: whether the duration of the signal is the duration
of the PPDU without its preamble and header. -/
def StartRx.isOfdma {W D : Type} (env : RxEnv W D) (rxDuration : Time) (ppdu : WifiPpdu) :
    Bool :=
  rxDuration = ppdu.txDuration - env.CalculatePlcpPreambleAndHeaderDuration ppdu.txVector

/-- The value of `GetTxPowerSpectralDensity`: the function of `WifiSpectrumValueHelper`
(code outside these sources) whose result it returns, with the arguments of the call
in their order.  `W` is the type of powers in watts, `D` the type of levels in dB
(both `double`). -/
inductive TxPowerSpectralDensity (W D : Type) where
  | CreateHtOfdmTxPowerSpectralDensity (centerFrequency channelWidth : Nat) (txPowerW : W)
      (guardBandwidth : Nat) (txMaskInnerBandMinimumRejection
        txMaskOuterBandMinimumRejection txMaskOuterBandMaximumRejection : D)
  | CreateOfdmTxPowerSpectralDensity (centerFrequency channelWidth : Nat) (txPowerW : W)
      (guardBandwidth : Nat) (txMaskInnerBandMinimumRejection
        txMaskOuterBandMinimumRejection txMaskOuterBandMaximumRejection : D)
  | CreateDsssTxPowerSpectralDensity (centerFrequency : Nat) (txPowerW : W)
      (guardBandwidth : Nat)
  | CreateHeMuOfdmTxPowerSpectralDensity (centerFrequency channelWidth : Nat) (txPowerW : W)
      (guardBandwidth : Nat) (band : WifiSpectrumBand)
  | CreateHeOfdmTxPowerSpectralDensity (centerFrequency channelWidth : Nat) (txPowerW : W)
      (guardBandwidth : Nat) (txMaskInnerBandMinimumRejection
        txMaskOuterBandMinimumRejection txMaskOuterBandMaximumRejection : D)
  deriving DecidableEq, Repr

/-- What the transmit path takes from the PHY and from code outside these sources:
members of the PHY that `SpectrumWifiPhy` above does not hold, accessors of the PPDU,
methods of the base class `WifiPhy` and `double` arithmetic. -/
structure TxEnv (W D : Type) where
  /-- Value of `GetCenterFrequencyForChannelWidth (channelWidth)`, MHz, `uint16_t`. -/
  GetCenterFrequencyForChannelWidth : Nat → Nat
  /-- Attribute `TxMaskInnerBandMinimumRejection`, dBr. -/
  m_txMaskInnerBandMinimumRejection : D
  /-- Attribute `TxMaskOuterBandMinimumRejection`, dBr. -/
  m_txMaskOuterBandMinimumRejection : D
  /-- Attribute `TxMaskOuterBandMaximumRejection`, dBr. -/
  m_txMaskOuterBandMaximumRejection : D
  /-- Whether `m_wifiSpectrumPhyInterface` is set. -/
  m_wifiSpectrumPhyInterface : Bool
  /-- Value of `ppdu->GetModulation ()`. -/
  GetModulation : WifiPpdu → WifiModulationClass
  /-- Value of `ppdu->IsUlMu ()`. -/
  IsUlMu : WifiPpdu → Bool
  /-- Value of `GetStaId (ppdu)`, `uint16_t`. -/
  GetStaId : WifiPpdu → Nat
  /-- Value of `GetRuBand (txVector, staId)`. -/
  GetRuBand : WifiTxVector → Nat → WifiSpectrumBand
  /-- Value of `GetTxPowerForTransmission (txVector)`, dBm, for a TXVECTOR and the power
  level set in it by `SetTxPowerLevel` (the level is not a field of `WifiTxVector`
  above). -/
  GetTxPowerForTransmission : WifiTxVector → Nat → D
  /-- Value of `GetTxGain ()`, dB. -/
  GetTxGain : D
  /-- Addition of two `double` values. -/
  addD : D → D → D
  /-- The function `DbmToW`. -/
  DbmToW : D → W
  /-- Value of `CalculatePlcpPreambleAndHeaderDuration (txVector)`; the power level of the
  TXVECTOR is taken not to enter it. -/
  CalculatePlcpPreambleAndHeaderDuration : WifiTxVector → Time

/-- Embedding of `SpectrumWifiPhy::GetTxPowerSpectralDensity (txPowerW, ppdu, isOfdma)`. -/
def GetTxPowerSpectralDensity {W D : Type} (env : TxEnv W D) (txPowerW : W) (ppdu : WifiPpdu)
    (isOfdma : Bool) : Except Fatal (TxPowerSpectralDensity W D) :=
  let txVector := ppdu.txVector
  let centerFrequency := env.GetCenterFrequencyForChannelWidth txVector.channelWidth
  let channelWidth := txVector.channelWidth
  match env.GetModulation ppdu with
  | WIFI_MOD_CLASS_OFDM
  | WIFI_MOD_CLASS_ERP_OFDM =>
    if channelWidth ≥ 40 then
      .ok (.CreateHtOfdmTxPowerSpectralDensity centerFrequency channelWidth txPowerW
        (GetGuardBandwidth channelWidth) env.m_txMaskInnerBandMinimumRejection
        env.m_txMaskOuterBandMinimumRejection env.m_txMaskOuterBandMaximumRejection)
    else
      .ok (.CreateOfdmTxPowerSpectralDensity centerFrequency channelWidth txPowerW
        (GetGuardBandwidth channelWidth) env.m_txMaskInnerBandMinimumRejection
        env.m_txMaskOuterBandMinimumRejection env.m_txMaskOuterBandMaximumRejection)
  | WIFI_MOD_CLASS_DSSS
  | WIFI_MOD_CLASS_HR_DSSS =>
    if channelWidth ≠ 22 then .error .invalidChannelWidthForDsss
    else
      .ok (.CreateDsssTxPowerSpectralDensity centerFrequency txPowerW
        (GetGuardBandwidth channelWidth))
  | WIFI_MOD_CLASS_HT
  | WIFI_MOD_CLASS_VHT =>
    .ok (.CreateHtOfdmTxPowerSpectralDensity centerFrequency channelWidth txPowerW
      (GetGuardBandwidth channelWidth) env.m_txMaskInnerBandMinimumRejection
      env.m_txMaskOuterBandMinimumRejection env.m_txMaskOuterBandMaximumRejection)
  | WIFI_MOD_CLASS_HE =>
    if isOfdma then
      let band := env.GetRuBand txVector (env.GetStaId ppdu)
      .ok (.CreateHeMuOfdmTxPowerSpectralDensity centerFrequency channelWidth txPowerW
        (GetGuardBandwidth channelWidth) band)
    else
      .ok (.CreateHeOfdmTxPowerSpectralDensity centerFrequency channelWidth txPowerW
        (GetGuardBandwidth channelWidth) env.m_txMaskInnerBandMinimumRejection
        env.m_txMaskOuterBandMinimumRejection env.m_txMaskOuterBandMaximumRejection)
  | WIFI_MOD_CLASS_UNKNOWN => .error .modulationClassUnknown

/-- The members of the `WifiSpectrumSignalParameters` that the transmit path fills and a
receiver reads: duration, power spectral density and PPDU (`txPhy` and `txAntenna`
are the interface and the antenna of the sending PHY). -/
structure WifiSpectrumSignalParameters (W D : Type) where
  duration : Time
  psd : TxPowerSpectralDensity W D
  ppdu : WifiPpdu
  deriving DecidableEq, Repr

/-- The calls `StartTx` and `StartOfdmaTx` make into code outside these sources. -/
inductive TxCall (W D : Type) where
  /-- Call `Transmit (txParams)`, which hands the signal to the channel. -/
  | Transmit (txParams : WifiSpectrumSignalParameters W D)
  /-- Call `Simulator::Schedule (delay, &SpectrumWifiPhy::StartOfdmaTx, this, ppdu,
  txPowerWatts)`. -/
  | ScheduleStartOfdmaTx (delay : Time) (ppdu : WifiPpdu) (txPowerWatts : W)
  deriving DecidableEq, Repr

/-- Embedding of `SpectrumWifiPhy::StartTx (ppdu, txPowerLevel)`: its calls into code
outside these sources, in program order. -/
def StartTx {W D : Type} (env : TxEnv W D) (ppdu : WifiPpdu) (txPowerLevel : Nat) :
    Except Fatal (List (TxCall W D)) :=
  let txVector := ppdu.txVector
  let txPowerDbm := env.addD (env.GetTxPowerForTransmission txVector txPowerLevel) env.GetTxGain
  let txPowerWatts := env.DbmToW txPowerDbm
  if ¬ env.m_wifiSpectrumPhyInterface then .error .spectrumPhyIsNotSet
  else if txVector.preambleType = WIFI_PREAMBLE_HE_TB then
    let nonOfdmaDuration := env.CalculatePlcpPreambleAndHeaderDuration txVector
    match GetTxPowerSpectralDensity env txPowerWatts ppdu false with
    | .error e => .error e
    | .ok txPowerSpectrum =>
      .ok [.Transmit ⟨nonOfdmaDuration, txPowerSpectrum, ppdu⟩,
        .ScheduleStartOfdmaTx nonOfdmaDuration ppdu txPowerWatts]
  else
    match GetTxPowerSpectralDensity env txPowerWatts ppdu false with
    | .error e => .error e
    | .ok txPowerSpectrum => .ok [.Transmit ⟨ppdu.txDuration, txPowerSpectrum, ppdu⟩]

/-- Embedding of `SpectrumWifiPhy::StartOfdmaTx (ppdu, txPowerWatts)`: its calls into code
outside these sources, in program order. -/
def StartOfdmaTx {W D : Type} (env : TxEnv W D) (ppdu : WifiPpdu) (txPowerWatts : W) :
    Except Fatal (List (TxCall W D)) :=
  if ¬ env.IsUlMu ppdu then .error .ppduIsNotUlMu
  else
    match GetTxPowerSpectralDensity env txPowerWatts ppdu true with
    | .error e => .error e
    | .ok txPowerSpectrum =>
      let txVector := ppdu.txVector
      .ok [.Transmit
        ⟨ppdu.txDuration - env.CalculatePlcpPreambleAndHeaderDuration txVector,
          txPowerSpectrum, ppdu⟩]

/-- The data link types `PcapSniffTxEvent` and `PcapSniffRxEvent` tell apart, constants of
`PcapHelper` declared outside these sources; `DLT_OTHER` stands for every other value
of `file->GetDataLinkType ()`. -/
inductive DataLinkType where
  | DLT_IEEE802_11
  | DLT_PRISM_HEADER
  | DLT_IEEE802_11_RADIO
  | DLT_OTHER
  deriving DecidableEq, Repr

open DataLinkType

/-- What `file->Write (Simulator::Now (), p)` receives: the time, and the packet as the
radiotap header added to it, if one was added, followed by the bytes.  `D` is the type
of the signal and noise powers (`double`), which `PcapSniffRxEvent` sets in the
header. -/
structure PcapRecord (D : Type) where
  /-- The time `Simulator::Now ()`, in microseconds. -/
  time : Nat
  /-- The header added by `p->AddHeader (header)`. -/
  header : Option RadiotapHeader
  /-- Argument of `SetAntennaSignalPower`. -/
  antennaSignalPower : Option D
  /-- Argument of `SetAntennaNoisePower`. -/
  antennaNoisePower : Option D
  /-- The bytes of the packet after the header. -/
  packet : Packet
  deriving DecidableEq, Repr

/-- Embedding of `WifiPhyHelper::PcapSniffTxEvent (file, packet, channelFreqMhz, txVector,
aMpdu)` for a file of data link type `dlt`: the record written to the file. -/
def PcapSniffTxEvent (D : Type) (k : RadiotapConstants) (env : RadiotapEnv)
    (dlt : DataLinkType) (packet : Packet) (channelFreqMhz : Nat) (txVector : WifiTxVector)
    (aMpdu : MpduInfo) : Except Fatal (PcapRecord D) :=
  match dlt with
  | DLT_IEEE802_11 => .ok ⟨env.nowMicroSeconds, none, none, none, packet⟩
  | DLT_PRISM_HEADER => .error .dltPrismHeaderNotImplemented
  | DLT_IEEE802_11_RADIO =>
    let p := packet
    let result := GetRadiotapHeader k env p channelFreqMhz txVector aMpdu
    let header := result.header
    let p := result.packet
    .ok ⟨env.nowMicroSeconds, some header, none, none, p⟩
  | DLT_OTHER => .error .unexpectedDataLinkType

/-- The two members of `SignalNoiseDbm`. -/
structure SignalNoiseDbm (D : Type) where
  signal : D
  noise : D
  deriving DecidableEq, Repr

/-- Embedding of `WifiPhyHelper::PcapSniffRxEvent (file, packet, channelFreqMhz, txVector,
aMpdu, signalNoise)` for a file of data link type `dlt`: the record written to the
file. -/
def PcapSniffRxEvent (D : Type) (k : RadiotapConstants) (env : RadiotapEnv)
    (dlt : DataLinkType) (packet : Packet) (channelFreqMhz : Nat) (txVector : WifiTxVector)
    (aMpdu : MpduInfo) (signalNoise : SignalNoiseDbm D) : Except Fatal (PcapRecord D) :=
  match dlt with
  | DLT_IEEE802_11 => .ok ⟨env.nowMicroSeconds, none, none, none, packet⟩
  | DLT_PRISM_HEADER => .error .dltPrismHeaderNotImplemented
  | DLT_IEEE802_11_RADIO =>
    let p := packet
    let result := GetRadiotapHeader k env p channelFreqMhz txVector aMpdu
    let header := result.header
    let p := result.packet
    .ok ⟨env.nowMicroSeconds, some header, some signalNoise.signal, some signalNoise.noise, p⟩
  | DLT_OTHER => .error .unexpectedDataLinkType

/-- A transmit environment for the worked examples: centre frequency 5180 MHz, the
default rejection levels, the modulation class of the mode of the TXVECTOR, RU band
(262, 506) for every station, powers in integer units with `DbmToW` the identity, and
a preamble and header of 40 ticks. -/
def exampleTxEnv : TxEnv Int Int :=
  ⟨fun _ => 5180, -20, -28, -40, true, fun ppdu => ppdu.txVector.mode.modulationClass,
    fun ppdu => decide (ppdu.txVector.preambleType = WIFI_PREAMBLE_HE_TB), fun _ => 1,
    fun _ _ => ⟨262, 506⟩, fun _ level => 16 + level, 0, fun a b => a + b, fun d => d,
    fun _ => 40⟩

/-- An environment for the worked examples: powers in integer units, `WToDbm` the
identity, RX sensitivity 10, no RU (the examples are on 802.11a), and a preamble and
header of 40 ticks. -/
def exampleEnv : RxEnv Int Int :=
  ⟨0, fun a b => a + b, fun w => w, fun a b => decide (a < b), 10, fun _ _ => 0,
    fun _ _ _ => [], fun _ => 40⟩

/-- An environment for the worked examples on 802.11ax: as `exampleEnv`, with one RU of
type 0, of sub-carriers -122 to 122, and no RU of the other types. -/
def exampleHeEnv : RxEnv Int Int :=
  ⟨0, fun a b => a + b, fun w => w, fun a b => decide (a < b), 10,
    fun _ type => if type = 0 then 1 else 0, fun _ _ _ => [(-122, 122)], fun _ => 40⟩

/-- An HE TB PPDU of 100 ticks with UID 7, for the worked examples. -/
def exampleHeTbPpdu : WifiPpdu :=
  ⟨⟨WIFI_PREAMBLE_HE_TB, 20, ⟨0, WIFI_MOD_CLASS_HE, 0⟩, 800, 1, 0, false, false⟩, 7, 100⟩

/-- A signal of the given duration whose power in every band is `power`, for the
worked examples. -/
def exampleSignal (duration : Time) (power : Int) (ppdu : Option WifiPpdu) :
    SpectrumSignalParameters Int :=
  ⟨duration, fun _ => power, none, ppdu⟩

end ns3

namespace ns3
open WifiPhyStandard WifiPreamble WifiModulationClass MpduType DataLinkType

/-! ## Band index model: auxiliary facts -/

/-- The band widths `GetBandBandwidth` can return. -/
theorem GetBandBandwidth_cases (phy : SpectrumWifiPhy) (bb : Nat)
    (h : GetBandBandwidth phy = .ok bb) : bb = 312500 ∨ bb = 156250 ∨ bb = 78125 := by
  unfold GetBandBandwidth at h
  cases hs : phy.standard <;> rw [hs] at h <;> simp at h <;> omega

/-- Unfolding of `GetBand` on a PHY whose standard has a band width, in terms of the
quantities it computes. -/
theorem GetBand_unfold (phy : SpectrumWifiPhy) (bandWidth bandIndex bb w C sub T : Nat)
    (hbb : GetBandBandwidth phy = .ok bb) (hw : w = effectiveBandWidth bandWidth)
    (hC : C = numBandsInChannel bb phy.channelWidth w) (hsub : sub = numBandsInBand bb w)
    (hT : T = phy.rxNumBands) :
    GetBand phy bandWidth bandIndex =
      if ¬ (C % 2 = 1 ∧ T % 2 = 1) then .error .shouldHaveOddNumberOfBands
      else if ¬ (bandIndex * w < phy.channelWidth) then .error .bandIndexOutOfBound
      else
        .ok ⟨if (((T + 2 ^ 64 - C) % 2 ^ 64) / 2 + bandIndex * sub) % 2 ^ 64 % 2 ^ 32 ≥ T / 2
              then ((((T + 2 ^ 64 - C) % 2 ^ 64) / 2 + bandIndex * sub) % 2 ^ 64 % 2 ^ 32 + 1)
                % 2 ^ 32
              else (((T + 2 ^ 64 - C) % 2 ^ 64) / 2 + bandIndex * sub) % 2 ^ 64 % 2 ^ 32,
             ((if (((T + 2 ^ 64 - C) % 2 ^ 64) / 2 + bandIndex * sub) % 2 ^ 64 % 2 ^ 32 ≥ T / 2
              then ((((T + 2 ^ 64 - C) % 2 ^ 64) / 2 + bandIndex * sub) % 2 ^ 64 % 2 ^ 32 + 1)
                % 2 ^ 32
              else (((T + 2 ^ 64 - C) % 2 ^ 64) / 2 + bandIndex * sub) % 2 ^ 64 % 2 ^ 32)
              + sub + 2 ^ 64 - 1) % 2 ^ 64 % 2 ^ 32⟩ := by
  subst hw hC hsub hT
  unfold GetBand
  rw [hbb]

/-- A sub-band of less than `2 ^ 16` MHz has at most 838848 bands. -/
theorem numBandsInBand_le (phy : SpectrumWifiPhy) (bb w : Nat)
    (hbb : GetBandBandwidth phy = .ok bb) (hw : w < 2 ^ 16) :
    numBandsInBand bb w ≤ 838848 := by
  unfold numBandsInBand numBandsOf
  rcases GetBandBandwidth_cases phy bb hbb with h | h | h <;> subst h <;> omega

/-- A sub-band of at least 1 MHz has at least 3 bands. -/
theorem numBandsInBand_pos (phy : SpectrumWifiPhy) (bb w : Nat)
    (hbb : GetBandBandwidth phy = .ok bb) (hw : 1 ≤ w) :
    3 ≤ numBandsInBand bb w := by
  unfold numBandsInBand numBandsOf
  rcases GetBandBandwidth_cases phy bb hbb with h | h | h <;> subst h <;> omega

theorem effectiveBandWidth_lt (bandWidth : Nat) (h : bandWidth < 2 ^ 16) :
    effectiveBandWidth bandWidth < 2 ^ 16 := by
  unfold effectiveBandWidth; split_ifs <;> omega

theorem effectiveBandWidth_pos (bandWidth : Nat) (h : 1 ≤ bandWidth) :
    1 ≤ effectiveBandWidth bandWidth := by
  unfold effectiveBandWidth; split_ifs <;> omega

/-- Success of `GetBand` means that the standard has a band width and both assertions hold. -/
theorem GetBand_ok_inv (phy : SpectrumWifiPhy) (bandWidth bandIndex : Nat)
    (b : WifiSpectrumBand) (hok : GetBand phy bandWidth bandIndex = .ok b) :
    ∃ bb, GetBandBandwidth phy = .ok bb
      ∧ numBandsInChannel bb phy.channelWidth (effectiveBandWidth bandWidth) % 2 = 1
      ∧ phy.rxNumBands % 2 = 1
      ∧ bandIndex * effectiveBandWidth bandWidth < phy.channelWidth := by
  cases hbb : GetBandBandwidth phy with
  | error e => unfold GetBand at hok; rw [hbb] at hok; simp at hok
  | ok bb =>
    refine ⟨bb, rfl, ?_⟩
    rw [GetBand_unfold phy bandWidth bandIndex bb _ _ _ _ hbb rfl rfl rfl rfl] at hok
    by_cases h1 : numBandsInChannel bb phy.channelWidth (effectiveBandWidth bandWidth) % 2 = 1
        ∧ phy.rxNumBands % 2 = 1
    · by_cases h2 : bandIndex * effectiveBandWidth bandWidth < phy.channelWidth
      · exact ⟨h1.1, h1.2, h2⟩
      · rw [if_neg (not_not.mpr h1), if_pos h2] at hok; simp at hok
    · rw [if_pos h1] at hok; simp at hok

/-- The band `GetBand` returns when no unsigned operation wraps: the start index is
`v = (T - C) / 2 + bandIndex * sub`, stepped past the centre when `v ≥ T / 2`, and the
band has `sub` bands. -/
theorem GetBand_nowrap (phy : SpectrumWifiPhy) (bandWidth bandIndex bb w C sub T v : Nat)
    (hbb : GetBandBandwidth phy = .ok bb) (hw : w = effectiveBandWidth bandWidth)
    (hC : C = numBandsInChannel bb phy.channelWidth w) (hsub : sub = numBandsInBand bb w)
    (hT : T = phy.rxNumBands) (hv : v = (T - C) / 2 + bandIndex * sub)
    (hCodd : C % 2 = 1) (hTodd : T % 2 = 1) (hidx : bandIndex * w < phy.channelWidth)
    (hCT : C ≤ T) (hsub1 : 1 ≤ sub) (hfit : v + sub < 2 ^ 32) :
    GetBand phy bandWidth bandIndex =
      .ok ⟨if v ≥ T / 2 then v + 1 else v, (if v ≥ T / 2 then v + 1 else v) + sub - 1⟩ := by
  rw [GetBand_unfold phy bandWidth bandIndex bb w C sub T hbb hw hC hsub hT]
  rw [if_neg (by simp [hCodd, hTodd]), if_neg (by simp [hidx])]
  generalize bandIndex * sub = m at *
  have e1 : ((T + 2 ^ 64 - C) % 2 ^ 64 / 2 + m) % 2 ^ 64 % 2 ^ 32 = v := by
    omega
  rw [e1]
  by_cases hge : v ≥ T / 2
  · simp only [hge, if_true]
    have e2 : (v + 1) % 2 ^ 32 = v + 1 := by omega
    rw [e2]
    have e3 : (v + 1 + sub + 2 ^ 64 - 1) % 2 ^ 64 % 2 ^ 32 = v + 1 + sub - 1 := by omega
    rw [e3]
  · simp only [hge, if_false]
    have e3 : (v + sub + 2 ^ 64 - 1) % 2 ^ 64 % 2 ^ 32 = v + sub - 1 := by omega
    rw [e3]

/-- Under the typing of the arguments (`uint16_t` width, `uint8_t` index) and a
spectrum model of at least `C` and fewer than `2 ^ 32` bands, the start index plus
the band size stays below `2 ^ 32`. -/
theorem GetBand_fits (phy : SpectrumWifiPhy) (bandIndex bb w C sub T : Nat)
    (hbb : GetBandBandwidth phy = .ok bb) (hsub : sub = numBandsInBand bb w)
    (hw : w < 2 ^ 16) (hidx : bandIndex < 2 ^ 8) (hT32 : T < 2 ^ 32) :
    (T - C) / 2 + bandIndex * sub + sub + 1 < 2 ^ 32 := by
  have hsle := numBandsInBand_le phy bb w hbb hw
  rw [← hsub] at hsle
  have hm : bandIndex * sub ≤ 255 * 838848 := Nat.mul_le_mul (by omega) hsle
  generalize bandIndex * sub = m at *
  omega

/-- What a successful `GetBand` returns when the spectrum model has at least as many
bands as the channel span and fewer than `2 ^ 32`: the start index, and the stop
index when the sub-band has at least one band. -/
theorem GetBand_ok_value (phy : SpectrumWifiPhy) (bandWidth bandIndex bb w C sub T v : Nat)
    (b : WifiSpectrumBand)
    (hbb : GetBandBandwidth phy = .ok bb) (hw : w = effectiveBandWidth bandWidth)
    (hC : C = numBandsInChannel bb phy.channelWidth w) (hsub : sub = numBandsInBand bb w)
    (hT : T = phy.rxNumBands) (hv : v = (T - C) / 2 + bandIndex * sub)
    (hok : GetBand phy bandWidth bandIndex = .ok b)
    (hbw : bandWidth < 2 ^ 16) (hidx : bandIndex < 2 ^ 8)
    (hCT : C ≤ T) (hT32 : T < 2 ^ 32) :
    b.first = (if v ≥ T / 2 then v + 1 else v)
      ∧ (1 ≤ sub → b.second = b.first + sub - 1) := by
  obtain ⟨bb', hbb', hCodd, hTodd, hi⟩ := GetBand_ok_inv phy bandWidth bandIndex b hok
  have hbeq : bb' = bb := by rw [hbb] at hbb'; injection hbb' with h; exact h.symm
  subst hbeq
  have hfit := GetBand_fits phy bandIndex bb' w C sub T hbb hsub
    (by rw [hw]; exact effectiveBandWidth_lt _ hbw) hidx hT32
  rw [← hw, ← hC] at hCodd
  rw [← hT] at hTodd
  rw [← hw] at hi
  rw [GetBand_unfold phy bandWidth bandIndex bb' w C sub T hbb hw hC hsub hT] at hok
  rw [if_neg (by simp [hCodd, hTodd]), if_neg (by simp [hi])] at hok
  injection hok with hok
  generalize bandIndex * sub = m at *
  have e1 : ((T + 2 ^ 64 - C) % 2 ^ 64 / 2 + m) % 2 ^ 64 % 2 ^ 32 = v := by
    omega
  rw [e1] at hok
  subst hok
  dsimp only
  by_cases hge : v ≥ T / 2
  · simp only [hge, if_true]
    exact ⟨by omega, fun h1 => by omega⟩
  · simp only [hge, if_false]
    exact ⟨trivial, fun h1 => by omega⟩

/-! ## Band index model: `GetBand` -/

/-- Claim C1 fails as stated: on an 802.11a PHY with a 20 MHz channel (65 bands for
centring) whose spectrum model has only 61 bands, `GetBand (20, 0)` passes both
assertions, the unsigned subtraction wraps, and the band returned is
`(4294967295, 62)`: its sub-band has 64 bands, yet `first ≤ second` is false. -/
theorem GetBand_first_second_counterexample :
    GetBand ⟨WIFI_PHY_STANDARD_80211a, 20, 61, false, 0, none, []⟩ 20 0
        = .ok ⟨4294967295, 62⟩
      ∧ numBandsInBand 312500 (effectiveBandWidth 20) = 64
      ∧ numBandsInChannel 312500 20 (effectiveBandWidth 20) = 65
      ∧ ¬ (∀ b : WifiSpectrumBand,
            GetBand ⟨WIFI_PHY_STANDARD_80211a, 20, 61, false, 0, none, []⟩ 20 0 = .ok b →
            1 ≤ numBandsInBand 312500 (effectiveBandWidth 20) → b.first ≤ b.second) := by
  refine ⟨rfl, rfl, rfl, fun h => ?_⟩
  have h1 := h ⟨4294967295, 62⟩ rfl (by decide)
  exact absurd h1 (by decide)

/-- Claim C1, as amended: when `GetBand` succeeds on a spectrum model that has at
least as many bands as the channel span (`numBandsInChannel ≤ totalNumBands`) and
fewer than `2 ^ 32`, the start index is
`(totalNumBands - numBandsInChannel) / 2 + bandIndex * numBandsInBand`, plus one
exactly when that value is at least `totalNumBands / 2`; and whenever the sub-band
has at least one band, the stop index is `first + numBandsInBand - 1`, so
`first ≤ second`. -/
theorem GetBand_first_second (phy : SpectrumWifiPhy) (bandWidth bandIndex bb : Nat)
    (b : WifiSpectrumBand) (hbb : GetBandBandwidth phy = .ok bb)
    (hok : GetBand phy bandWidth bandIndex = .ok b)
    (hbw : bandWidth < 2 ^ 16) (hidx : bandIndex < 2 ^ 8)
    (hCT : numBandsInChannel bb phy.channelWidth (effectiveBandWidth bandWidth) ≤ phy.rxNumBands)
    (hT32 : phy.rxNumBands < 2 ^ 32) :
    (b.first =
        if (phy.rxNumBands
              - numBandsInChannel bb phy.channelWidth (effectiveBandWidth bandWidth)) / 2
            + bandIndex * numBandsInBand bb (effectiveBandWidth bandWidth) ≥ phy.rxNumBands / 2
        then (phy.rxNumBands
              - numBandsInChannel bb phy.channelWidth (effectiveBandWidth bandWidth)) / 2
            + bandIndex * numBandsInBand bb (effectiveBandWidth bandWidth) + 1
        else (phy.rxNumBands
              - numBandsInChannel bb phy.channelWidth (effectiveBandWidth bandWidth)) / 2
            + bandIndex * numBandsInBand bb (effectiveBandWidth bandWidth))
      ∧ (1 ≤ numBandsInBand bb (effectiveBandWidth bandWidth) →
          b.second = b.first + numBandsInBand bb (effectiveBandWidth bandWidth) - 1
            ∧ b.first ≤ b.second) := by
  obtain ⟨h1, h2⟩ := GetBand_ok_value phy bandWidth bandIndex bb _ _ _ _ _ b hbb rfl rfl rfl
    rfl rfl hok hbw hidx hCT hT32
  exact ⟨h1, fun hs => ⟨h2 hs, by have := h2 hs; omega⟩⟩

/-- Worked instance of claim C1 as amended: the second 20 MHz band of a 40 MHz 802.11a
channel (385 bands) is `(193, 256)`. -/
theorem GetBand_first_second_witness :
    GetBand ⟨WIFI_PHY_STANDARD_80211a, 40, 385, false, 0, none, []⟩ 20 1 = .ok ⟨193, 256⟩
      ∧ (193 : Nat) = 128 + 1 * 64 + 1
      ∧ (1 ≤ 64 → (256 : Nat) = 193 + 64 - 1 ∧ (193 : Nat) ≤ 256) :=
  ⟨rfl,
   GetBand_first_second ⟨WIFI_PHY_STANDARD_80211a, 40, 385, false, 0, none, []⟩ 20 1 312500
     ⟨193, 256⟩ rfl rfl (by decide) (by decide) (by decide) (by decide)⟩

/-- The band `GetBand` returns for a sub-band of width 0, which has no bin, on a spectrum
model with fewer than `2 ^ 32` bands, more of them than the channel span: it starts at
the first band of the span and stops one band before. -/
theorem GetBand_width_zero (phy : SpectrumWifiPhy) (bandIndex bb : Nat) (b : WifiSpectrumBand)
    (hbb : GetBandBandwidth phy = .ok bb)
    (hok : GetBand phy 0 bandIndex = .ok b)
    (hCT : numBandsInChannel bb phy.channelWidth (effectiveBandWidth 0) < phy.rxNumBands)
    (hT32 : phy.rxNumBands < 2 ^ 32) :
    b.first = (phy.rxNumBands - numBandsInChannel bb phy.channelWidth (effectiveBandWidth 0)) / 2
      ∧ b.second + 1 = b.first := by
  have hsub : 0 = numBandsInBand bb (effectiveBandWidth 0) := by
    unfold numBandsInBand numBandsOf effectiveBandWidth
    simp
  obtain ⟨bb', hbb', hCodd, hTodd, hidx⟩ := GetBand_ok_inv phy 0 bandIndex b hok
  rw [hbb] at hbb'
  injection hbb' with hbb'
  subst hbb'
  have hC3 : 3 ≤ numBandsInChannel bb phy.channelWidth (effectiveBandWidth 0) := by
    have h3 : 3 ≤ numBandsInBand bb phy.channelWidth :=
      numBandsInBand_pos phy bb phy.channelWidth hbb (by omega)
    unfold numBandsInBand at h3
    unfold numBandsInChannel
    split_ifs <;> omega
  obtain ⟨C, hC⟩ : ∃ C, C = numBandsInChannel bb phy.channelWidth (effectiveBandWidth 0) :=
    ⟨_, rfl⟩
  obtain ⟨T, hT⟩ : ∃ T, T = phy.rxNumBands := ⟨_, rfl⟩
  rw [← hC] at hCodd hCT hC3 ⊢
  rw [← hT] at hTodd hCT hT32 ⊢
  rw [GetBand_unfold phy 0 bandIndex bb _ C 0 T hbb rfl hC hsub hT,
    if_neg (not_not.mpr ⟨hCodd, hTodd⟩), if_neg (not_not.mpr hidx)] at hok
  injection hok with hok
  subst hok
  simp only [Nat.mul_zero, Nat.add_zero]
  have h1 : ((T + 2 ^ 64 - C) % 2 ^ 64 / 2) % 2 ^ 64 % 2 ^ 32 = (T - C) / 2 := by omega
  rw [h1]
  have h2 : ¬ ((T - C) / 2 ≥ T / 2) := by omega
  rw [if_neg h2]
  constructor
  · trivial
  · omega

/-- Claim C2: on a spectrum model with at least as many bands as the channel span (and
fewer than `2 ^ 32`, the range of the members of a band), the bands `GetBand` returns
for two valid indices `i < j` are disjoint, the stop index of band `i` being below the
start index of band `j`: for every sub-band width of at least 1 MHz, and also for the
sub-band width 0 when the model has more bands than the channel span, as every model
with guard bands has.  (`GetBand` returns a band only for an odd number of bands and a
valid index.) -/
theorem GetBand_disjoint (phy : SpectrumWifiPhy) (bandWidth i j bb : Nat)
    (bi bj : WifiSpectrumBand) (hbb : GetBandBandwidth phy = .ok bb)
    (hi : GetBand phy bandWidth i = .ok bi) (hj : GetBand phy bandWidth j = .ok bj)
    (hij : i < j) (hj8 : j < 2 ^ 8) (hbw : bandWidth < 2 ^ 16)
    (hCT : numBandsInChannel bb phy.channelWidth (effectiveBandWidth bandWidth) ≤ phy.rxNumBands)
    (hT32 : phy.rxNumBands < 2 ^ 32)
    (hdom : 1 ≤ bandWidth
      ∨ numBandsInChannel bb phy.channelWidth (effectiveBandWidth bandWidth) < phy.rxNumBands) :
    bi.second < bj.first := by
  by_cases hbw1 : 1 ≤ bandWidth
  · obtain ⟨hi1, hi2⟩ := GetBand_ok_value phy bandWidth i bb _ _ _ _ _ bi hbb rfl rfl rfl
      rfl rfl hi hbw (by omega) hCT hT32
    obtain ⟨hj1, _⟩ := GetBand_ok_value phy bandWidth j bb _ _ _ _ _ bj hbb rfl rfl rfl
      rfl rfl hj hbw hj8 hCT hT32
    have hs := numBandsInBand_pos phy bb _ hbb (effectiveBandWidth_pos bandWidth hbw1)
    have hi2 := hi2 (by omega)
    have hmul : (i + 1) * numBandsInBand bb (effectiveBandWidth bandWidth)
        ≤ j * numBandsInBand bb (effectiveBandWidth bandWidth) :=
      Nat.mul_le_mul_right _ (by omega)
    rw [Nat.add_mul, Nat.one_mul] at hmul
    generalize numBandsInChannel bb phy.channelWidth (effectiveBandWidth bandWidth) = C at *
    generalize numBandsInBand bb (effectiveBandWidth bandWidth) = sub at *
    generalize phy.rxNumBands = T at *
    generalize i * sub = a at *
    generalize j * sub = a' at *
    rw [hi2, hi1, hj1]
    split_ifs <;> omega
  · have h0 : bandWidth = 0 := by omega
    subst h0
    have hlt := hdom.resolve_left hbw1
    obtain ⟨hi1, hi2⟩ := GetBand_width_zero phy i bb bi hbb hi hlt hT32
    obtain ⟨hj1, _⟩ := GetBand_width_zero phy j bb bj hbb hj hlt hT32
    omega

/-- Worked instance of claim C2: the two 20 MHz bands of a 40 MHz 802.11a channel
(385 bands), `(128, 191)` and `(193, 256)`; and the sub-band width 0 on a 5 MHz 802.11a
channel of 49 bands, where the bands of index 0 and 1 are both `(16, 15)`. -/
theorem GetBand_disjoint_witness :
    (GetBand ⟨WIFI_PHY_STANDARD_80211a, 40, 385, false, 0, none, []⟩ 20 0 = .ok ⟨128, 191⟩
      ∧ GetBand ⟨WIFI_PHY_STANDARD_80211a, 40, 385, false, 0, none, []⟩ 20 1 = .ok ⟨193, 256⟩
      ∧ (191 : Nat) < 193)
    ∧ (GetBand ⟨WIFI_PHY_STANDARD_80211a, 5, 49, false, 0, none, []⟩ 0 0 = .ok ⟨16, 15⟩
      ∧ GetBand ⟨WIFI_PHY_STANDARD_80211a, 5, 49, false, 0, none, []⟩ 0 1 = .ok ⟨16, 15⟩
      ∧ (15 : Nat) < 16) :=
  ⟨⟨rfl, rfl,
     GetBand_disjoint ⟨WIFI_PHY_STANDARD_80211a, 40, 385, false, 0, none, []⟩ 20 0 1 312500
       ⟨128, 191⟩ ⟨193, 256⟩ rfl rfl rfl (by decide) (by decide) (by decide) (by decide)
       (by decide) (Or.inl (by decide))⟩,
   ⟨rfl, rfl,
     GetBand_disjoint ⟨WIFI_PHY_STANDARD_80211a, 5, 49, false, 0, none, []⟩ 0 0 1 312500
       ⟨16, 15⟩ ⟨16, 15⟩ rfl rfl rfl (by decide) (by decide) (by decide) (by decide)
       (by decide) (Or.inr (by decide))⟩⟩

/-- The bands of a channel split into an even number `2 * m` of sub-bands whose bands
add up to those of the channel: band `i` starts `(m - i) * sub` bands below the centre
band `T / 2` when `i < m`, and `(i - m) * sub + 1` bands above it otherwise. -/
theorem GetBand_even_split (phy : SpectrumWifiPhy) (bandWidth bb w sub T m i : Nat)
    (hbb : GetBandBandwidth phy = .ok bb) (hw : w = effectiveBandWidth bandWidth)
    (hsub : sub = numBandsInBand bb w) (hT : T = phy.rxNumBands)
    (hbw1 : 1 ≤ bandWidth) (hbw : bandWidth < 2 ^ 16)
    (hcw : phy.channelWidth = 2 * m * w) (hm : 2 * m ≤ 256)
    (hbins : numBandsOf phy.channelWidth bb = 2 * m * sub)
    (hseven : sub % 2 = 0) (hTodd : T % 2 = 1)
    (hCT : numBandsInChannel bb phy.channelWidth w ≤ T) (hT32 : T < 2 ^ 32)
    (hi : i < 2 * m) :
    GetBand phy bandWidth i =
        .ok (if i < m then ⟨T / 2 - m * sub + i * sub, T / 2 - m * sub + i * sub + sub - 1⟩
             else ⟨T / 2 - m * sub + i * sub + 1, T / 2 - m * sub + i * sub + sub⟩)
      ∧ m * sub ≤ T / 2 ∧ 3 ≤ sub := by
  have hw1 : 1 ≤ w := by rw [hw]; exact effectiveBandWidth_pos _ hbw1
  have hw16 : w < 2 ^ 16 := by rw [hw]; exact effectiveBandWidth_lt _ hbw
  have hs3 := numBandsInBand_pos phy bb w hbb hw1
  rw [← hsub] at hs3
  have hCval : numBandsInChannel bb phy.channelWidth w = 2 * (m * sub) + 1 := by
    unfold numBandsInChannel
    rw [← hsub, if_pos hseven, hbins, Nat.mul_assoc]
  have hidx : i * w < phy.channelWidth := by
    rw [hcw]; exact Nat.mul_lt_mul_of_lt_of_le hi (le_refl w) (by omega)
  have hfit := GetBand_fits phy i bb w (numBandsInChannel bb phy.channelWidth w) sub T hbb hsub
    hw16 (by omega) hT32
  have hg := GetBand_nowrap phy bandWidth i bb w (numBandsInChannel bb phy.channelWidth w) sub T
    ((T - numBandsInChannel bb phy.channelWidth w) / 2 + i * sub) hbb hw rfl hsub hT rfl
    (by rw [hCval]; omega) hTodd hidx hCT (by omega) (by omega)
  rw [hg]
  rw [hCval] at hCT ⊢
  have hlt : i < m → i * sub + sub ≤ m * sub := fun h => by
    have := Nat.mul_le_mul_right sub (show i + 1 ≤ m by omega)
    rwa [Nat.add_mul, Nat.one_mul] at this
  have hge : ¬ i < m → m * sub ≤ i * sub := fun h =>
    Nat.mul_le_mul_right sub (by omega)
  generalize m * sub = M at *
  generalize i * sub = a at *
  refine ⟨?_, by omega, hs3⟩
  by_cases him : i < m
  · have := hlt him
    rw [if_pos him, if_neg (by omega)]
    congr 1
    have e : (T - (2 * M + 1)) / 2 + a = T / 2 - M + a := by omega
    rw [e]
  · have := hge him
    rw [if_neg him, if_pos (by omega)]
    congr 1
    have e1 : (T - (2 * M + 1)) / 2 + a + 1 = T / 2 - M + a + 1 := by omega
    have e2 : (T - (2 * M + 1)) / 2 + a + 1 + sub - 1 = T / 2 - M + a + sub := by omega
    rw [e2, e1]

/-- One direction of the symmetry of the union of the bands of an even split: the
mirror image about the centre band of a band index covered by band `i` is covered by
band `2 * m - 1 - i`. -/
theorem GetBand_mirror (phy : SpectrumWifiPhy) (bandWidth bb m : Nat)
    (hbb : GetBandBandwidth phy = .ok bb)
    (hbw1 : 1 ≤ bandWidth) (hbw : bandWidth < 2 ^ 16)
    (hcw : phy.channelWidth = 2 * m * effectiveBandWidth bandWidth) (hm : 2 * m ≤ 256)
    (hbins : numBandsOf phy.channelWidth bb
      = 2 * m * numBandsInBand bb (effectiveBandWidth bandWidth))
    (hCT : numBandsInChannel bb phy.channelWidth (effectiveBandWidth bandWidth) ≤ phy.rxNumBands)
    (hT32 : phy.rxNumBands < 2 ^ 32)
    (x y : Nat) (hxy : x + y = 2 * (phy.rxNumBands / 2))
    (hx : ∃ i b, i * effectiveBandWidth bandWidth < phy.channelWidth
      ∧ GetBand phy bandWidth i = .ok b ∧ b.first ≤ x ∧ x ≤ b.second) :
    ∃ i b, i * effectiveBandWidth bandWidth < phy.channelWidth
      ∧ GetBand phy bandWidth i = .ok b ∧ b.first ≤ y ∧ y ≤ b.second := by
  obtain ⟨i, b, hiv, hok, hx1, hx2⟩ := hx
  obtain ⟨bb', hbb', hCodd, hTodd, _⟩ := GetBand_ok_inv phy bandWidth i b hok
  have hbeq : bb' = bb := by rw [hbb] at hbb'; injection hbb' with h; exact h.symm
  subst hbeq
  have hw1 : 1 ≤ effectiveBandWidth bandWidth := effectiveBandWidth_pos _ hbw1
  have hi : i < 2 * m := by
    rw [hcw] at hiv
    exact Nat.lt_of_mul_lt_mul_right hiv
  have hseven : numBandsInBand bb' (effectiveBandWidth bandWidth) % 2 = 0 := by
    by_contra hodd
    unfold numBandsInChannel at hCodd
    rw [if_neg hodd, hbins, Nat.mul_assoc] at hCodd
    omega
  obtain ⟨hb, hM, hs3⟩ := GetBand_even_split phy bandWidth bb' _ _ _ m i hbb rfl rfl rfl hbw1 hbw
    hcw hm hbins hseven hTodd hCT hT32 hi
  obtain ⟨hb', _, _⟩ := GetBand_even_split phy bandWidth bb' _ _ _ m (2 * m - 1 - i) hbb rfl rfl
    rfl hbw1 hbw hcw hm hbins hseven hTodd hCT hT32 (by omega)
  have hi' : (2 * m - 1 - i) * effectiveBandWidth bandWidth < phy.channelWidth := by
    rw [hcw]; exact Nat.mul_lt_mul_of_lt_of_le (by omega) (le_refl _) (by omega)
  refine ⟨2 * m - 1 - i, _, hi', hb', ?_⟩
  rw [hb] at hok
  injection hok with hok
  subst hok
  have hsum : i * numBandsInBand bb' (effectiveBandWidth bandWidth)
      + (2 * m - 1 - i) * numBandsInBand bb' (effectiveBandWidth bandWidth)
      + numBandsInBand bb' (effectiveBandWidth bandWidth)
      = 2 * (m * numBandsInBand bb' (effectiveBandWidth bandWidth)) := by
    rw [← Nat.add_mul, ← Nat.succ_mul, ← Nat.mul_assoc]
    congr 1
    omega
  have hlt : i < m → i * numBandsInBand bb' (effectiveBandWidth bandWidth)
      + numBandsInBand bb' (effectiveBandWidth bandWidth)
      ≤ m * numBandsInBand bb' (effectiveBandWidth bandWidth) := fun h => by
    have := Nat.mul_le_mul_right (numBandsInBand bb' (effectiveBandWidth bandWidth))
      (show i + 1 ≤ m by omega)
    rwa [Nat.add_mul, Nat.one_mul] at this
  have hge : ¬ i < m → m * numBandsInBand bb' (effectiveBandWidth bandWidth)
      ≤ i * numBandsInBand bb' (effectiveBandWidth bandWidth) := fun h =>
    Nat.mul_le_mul_right _ (by omega)
  generalize numBandsInBand bb' (effectiveBandWidth bandWidth) = sub at *
  generalize phy.rxNumBands = T at *
  generalize m * sub = M at *
  generalize i * sub = a at *
  generalize (2 * m - 1 - i) * sub = a' at *
  by_cases him : i < m
  · have := hlt him
    rw [if_pos him] at hx1 hx2
    rw [if_neg (by omega)]
    simp only at hx1 hx2 ⊢
    omega
  · have := hge him
    rw [if_neg him] at hx1 hx2
    rw [if_pos (by omega)]
    simp only at hx1 hx2 ⊢
    omega

/-- Claim C3 fails as stated: the single 20 MHz band of a 20 MHz 802.11a channel
(193 bands, centre band 96) is `(64, 127)`; band 64 belongs to it, its mirror image
`2 * 96 - 64 = 128` does not. -/
theorem GetBand_union_symmetric_counterexample :
    GetBand ⟨WIFI_PHY_STANDARD_80211a, 20, 193, false, 0, none, []⟩ 20 0 = .ok ⟨64, 127⟩
      ∧ 64 + 128 = 2 * (193 / 2)
      ∧ ¬ ((∃ i b, i * effectiveBandWidth 20 < 20
              ∧ GetBand ⟨WIFI_PHY_STANDARD_80211a, 20, 193, false, 0, none, []⟩ 20 i = .ok b
              ∧ b.first ≤ 64 ∧ 64 ≤ b.second)
            ↔ (∃ i b, i * effectiveBandWidth 20 < 20
              ∧ GetBand ⟨WIFI_PHY_STANDARD_80211a, 20, 193, false, 0, none, []⟩ 20 i = .ok b
              ∧ b.first ≤ 128 ∧ 128 ≤ b.second)) := by
  refine ⟨rfl, by decide, fun h => ?_⟩
  obtain ⟨i, b, hi, hb, _, h2⟩ := h.mp ⟨0, ⟨64, 127⟩, by decide, rfl, by decide, by decide⟩
  have hi0 : i = 0 := by
    have : effectiveBandWidth 20 = 20 := by decide
    rw [this] at hi
    omega
  subst hi0
  have hb' : GetBand ⟨WIFI_PHY_STANDARD_80211a, 20, 193, false, 0, none, []⟩ 20 0
      = .ok ⟨64, 127⟩ := rfl
  rw [hb'] at hb
  injection hb with hb
  subst hb
  exact absurd h2 (by decide)

/-- Claim C3, as amended: when the channel is an even number `2 * m ≤ 256` of
sub-bands of at least 1 MHz whose bands add up to those of the channel
(`numBandsOf channelWidth = 2 * m * numBandsInBand`), on a spectrum model with at
least as many bands as the channel span and fewer than `2 ^ 32`, the union of the
bands `GetBand` returns over all valid indices is symmetric about the centre band
`c = totalNumBands / 2`: for `x + y = 2 * c`, `x` is in the union iff `y` is. -/
theorem GetBand_union_symmetric (phy : SpectrumWifiPhy) (bandWidth bb m : Nat)
    (hbb : GetBandBandwidth phy = .ok bb)
    (hbw1 : 1 ≤ bandWidth) (hbw : bandWidth < 2 ^ 16)
    (hcw : phy.channelWidth = 2 * m * effectiveBandWidth bandWidth) (hm : 2 * m ≤ 256)
    (hbins : numBandsOf phy.channelWidth bb
      = 2 * m * numBandsInBand bb (effectiveBandWidth bandWidth))
    (hCT : numBandsInChannel bb phy.channelWidth (effectiveBandWidth bandWidth) ≤ phy.rxNumBands)
    (hT32 : phy.rxNumBands < 2 ^ 32)
    (x y : Nat) (hxy : x + y = 2 * (phy.rxNumBands / 2)) :
    (∃ i b, i * effectiveBandWidth bandWidth < phy.channelWidth
        ∧ GetBand phy bandWidth i = .ok b ∧ b.first ≤ x ∧ x ≤ b.second)
      ↔ (∃ i b, i * effectiveBandWidth bandWidth < phy.channelWidth
        ∧ GetBand phy bandWidth i = .ok b ∧ b.first ≤ y ∧ y ≤ b.second) :=
  ⟨GetBand_mirror phy bandWidth bb m hbb hbw1 hbw hcw hm hbins hCT hT32 x y hxy,
   GetBand_mirror phy bandWidth bb m hbb hbw1 hbw hcw hm hbins hCT hT32 y x
     (by rw [Nat.add_comm]; exact hxy)⟩

/-- Worked instance of claim C3 as amended: a 40 MHz 802.11a channel (385 bands, centre
192) split into two 20 MHz bands `(128, 191)` and `(193, 256)`; band 130 is in the
first, its mirror image 254 in the second. -/
theorem GetBand_union_symmetric_witness :
    (GetBand ⟨WIFI_PHY_STANDARD_80211a, 40, 385, false, 0, none, []⟩ 20 0 = .ok ⟨128, 191⟩
      ∧ GetBand ⟨WIFI_PHY_STANDARD_80211a, 40, 385, false, 0, none, []⟩ 20 1 = .ok ⟨193, 256⟩)
      ∧ ((∃ i b, i * effectiveBandWidth 20 < 40
            ∧ GetBand ⟨WIFI_PHY_STANDARD_80211a, 40, 385, false, 0, none, []⟩ 20 i = .ok b
            ∧ b.first ≤ 130 ∧ 130 ≤ b.second)
          ↔ (∃ i b, i * effectiveBandWidth 20 < 40
            ∧ GetBand ⟨WIFI_PHY_STANDARD_80211a, 40, 385, false, 0, none, []⟩ 20 i = .ok b
            ∧ b.first ≤ 254 ∧ 254 ≤ b.second)) :=
  ⟨⟨rfl, rfl⟩,
   GetBand_union_symmetric ⟨WIFI_PHY_STANDARD_80211a, 40, 385, false, 0, none, []⟩ 20 312500 1
     rfl (by decide) (by decide) (by decide) (by decide) (by decide) (by decide) (by decide)
     130 254 (by decide)⟩

/-- Claim C4 fails as stated: on a 20 MHz 802.11a channel (193 bands, centre 96) the
sub-band width 2 MHz divides the channel into `n = 10` sub-bands of 6 bands each
(even), and `193 ≥ 65`; yet the band of index `n / 2 = 5` is `(94, 99)`: it does not
start at `96 + 1`, and it contains the centre band 96. -/
theorem GetBand_centre_skipped_counterexample :
    GetBand ⟨WIFI_PHY_STANDARD_80211a, 20, 193, false, 0, none, []⟩ 2 5 = .ok ⟨94, 99⟩
      ∧ 20 = 2 * 5 * effectiveBandWidth 2
      ∧ numBandsInBand 312500 (effectiveBandWidth 2) % 2 = 0
      ∧ 193 % 2 = 1
      ∧ numBandsInChannel 312500 20 (effectiveBandWidth 2) ≤ 193
      ∧ ¬ (∀ b : WifiSpectrumBand,
            GetBand ⟨WIFI_PHY_STANDARD_80211a, 20, 193, false, 0, none, []⟩ 2 5 = .ok b →
            b.first = 193 / 2 + 1 ∧ ¬ (b.first ≤ 193 / 2 ∧ 193 / 2 ≤ b.second)) := by
  refine ⟨rfl, by decide, by decide, by decide, by decide, fun h => ?_⟩
  have h1 := (h ⟨94, 99⟩ rfl).1
  exact absurd h1 (by decide)

/-- Claim C4, as amended: when the channel is an even number `2 * m` (`1 ≤ m`,
`2 * m ≤ 256`) of sub-bands of at least 1 MHz, the sub-band has an even number of
bands, and the bands of the sub-bands add up to those of the channel
(`numBandsOf channelWidth = 2 * m * numBandsInBand`), on a spectrum model with an
odd number of bands, at least the channel span and fewer than `2 ^ 32`: `GetBand`
returns a band for index `m - 1` that stops at `centre - 1` and a band for index `m`
that starts at `centre + 1`, and the centre band `totalNumBands / 2` belongs to none
of the bands it returns. -/
theorem GetBand_centre_skipped (phy : SpectrumWifiPhy) (bandWidth bb m : Nat)
    (hbb : GetBandBandwidth phy = .ok bb)
    (hbw1 : 1 ≤ bandWidth) (hbw : bandWidth < 2 ^ 16)
    (hcw : phy.channelWidth = 2 * m * effectiveBandWidth bandWidth)
    (hm1 : 1 ≤ m) (hm : 2 * m ≤ 256)
    (hbins : numBandsOf phy.channelWidth bb
      = 2 * m * numBandsInBand bb (effectiveBandWidth bandWidth))
    (hseven : numBandsInBand bb (effectiveBandWidth bandWidth) % 2 = 0)
    (hTodd : phy.rxNumBands % 2 = 1)
    (hCT : numBandsInChannel bb phy.channelWidth (effectiveBandWidth bandWidth) ≤ phy.rxNumBands)
    (hT32 : phy.rxNumBands < 2 ^ 32) :
    (∃ b, GetBand phy bandWidth (m - 1) = .ok b ∧ b.second + 1 = phy.rxNumBands / 2)
      ∧ (∃ b, GetBand phy bandWidth m = .ok b ∧ b.first = phy.rxNumBands / 2 + 1)
      ∧ ∀ i b, GetBand phy bandWidth i = .ok b →
          ¬ (b.first ≤ phy.rxNumBands / 2 ∧ phy.rxNumBands / 2 ≤ b.second) := by
  have hw1 : 1 ≤ effectiveBandWidth bandWidth := effectiveBandWidth_pos _ hbw1
  have hsplit := fun i (hi : i < 2 * m) =>
    GetBand_even_split phy bandWidth bb _ _ _ m i hbb rfl rfl rfl hbw1 hbw hcw hm hbins hseven
      hTodd hCT hT32 hi
  have hlt : ∀ i, i < m → i * numBandsInBand bb (effectiveBandWidth bandWidth)
      + numBandsInBand bb (effectiveBandWidth bandWidth)
      ≤ m * numBandsInBand bb (effectiveBandWidth bandWidth) := fun i h => by
    have := Nat.mul_le_mul_right (numBandsInBand bb (effectiveBandWidth bandWidth))
      (show i + 1 ≤ m by omega)
    rwa [Nat.add_mul, Nat.one_mul] at this
  have hge : ∀ i, ¬ i < m → m * numBandsInBand bb (effectiveBandWidth bandWidth)
      ≤ i * numBandsInBand bb (effectiveBandWidth bandWidth) := fun i h =>
    Nat.mul_le_mul_right _ (by omega)
  refine ⟨?_, ?_, ?_⟩
  · obtain ⟨hb, hM, hs3⟩ := hsplit (m - 1) (by omega)
    refine ⟨_, hb, ?_⟩
    rw [if_pos (by omega)]
    have h1 : (m - 1) * numBandsInBand bb (effectiveBandWidth bandWidth)
        + numBandsInBand bb (effectiveBandWidth bandWidth)
        = m * numBandsInBand bb (effectiveBandWidth bandWidth) := by
      rw [← Nat.succ_mul]; congr 1; omega
    simp only
    omega
  · obtain ⟨hb, hM, hs3⟩ := hsplit m (by omega)
    refine ⟨_, hb, ?_⟩
    rw [if_neg (by omega)]
    simp only
    omega
  · intro i b hok
    obtain ⟨bb', hbb', _, _, hiv⟩ := GetBand_ok_inv phy bandWidth i b hok
    have hi : i < 2 * m := by
      rw [hcw] at hiv
      exact Nat.lt_of_mul_lt_mul_right hiv
    obtain ⟨hb, hM, hs3⟩ := hsplit i hi
    rw [hb] at hok
    injection hok with hok
    subst hok
    have h1 := hlt i
    have h2 := hge i
    generalize numBandsInBand bb (effectiveBandWidth bandWidth) = sub at *
    generalize m * sub = M at *
    generalize i * sub = a at *
    by_cases him : i < m
    · have := h1 him
      rw [if_pos him]
      simp only
      omega
    · have := h2 him
      rw [if_neg him]
      simp only
      omega

/-- Worked instance of claim C4 as amended: a 40 MHz 802.11a channel (385 bands, centre
192) and its two 20 MHz bands. -/
theorem GetBand_centre_skipped_witness :
    (GetBand ⟨WIFI_PHY_STANDARD_80211a, 40, 385, false, 0, none, []⟩ 20 0 = .ok ⟨128, 191⟩
      ∧ GetBand ⟨WIFI_PHY_STANDARD_80211a, 40, 385, false, 0, none, []⟩ 20 1 = .ok ⟨193, 256⟩)
      ∧ ((∃ b, GetBand ⟨WIFI_PHY_STANDARD_80211a, 40, 385, false, 0, none, []⟩ 20 (1 - 1) = .ok b
            ∧ b.second + 1 = 385 / 2)
        ∧ (∃ b, GetBand ⟨WIFI_PHY_STANDARD_80211a, 40, 385, false, 0, none, []⟩ 20 1 = .ok b
            ∧ b.first = 385 / 2 + 1)
        ∧ ∀ i b, GetBand ⟨WIFI_PHY_STANDARD_80211a, 40, 385, false, 0, none, []⟩ 20 i = .ok b →
            ¬ (b.first ≤ 385 / 2 ∧ 385 / 2 ≤ b.second)) :=
  ⟨⟨rfl, rfl⟩,
   GetBand_centre_skipped ⟨WIFI_PHY_STANDARD_80211a, 40, 385, false, 0, none, []⟩ 20 312500 1
     rfl (by decide) (by decide) (by decide) (by decide) (by decide) (by decide) (by decide)
     (by decide) (by decide) (by decide)⟩

/-- Claim C5: when the spectrum model has an even number of bands, or when
`bandIndex * bandWidth ≥ channelWidth` (a band width of 22 counted as 20), `GetBand`
ends in a fatal error: it returns no band. -/
theorem GetBand_fatal (phy : SpectrumWifiPhy) (bandWidth bandIndex : Nat)
    (h : phy.rxNumBands % 2 = 0
      ∨ phy.channelWidth ≤ bandIndex * (if bandWidth = 22 then 20 else bandWidth)) :
    (∃ e, GetBand phy bandWidth bandIndex = .error e)
      ∧ ∀ b, GetBand phy bandWidth bandIndex ≠ .ok b := by
  have hno : ∀ b, GetBand phy bandWidth bandIndex ≠ .ok b := by
    intro b hok
    obtain ⟨_, _, _, hT, hi⟩ := GetBand_ok_inv phy bandWidth bandIndex b hok
    unfold effectiveBandWidth at hi
    rcases h with h | h <;> omega
  refine ⟨?_, hno⟩
  cases hres : GetBand phy bandWidth bandIndex with
  | error e => exact ⟨e, rfl⟩
  | ok b => exact absurd hres (hno b)

/-- Worked instance of claim C5: index 2 of the 20 MHz bands of a 40 MHz channel is out
of range. -/
theorem GetBand_fatal_witness :
    GetBand ⟨WIFI_PHY_STANDARD_80211a, 40, 385, false, 0, none, []⟩ 20 2
        = .error .bandIndexOutOfBound
      ∧ ((∃ e, GetBand ⟨WIFI_PHY_STANDARD_80211a, 40, 385, false, 0, none, []⟩ 20 2 = .error e)
        ∧ ∀ b, GetBand ⟨WIFI_PHY_STANDARD_80211a, 40, 385, false, 0, none, []⟩ 20 2 ≠ .ok b) :=
  ⟨rfl, GetBand_fatal ⟨WIFI_PHY_STANDARD_80211a, 40, 385, false, 0, none, []⟩ 20 2
    (Or.inr (by decide))⟩

/-! ## Resource-unit band converter: `ConvertHeRuSubcarriers` -/

/-- For the four supported widths the guard bandwidth is the channel width and the
number of guard bands is an exact quotient: nothing is rounded. -/
theorem nGuardBandsOf_exact (phy : SpectrumWifiPhy) (bb channelWidth : Nat)
    (hbb : GetBandBandwidth phy = .ok bb)
    (hcw : channelWidth = 20 ∨ channelWidth = 40 ∨ channelWidth = 80 ∨ channelWidth = 160) :
    nGuardBandsOf (GetGuardBandwidth channelWidth) bb * bb = 2 * channelWidth * 1000000 := by
  unfold nGuardBandsOf GetGuardBandwidth
  rcases GetBandBandwidth_cases phy bb hbb with h | h | h <;> subst h <;>
    rcases hcw with h | h | h | h <;> subst h <;> decide

/-- Claim C6: on a PHY whose standard has a band width `bb`,
`ConvertHeRuSubcarriers (channelWidth, (lo, hi))` succeeds exactly for the channel
widths 20, 40, 80 and 160; it then returns `(anchor + lo, anchor + hi)` (sums of
`uint32_t`, equal to the integer sums whenever these are not negative) with
`anchor = nGuardBands / 2 + 128`, `256`, `512`, `1024` respectively, where
`nGuardBands = 2 * guardBandwidth * 10 ^ 6 / bb` exactly; for every other channel
width it is the fatal error "ChannelWidth unsupported". -/
theorem ConvertHeRuSubcarriers_spec (phy : SpectrumWifiPhy) (bb channelWidth : Nat)
    (lo hi : Int) (hbb : GetBandBandwidth phy = .ok bb)
    (hlo : -2 ^ 15 ≤ lo ∧ lo < 2 ^ 15) (hhi : -2 ^ 15 ≤ hi ∧ hi < 2 ^ 15) :
    ((channelWidth = 20 ∨ channelWidth = 40 ∨ channelWidth = 80 ∨ channelWidth = 160) →
        ∃ anchor : Nat,
          anchor = nGuardBandsOf (GetGuardBandwidth channelWidth) bb / 2
              + (if channelWidth = 20 then 128 else if channelWidth = 40 then 256
                 else if channelWidth = 80 then 512 else 1024)
            ∧ nGuardBandsOf (GetGuardBandwidth channelWidth) bb * bb
                = 2 * GetGuardBandwidth channelWidth * 1000000
            ∧ ConvertHeRuSubcarriers phy channelWidth (lo, hi)
                = .ok ⟨(((anchor : Int) + lo) % 2 ^ 32).toNat, (((anchor : Int) + hi) % 2 ^ 32).toNat⟩
            ∧ (0 ≤ (anchor : Int) + lo →
                (((((anchor : Int) + lo) % 2 ^ 32).toNat : Nat) : Int) = (anchor : Int) + lo)
            ∧ (0 ≤ (anchor : Int) + hi →
                (((((anchor : Int) + hi) % 2 ^ 32).toNat : Nat) : Int) = (anchor : Int) + hi))
      ∧ (¬ (channelWidth = 20 ∨ channelWidth = 40 ∨ channelWidth = 80 ∨ channelWidth = 160) →
          ConvertHeRuSubcarriers phy channelWidth (lo, hi) = .error .channelWidthUnsupported) := by
  constructor
  · intro hcw
    have hex := nGuardBandsOf_exact phy bb channelWidth hbb hcw
    have hg : GetGuardBandwidth channelWidth = channelWidth := by
      unfold GetGuardBandwidth; rw [if_neg (by omega)]
    have hn : nGuardBandsOf (GetGuardBandwidth channelWidth) bb ≤ 4096 := by
      rcases GetBandBandwidth_cases phy bb hbb with h | h | h <;> subst h <;> omega
    refine ⟨_, rfl, by rw [hg] at hex ⊢; exact hex, ?_, ?_, ?_⟩
    · unfold ConvertHeRuSubcarriers
      rw [hbb]
      simp only []
      generalize nGuardBandsOf (GetGuardBandwidth channelWidth) bb = n at *
      have e1 : ∀ k, k ≤ 1024 → (n / 2 + k) % 2 ^ 32 = n / 2 + k := fun k hk => by omega
      rcases hcw with h | h | h | h <;> subst h <;>
        simp only [Nat.add_assoc, Nat.reduceAdd, Nat.reduceEqDiff, if_true, if_false] <;>
        rw [e1 _ (by omega)]
    · intro h0
      generalize nGuardBandsOf (GetGuardBandwidth channelWidth) bb = n at *
      split_ifs at h0 ⊢ <;> omega
    · intro h0
      generalize nGuardBandsOf (GetGuardBandwidth channelWidth) bb = n at *
      split_ifs at h0 ⊢ <;> omega
  · intro hcw
    unfold ConvertHeRuSubcarriers
    rw [hbb]
    simp only [not_or] at hcw
    simp [hcw.1, hcw.2.1, hcw.2.2.1, hcw.2.2.2]

/-- Worked instance of claim C6: the 242-tone RU `(-122, 122)` of a 20 MHz
802.11ax channel maps to `(262, 506)`, the anchor being `512 / 2 + 128 = 384`. -/
theorem ConvertHeRuSubcarriers_spec_witness :
    ConvertHeRuSubcarriers ⟨WIFI_PHY_STANDARD_80211ax_5GHZ, 20, 769, false, 0, none, []⟩ 20
        (-122, 122) = .ok ⟨262, 506⟩
      ∧ ConvertHeRuSubcarriers ⟨WIFI_PHY_STANDARD_80211ax_5GHZ, 20, 769, false, 0, none, []⟩ 10
        (-122, 122) = .error .channelWidthUnsupported :=
  ⟨rfl,
   (ConvertHeRuSubcarriers_spec ⟨WIFI_PHY_STANDARD_80211ax_5GHZ, 20, 769, false, 0, none, []⟩
     78125 10 (-122) 122 rfl (by decide) (by decide)).2 (by decide)⟩

/-! ## Receive dispatch: `StartRx` -/

/-- Entries stored under other UIDs are not affected by `preambleEventsErase`. -/
theorem preambleEventsFind_erase_ne (events : List (Nat × Event)) (uid k : Nat) (h : k ≠ uid) :
    preambleEventsFind (preambleEventsErase events uid) k = preambleEventsFind events k := by
  induction events with
  | nil => rfl
  | cons entry rest ih =>
    obtain ⟨k', e⟩ := entry
    unfold preambleEventsErase
    by_cases hk : k' = uid
    · rw [if_pos hk]
      conv_rhs => unfold preambleEventsFind
      rw [if_neg (by omega)]
    · rw [if_neg hk]
      unfold preambleEventsFind
      rw [ih]

/-- A UID that is not a key is not found. -/
theorem preambleEventsFind_none (events : List (Nat × Event)) (uid : Nat)
    (h : uid ∉ events.map Prod.fst) : preambleEventsFind events uid = none := by
  induction events with
  | nil => rfl
  | cons entry rest ih =>
    obtain ⟨k', e⟩ := entry
    simp only [List.map_cons, List.mem_cons, not_or] at h
    unfold preambleEventsFind
    rw [if_neg (fun hk => h.1 hk.symm)]
    exact ih h.2

/-- In a table with distinct keys (a `std::map`), nothing is stored under a UID after
`preambleEventsErase`. -/
theorem preambleEventsFind_erase_self (events : List (Nat × Event)) (uid : Nat)
    (hnd : (events.map Prod.fst).Nodup) :
    preambleEventsFind (preambleEventsErase events uid) uid = none := by
  induction events with
  | nil => rfl
  | cons entry rest ih =>
    obtain ⟨k', e⟩ := entry
    simp only [List.map_cons, List.nodup_cons] at hnd
    unfold preambleEventsErase
    by_cases hk : k' = uid
    · rw [if_pos hk]
      exact preambleEventsFind_none rest uid (hk ▸ hnd.1)
    · rw [if_neg hk]
      unfold preambleEventsFind
      rw [if_neg hk]
      exact ih hnd.2

/-- Claim C7: a signal, Wi-Fi or not, whose total received power in dBm is below the
RX sensitivity makes `StartRx` return with the PHY unchanged (pending preamble
events and current reception event included) and with the trace of the arrival as
its only call: nothing is added to the interference helper, CCA is not re-evaluated
and no reception is started. -/
theorem StartRx_below_sensitivity {W D : Type} (env : RxEnv W D) (phy : SpectrumWifiPhy)
    (rxParams : SpectrumSignalParameters W) (channelBands ruBands : List WifiSpectrumBand)
    (hch : StartRx.channelBands phy = .ok (some channelBands))
    (hru : StartRx.ruBands env phy = .ok ruBands)
    (hweak : env.ltD (env.WToDbm (StartRx.totalRxPowerW env rxParams channelBands))
      env.GetRxSensitivity = true) :
    StartRx env phy rxParams =
      .ok (.returned phy
        [.m_signalCb rxParams.ppdu.isSome (rxParams.txNodeId.getD 0)
          (env.WToDbm (StartRx.totalRxPowerW env rxParams channelBands)) rxParams.duration]) := by
  unfold StartRx
  rw [hch, hru]
  simp only [hweak, if_true]

/-- Claim C8: a signal at or above the sensitivity that is not a Wi-Fi signal, or that
is a Wi-Fi signal while `DisableWifiReception` is set, makes `StartRx` return with
the PHY unchanged after exactly these calls, in order: the trace, one
`AddForeignSignal` with the duration of the signal and its power per band, and
`MaybeCcaBusy`.  No preamble or payload reception is started. -/
theorem StartRx_foreign {W D : Type} (env : RxEnv W D) (phy : SpectrumWifiPhy)
    (rxParams : SpectrumSignalParameters W) (channelBands ruBands : List WifiSpectrumBand)
    (hch : StartRx.channelBands phy = .ok (some channelBands))
    (hru : StartRx.ruBands env phy = .ok ruBands)
    (hstrong : env.ltD (env.WToDbm (StartRx.totalRxPowerW env rxParams channelBands))
      env.GetRxSensitivity = false)
    (hforeign : rxParams.ppdu = none
      ∨ (rxParams.ppdu.isSome = true ∧ phy.m_disableWifiReception = true)) :
    StartRx env phy rxParams =
      .ok (.returned phy
        [.m_signalCb rxParams.ppdu.isSome (rxParams.txNodeId.getD 0)
          (env.WToDbm (StartRx.totalRxPowerW env rxParams channelBands)) rxParams.duration,
         .AddForeignSignal rxParams.duration (StartRx.rxPowerW rxParams channelBands ruBands),
         .MaybeCcaBusy]) := by
  unfold StartRx
  rw [hch, hru]
  simp only [hstrong]
  rcases hforeign with h | ⟨h1, h2⟩
  · rw [h]; rfl
  · cases hp : rxParams.ppdu with
    | none => rfl
    | some ppdu => simp [h2]

/-- Claim C9: a Wi-Fi signal at or above the sensitivity, received with reception
enabled, whose PPDU has the HE TB preamble and the UID of the current HE TB PPDU
while a current reception event is open, makes `StartRx` return with the PHY
unchanged (the pending preamble events are not touched) after the trace and one
`StartReceiveOfdmaPayload` with the PPDU and the power per band; it does not call
`StartReceivePreamble`. -/
theorem StartRx_ofdma_payload {W D : Type} (env : RxEnv W D) (phy : SpectrumWifiPhy)
    (rxParams : SpectrumSignalParameters W) (channelBands ruBands : List WifiSpectrumBand)
    (ppdu : WifiPpdu) (event : Event)
    (hch : StartRx.channelBands phy = .ok (some channelBands))
    (hru : StartRx.ruBands env phy = .ok ruBands)
    (hstrong : env.ltD (env.WToDbm (StartRx.totalRxPowerW env rxParams channelBands))
      env.GetRxSensitivity = false)
    (hppdu : rxParams.ppdu = some ppdu) (henabled : phy.m_disableWifiReception = false)
    (htb : ppdu.txVector.preambleType = WIFI_PREAMBLE_HE_TB)
    (huid : phy.m_currentHeTbPpduUid = ppdu.uid) (hevent : phy.m_currentEvent = some event) :
    StartRx env phy rxParams =
      .ok (.returned phy
        [.m_signalCb true (rxParams.txNodeId.getD 0)
          (env.WToDbm (StartRx.totalRxPowerW env rxParams channelBands)) rxParams.duration,
         .StartReceiveOfdmaPayload ppdu (StartRx.rxPowerW rxParams channelBands ruBands)]) := by
  unfold StartRx
  rw [hch, hru]
  simp [hstrong, hppdu, henabled, htb, huid, hevent]

/-- Claim C10: a Wi-Fi signal at or above the sensitivity, received with reception
enabled, whose PPDU has the HE TB preamble, whose duration is the PPDU duration minus
the duration of preamble and header, and that matches no open context (its UID is not
the current HE TB UID, or there is no current reception event) makes `StartRx` return
after the trace and one `m_interference.Add` with the PPDU, its TXVECTOR, the
duration of the signal and the power per band; the entry of this UID is removed from
the pending preamble events (nothing is stored under it afterwards, every other
entry is as before, the other members of the PHY are unchanged); and `Reset` is
called, last, if and only if the table is then empty. -/
theorem StartRx_ofdma_interference {W D : Type} (env : RxEnv W D) (phy : SpectrumWifiPhy)
    (rxParams : SpectrumSignalParameters W) (channelBands ruBands : List WifiSpectrumBand)
    (ppdu : WifiPpdu)
    (hch : StartRx.channelBands phy = .ok (some channelBands))
    (hru : StartRx.ruBands env phy = .ok ruBands)
    (hstrong : env.ltD (env.WToDbm (StartRx.totalRxPowerW env rxParams channelBands))
      env.GetRxSensitivity = false)
    (hppdu : rxParams.ppdu = some ppdu) (henabled : phy.m_disableWifiReception = false)
    (htb : ppdu.txVector.preambleType = WIFI_PREAMBLE_HE_TB)
    (hdur : rxParams.duration
      = ppdu.txDuration - env.CalculatePlcpPreambleAndHeaderDuration ppdu.txVector)
    (hnomatch : phy.m_currentHeTbPpduUid ≠ ppdu.uid ∨ phy.m_currentEvent = none)
    (hmap : (phy.m_currentPreambleEvents.map Prod.fst).Nodup) :
    ∃ phy1 calls,
      StartRx env phy rxParams = .ok (.returned phy1 calls)
        ∧ phy1 = ⟨phy.standard, phy.channelWidth, phy.rxNumBands, phy.m_disableWifiReception,
            phy.m_currentHeTbPpduUid, phy.m_currentEvent,
            preambleEventsErase phy.m_currentPreambleEvents ppdu.uid⟩
        ∧ preambleEventsFind phy1.m_currentPreambleEvents ppdu.uid = none
        ∧ (∀ k, k ≠ ppdu.uid →
            preambleEventsFind phy1.m_currentPreambleEvents k
              = preambleEventsFind phy.m_currentPreambleEvents k)
        ∧ calls =
            [.m_signalCb true (rxParams.txNodeId.getD 0)
              (env.WToDbm (StartRx.totalRxPowerW env rxParams channelBands)) rxParams.duration,
             .InterferenceAdd ppdu ppdu.txVector rxParams.duration
              (StartRx.rxPowerW rxParams channelBands ruBands)]
            ++ (if phy1.m_currentPreambleEvents = [] then [PhyCall.Reset] else []) := by
  have hcond : ¬ (phy.m_currentHeTbPpduUid = ppdu.uid ∧ phy.m_currentEvent ≠ none) := by
    rintro ⟨h1, h2⟩
    rcases hnomatch with h | h
    · exact h h1
    · exact h2 h
  refine ⟨_, _, ?_, rfl, preambleEventsFind_erase_self _ _ hmap,
    fun k hk => preambleEventsFind_erase_ne _ _ _ hk, rfl⟩
  unfold StartRx
  rw [hch, hru]
  simp only [hstrong, hppdu, henabled, htb, hcond, hdur]
  cases hE : preambleEventsErase phy.m_currentPreambleEvents ppdu.uid with
  | nil => simp
  | cons a l => simp

/-- Worked instance of claim C7: a foreign signal of 40 ticks and power 5,
below the sensitivity 10, on an idle 20 MHz 802.11a PHY. -/
theorem StartRx_below_sensitivity_witness :
    StartRx exampleEnv ⟨WIFI_PHY_STANDARD_80211a, 20, 193, false, 0, none, [(7, 1)]⟩
        (exampleSignal 40 5 none)
      = .ok (.returned ⟨WIFI_PHY_STANDARD_80211a, 20, 193, false, 0, none, [(7, 1)]⟩
          [.m_signalCb false 0 5 40]) :=
  StartRx_below_sensitivity exampleEnv
    ⟨WIFI_PHY_STANDARD_80211a, 20, 193, false, 0, none, [(7, 1)]⟩ (exampleSignal 40 5 none)
    [⟨64, 127⟩] [] rfl rfl rfl

/-- Worked instance of claim C8: a Wi-Fi signal of power 20 on a PHY with
`DisableWifiReception` set. -/
theorem StartRx_foreign_witness :
    StartRx exampleEnv ⟨WIFI_PHY_STANDARD_80211a, 20, 193, true, 0, none, []⟩
        (exampleSignal 60 20 (some exampleHeTbPpdu))
      = .ok (.returned ⟨WIFI_PHY_STANDARD_80211a, 20, 193, true, 0, none, []⟩
          [.m_signalCb true 0 20 60, .AddForeignSignal 60 [(⟨64, 127⟩, 20)], .MaybeCcaBusy]) :=
  StartRx_foreign exampleEnv ⟨WIFI_PHY_STANDARD_80211a, 20, 193, true, 0, none, []⟩
    (exampleSignal 60 20 (some exampleHeTbPpdu)) [⟨64, 127⟩] [] rfl rfl rfl (Or.inr ⟨rfl, rfl⟩)

/-- Worked instance of claim C9: the OFDMA part of the HE TB PPDU with UID 7
arrives while the PHY holds reception event 1 for HE TB UID 7. -/
theorem StartRx_ofdma_payload_witness :
    StartRx exampleEnv ⟨WIFI_PHY_STANDARD_80211a, 20, 193, false, 7, some 1, [(7, 1)]⟩
        (exampleSignal 60 20 (some exampleHeTbPpdu))
      = .ok (.returned ⟨WIFI_PHY_STANDARD_80211a, 20, 193, false, 7, some 1, [(7, 1)]⟩
          [.m_signalCb true 0 20 60,
           .StartReceiveOfdmaPayload exampleHeTbPpdu [(⟨64, 127⟩, 20)]]) :=
  StartRx_ofdma_payload exampleEnv
    ⟨WIFI_PHY_STANDARD_80211a, 20, 193, false, 7, some 1, [(7, 1)]⟩
    (exampleSignal 60 20 (some exampleHeTbPpdu)) [⟨64, 127⟩] [] exampleHeTbPpdu 1
    rfl rfl rfl rfl rfl rfl rfl rfl

/-- Worked instance of claim C10: the OFDMA part (60 = 100 - 40 ticks) of
the HE TB PPDU with UID 7 arrives at a PHY with no current reception event and
pending preamble events for the UIDs 7 and 8: the entry of UID 7 goes, that of UID 8
stays, and `Reset` is not called. -/
theorem StartRx_ofdma_interference_witness :
    StartRx exampleEnv ⟨WIFI_PHY_STANDARD_80211a, 20, 193, false, 0, none, [(7, 1), (8, 2)]⟩
        (exampleSignal 60 20 (some exampleHeTbPpdu))
      = .ok (.returned ⟨WIFI_PHY_STANDARD_80211a, 20, 193, false, 0, none, [(8, 2)]⟩
          [.m_signalCb true 0 20 60,
           .InterferenceAdd exampleHeTbPpdu exampleHeTbPpdu.txVector 60 [(⟨64, 127⟩, 20)]])
      ∧ ∃ phy1 calls,
        StartRx exampleEnv
            ⟨WIFI_PHY_STANDARD_80211a, 20, 193, false, 0, none, [(7, 1), (8, 2)]⟩
            (exampleSignal 60 20 (some exampleHeTbPpdu)) = .ok (.returned phy1 calls)
          ∧ phy1 = ⟨WIFI_PHY_STANDARD_80211a, 20, 193, false, 0, none,
              preambleEventsErase [(7, 1), (8, 2)] 7⟩
          ∧ preambleEventsFind phy1.m_currentPreambleEvents 7 = none
          ∧ (∀ k, k ≠ 7 →
              preambleEventsFind phy1.m_currentPreambleEvents k
                = preambleEventsFind [(7, 1), (8, 2)] k)
          ∧ calls =
              [.m_signalCb true 0 20 60,
               .InterferenceAdd exampleHeTbPpdu exampleHeTbPpdu.txVector 60 [(⟨64, 127⟩, 20)]]
              ++ (if phy1.m_currentPreambleEvents = [] then [PhyCall.Reset] else []) :=
  ⟨rfl,
   StartRx_ofdma_interference exampleEnv
    ⟨WIFI_PHY_STANDARD_80211a, 20, 193, false, 0, none, [(7, 1), (8, 2)]⟩
    (exampleSignal 60 20 (some exampleHeTbPpdu)) [⟨64, 127⟩] [] exampleHeTbPpdu
    rfl rfl rfl rfl rfl rfl rfl (Or.inr rfl) (by decide)⟩

/-! ## Receive dispatch: preamble synchronization -/

/-- Claim C11 fails as stated: the header portion of an HE TB PPDU (40 ticks, not the
payload-only duration `100 - 40`) that arrives while the PHY holds a reception event
for the HE TB UID of that PPDU is handed to `StartReceiveOfdmaPayload`, not to
`StartReceivePreamble`. -/
theorem StartRx_preamble_counterexample :
    StartRx exampleEnv ⟨WIFI_PHY_STANDARD_80211a, 20, 193, false, 7, some 1, []⟩
        (exampleSignal 40 20 (some exampleHeTbPpdu))
      = .ok (.returned ⟨WIFI_PHY_STANDARD_80211a, 20, 193, false, 7, some 1, []⟩
          [.m_signalCb true 0 20 40,
           .StartReceiveOfdmaPayload exampleHeTbPpdu [(⟨64, 127⟩, 20)]])
      ∧ exampleHeTbPpdu.txVector.preambleType = WIFI_PREAMBLE_HE_TB
      ∧ (40 : Time) ≠ exampleHeTbPpdu.txDuration
          - exampleEnv.CalculatePlcpPreambleAndHeaderDuration exampleHeTbPpdu.txVector
      ∧ ¬ (StartRx exampleEnv ⟨WIFI_PHY_STANDARD_80211a, 20, 193, false, 7, some 1, []⟩
            (exampleSignal 40 20 (some exampleHeTbPpdu))
          = .ok (.returned ⟨WIFI_PHY_STANDARD_80211a, 20, 193, false, 7, some 1, []⟩
              [.m_signalCb true 0 20 40,
               .StartReceivePreamble exampleHeTbPpdu [(⟨64, 127⟩, 20)]])) := by
  have hval : StartRx exampleEnv ⟨WIFI_PHY_STANDARD_80211a, 20, 193, false, 7, some 1, []⟩
        (exampleSignal 40 20 (some exampleHeTbPpdu))
      = .ok (.returned ⟨WIFI_PHY_STANDARD_80211a, 20, 193, false, 7, some 1, []⟩
          [.m_signalCb true 0 20 40,
           .StartReceiveOfdmaPayload exampleHeTbPpdu [(⟨64, 127⟩, 20)]]) := rfl
  refine ⟨hval, rfl, by decide, fun h => ?_⟩
  rw [hval] at h
  injection h with h
  injection h with _ h
  injection h with _ h
  injection h with h _
  cases h

/-- Claim C11, as amended: a Wi-Fi signal at or above the sensitivity, received with
reception enabled, is handed to `StartReceivePreamble` and to no other routine
(the PHY is unchanged, the only other call is the trace of the arrival) when its
preamble is not HE TB, whatever the current HE TB UID and reception event are, and
when its preamble is HE TB, its duration is not the payload-only duration, and it
matches no open context (its UID is not the current HE TB UID, or there is no
current reception event). -/
theorem StartRx_preamble {W D : Type} (env : RxEnv W D) (phy : SpectrumWifiPhy)
    (rxParams : SpectrumSignalParameters W) (channelBands ruBands : List WifiSpectrumBand)
    (ppdu : WifiPpdu)
    (hch : StartRx.channelBands phy = .ok (some channelBands))
    (hru : StartRx.ruBands env phy = .ok ruBands)
    (hstrong : env.ltD (env.WToDbm (StartRx.totalRxPowerW env rxParams channelBands))
      env.GetRxSensitivity = false)
    (hppdu : rxParams.ppdu = some ppdu) (henabled : phy.m_disableWifiReception = false)
    (hkind : ppdu.txVector.preambleType ≠ WIFI_PREAMBLE_HE_TB
      ∨ (ppdu.txVector.preambleType = WIFI_PREAMBLE_HE_TB
          ∧ rxParams.duration
            ≠ ppdu.txDuration - env.CalculatePlcpPreambleAndHeaderDuration ppdu.txVector
          ∧ (phy.m_currentHeTbPpduUid ≠ ppdu.uid ∨ phy.m_currentEvent = none))) :
    StartRx env phy rxParams =
      .ok (.returned phy
        [.m_signalCb true (rxParams.txNodeId.getD 0)
          (env.WToDbm (StartRx.totalRxPowerW env rxParams channelBands)) rxParams.duration,
         .StartReceivePreamble ppdu (StartRx.rxPowerW rxParams channelBands ruBands)]) := by
  unfold StartRx
  rw [hch, hru]
  rcases hkind with h | ⟨htb, hdur, hnomatch⟩
  · simp [hstrong, hppdu, henabled, h]
  · have hcond : ¬ (phy.m_currentHeTbPpduUid = ppdu.uid ∧ phy.m_currentEvent ≠ none) := by
      rintro ⟨h1, h2⟩
      rcases hnomatch with h | h
      · exact h h1
      · exact h2 h
    simp [hstrong, hppdu, henabled, htb, hcond, hdur]

/-- Worked instance of claim C11 as amended: the header portion (40 ticks) of the HE TB
PPDU with UID 7 arrives at a PHY whose current HE TB UID is 3. -/
theorem StartRx_preamble_witness :
    StartRx exampleEnv ⟨WIFI_PHY_STANDARD_80211a, 20, 193, false, 3, some 1, []⟩
        (exampleSignal 40 20 (some exampleHeTbPpdu))
      = .ok (.returned ⟨WIFI_PHY_STANDARD_80211a, 20, 193, false, 3, some 1, []⟩
          [.m_signalCb true 0 20 40,
           .StartReceivePreamble exampleHeTbPpdu [(⟨64, 127⟩, 20)]]) :=
  StartRx_preamble exampleEnv ⟨WIFI_PHY_STANDARD_80211a, 20, 193, false, 3, some 1, []⟩
    (exampleSignal 40 20 (some exampleHeTbPpdu)) [⟨64, 127⟩] [] exampleHeTbPpdu
    rfl rfl rfl rfl rfl (Or.inr ⟨rfl, by decide, Or.inl (by decide)⟩)

/-! ## Run-time configuration: auxiliary facts -/

/-- A loop that collects the results of a fallible function returns a list exactly
when the function returns for every element, the results being collected in order. -/
theorem mapM_ok_iff {α β : Type} (f : α → Except Fatal β) (l : List α) (bs : List β) :
    l.mapM f = .ok bs ↔ List.Forall₂ (fun a b => f a = .ok b) l bs := by
  induction l generalizing bs with
  | nil =>
    simp only [List.mapM_nil, List.forall₂_nil_left_iff]
    constructor
    · intro h; injection h with h; exact h.symm
    · intro h; rw [h]; rfl
  | cons a l ih =>
    rw [List.mapM_cons]
    constructor
    · intro h
      cases hfa : f a with
      | error e => rw [hfa] at h; simp [bind, Except.bind] at h
      | ok b =>
        cases hl : l.mapM f with
        | error e => rw [hfa, hl] at h; simp [bind, Except.bind] at h
        | ok bs' =>
          rw [hfa, hl] at h
          simp only [bind, Except.bind, pure, Except.pure] at h
          injection h with h
          subst h
          exact List.Forall₂.cons hfa ((ih bs').mp hl)
    · intro h
      cases h with
      | cons h1 h2 =>
        rw [h1, (ih _).mpr h2]
        rfl

/-- The loop over the indices below `n`: it returns `bs` exactly when `bs` has `n`
elements and element `i` is the result for index `i`. -/
theorem mapM_range_ok_iff {β : Type} (f : Nat → Except Fatal β) (n : Nat) (bs : List β) :
    (List.range n).mapM f = .ok bs ↔
      bs.length = n ∧ ∀ i b, bs[i]? = some b → f i = .ok b := by
  rw [mapM_ok_iff, List.forall₂_iff_get]
  simp only [List.length_range, List.get_eq_getElem, List.getElem_range]
  constructor
  · rintro ⟨hlen, h⟩
    refine ⟨hlen.symm, fun i b hb => ?_⟩
    obtain ⟨hi, rfl⟩ := List.getElem?_eq_some_iff.mp hb
    exact h i (by omega) hi
  · rintro ⟨hlen, h⟩
    refine ⟨hlen.symm, fun i h1 h2 => ?_⟩
    exact h i _ (List.getElem?_eq_getElem h2)

/-! ## Run-time configuration: `UpdateInterferenceHelperBands` and the setters -/

/-- On a standard other than the two 802.11ax ones `UpdateInterferenceHelperBands`
registers no RU band. -/
theorem UpdateInterferenceHelperBands_ruBands_nonHe (heRu : HeRu) (phy : SpectrumWifiPhy)
    (hstd : phy.standard ≠ WIFI_PHY_STANDARD_80211ax_2_4GHZ
      ∧ phy.standard ≠ WIFI_PHY_STANDARD_80211ax_5GHZ) :
    UpdateInterferenceHelperBands.ruBands heRu phy = .ok [] := by
  unfold UpdateInterferenceHelperBands.ruBands
  simp [hstd.1, hstd.2]

/-- The calls of `UpdateInterferenceHelperBands`, when it returns, are `RemoveBands`
followed by calls of `AddBand` only. -/
theorem UpdateInterferenceHelperBands_calls (heRu : HeRu) (phy : SpectrumWifiPhy)
    (calls : List ConfigCall) (h : UpdateInterferenceHelperBands heRu phy = .ok (some calls)) :
    ∃ bands : List WifiSpectrumBand, calls = .RemoveBands :: bands.map .AddBand := by
  unfold UpdateInterferenceHelperBands at h
  cases hch : UpdateInterferenceHelperBands.channelBands phy with
  | error e => rw [hch] at h; simp at h
  | ok r =>
    cases r with
    | none => rw [hch] at h; simp at h
    | some channelBands =>
      cases hru : UpdateInterferenceHelperBands.ruBands heRu phy with
      | error e => rw [hch, hru] at h; simp at h
      | ok ruBands =>
        rw [hch, hru] at h
        simp only [Except.ok.injEq, Option.some.injEq] at h
        exact ⟨channelBands ++ ruBands, h.symm⟩

/-- Claim C12: on a standard other than the two 802.11ax ones,
`UpdateInterferenceHelperBands` returns exactly when its calls of `GetBand` do (and
the channel has at most 255 bands of 20 MHz); its calls on the interference helper
are then `RemoveBands` first, so that no band registered before remains, followed by
one `AddBand` per band, in order: for a channel of at least 20 MHz the
`channelWidth / 20` bands `GetBand (20, i)`, `i = 0 .. channelWidth / 20 - 1` (4 bands
for 80 MHz), and for a narrower channel the single band `GetBand (channelWidth)`. -/
theorem UpdateInterferenceHelperBands_nonHe (heRu : HeRu) (phy : SpectrumWifiPhy)
    (calls : List ConfigCall)
    (hstd : phy.standard ≠ WIFI_PHY_STANDARD_80211ax_2_4GHZ
      ∧ phy.standard ≠ WIFI_PHY_STANDARD_80211ax_5GHZ) :
    UpdateInterferenceHelperBands heRu phy = .ok (some calls) ↔
      ∃ bands : List WifiSpectrumBand,
        calls = .RemoveBands :: bands.map .AddBand
          ∧ (phy.channelWidth < 20 →
              ∃ b, GetBand phy phy.channelWidth 0 = .ok b ∧ bands = [b])
          ∧ (20 ≤ phy.channelWidth →
              phy.channelWidth / 20 ≤ 255 ∧ bands.length = phy.channelWidth / 20
                ∧ ∀ i b, bands[i]? = some b → GetBand phy 20 i = .ok b) := by
  unfold UpdateInterferenceHelperBands
  rw [UpdateInterferenceHelperBands_ruBands_nonHe heRu phy hstd]
  unfold UpdateInterferenceHelperBands.channelBands
  by_cases hcw : phy.channelWidth < 20
  · rw [if_pos hcw]
    cases hb : GetBand phy phy.channelWidth 0 with
    | error e =>
      constructor
      · intro h; simp at h
      · rintro ⟨bands, _, h1, _⟩
        obtain ⟨b, hb', _⟩ := h1 hcw
        cases hb'
    | ok b =>
      constructor
      · intro h
        simp only [List.append_nil, Except.ok.injEq, Option.some.injEq] at h
        exact ⟨[b], h.symm, fun _ => ⟨b, rfl, rfl⟩, fun h20 => absurd h20 (by omega)⟩
      · rintro ⟨bands, hcalls, h1, _⟩
        obtain ⟨b', hb', hbands⟩ := h1 hcw
        injection hb' with hb'
        subst hb'
        rw [hcalls, hbands]
        rfl
  · rw [if_neg hcw]
    have h20 : 20 ≤ phy.channelWidth := by omega
    cases hm : (List.range (min (phy.channelWidth / 20) 256)).mapM (fun i => GetBand phy 20 i) with
    | error e =>
      constructor
      · intro h; simp at h
      · rintro ⟨bands, _, _, h2⟩
        obtain ⟨hle, hlen, hall⟩ := h2 h20
        have : (List.range (min (phy.channelWidth / 20) 256)).mapM (fun i => GetBand phy 20 i)
            = .ok bands := by
          rw [mapM_range_ok_iff]
          exact ⟨by omega, hall⟩
        rw [hm] at this
        cases this
    | ok bands20 =>
      have hr := (mapM_range_ok_iff _ _ _).mp hm
      by_cases hle : phy.channelWidth / 20 ≤ 255
      · dsimp only
        rw [if_pos hle]
        constructor
        · intro h
          simp only [List.append_nil, Except.ok.injEq, Option.some.injEq] at h
          exact ⟨bands20, h.symm, fun h' => absurd h' hcw, fun _ => ⟨hle, by omega, hr.2⟩⟩
        · rintro ⟨bands, hcalls, _, h2⟩
          obtain ⟨_, hlen, hall⟩ := h2 h20
          have : (List.range (min (phy.channelWidth / 20) 256)).mapM
              (fun i => GetBand phy 20 i) = .ok bands := by
            rw [mapM_range_ok_iff]
            exact ⟨by omega, hall⟩
          rw [hm] at this
          injection this with this
          rw [hcalls, this]
          simp
      · dsimp only
        rw [if_neg hle]
        constructor
        · intro h; simp at h
        · rintro ⟨bands, _, _, h2⟩
          exact absurd (h2 h20).1 hle

/-- Worked instance of claim C12: an 80 MHz 802.11a channel (769 bands) gets its four
20 MHz bands. -/
theorem UpdateInterferenceHelperBands_nonHe_witness :
    UpdateInterferenceHelperBands ⟨fun _ _ => 0, fun _ _ _ => []⟩
        ⟨WIFI_PHY_STANDARD_80211a, 80, 769, false, 0, none, []⟩
      = .ok (some [.RemoveBands, .AddBand ⟨256, 319⟩, .AddBand ⟨320, 383⟩,
          .AddBand ⟨385, 448⟩, .AddBand ⟨449, 512⟩])
      ∧ ∃ bands : List WifiSpectrumBand,
        [ConfigCall.RemoveBands, .AddBand ⟨256, 319⟩, .AddBand ⟨320, 383⟩,
            .AddBand ⟨385, 448⟩, .AddBand ⟨449, 512⟩] = .RemoveBands :: bands.map .AddBand
          ∧ ((80 : Nat) < 20 →
              ∃ b, GetBand ⟨WIFI_PHY_STANDARD_80211a, 80, 769, false, 0, none, []⟩ 80 0 = .ok b
                ∧ bands = [b])
          ∧ (20 ≤ (80 : Nat) →
              80 / 20 ≤ 255 ∧ bands.length = 80 / 20
                ∧ ∀ i b, bands[i]? = some b →
                    GetBand ⟨WIFI_PHY_STANDARD_80211a, 80, 769, false, 0, none, []⟩ 20 i
                      = .ok b) :=
  ⟨rfl,
   (UpdateInterferenceHelperBands_nonHe ⟨fun _ _ => 0, fun _ _ _ => []⟩
     ⟨WIFI_PHY_STANDARD_80211a, 80, 769, false, 0, none, []⟩
     [.RemoveBands, .AddBand ⟨256, 319⟩, .AddBand ⟨320, 383⟩, .AddBand ⟨385, 448⟩,
       .AddBand ⟨449, 512⟩] ⟨by decide, by decide⟩).mp rfl⟩

/-- On an initialized PHY the common body of the setters is `ResetSpectrumModel`: the
receive spectrum model is replaced by the model of the current configuration, the
PHY is added to its channel again, and the calls of `UpdateInterferenceHelperBands`
on the PHY with the new model follow. -/
theorem resetIfInitialized_initialized (env : ConfigEnv) (o1 : RunTimePhy) (bb : Nat)
    (calls : List ConfigCall) (hinit : o1.isInitialized = true)
    (hbb : GetBandBandwidth o1.phy = .ok bb)
    (hupd : UpdateInterferenceHelperBands env.heRu
        (withRxSpectrumModel o1.phy
          (env.GetSpectrumModelNumBands o1.frequency o1.phy.channelWidth bb
            (GetGuardBandwidth o1.phy.channelWidth)))
      = .ok (some calls)) :
    resetIfInitialized env (.ok o1) =
      .ok (some (⟨withRxSpectrumModel o1.phy
          (env.GetSpectrumModelNumBands o1.frequency o1.phy.channelWidth bb
            (GetGuardBandwidth o1.phy.channelWidth)), o1.frequency, true⟩,
        .AddRx :: calls)) := by
  unfold resetIfInitialized
  simp only [hinit, if_true]
  unfold ResetSpectrumModel
  simp only [hinit, not_true_eq_false, if_false]
  rw [hbb]
  simp only []
  rw [hupd]

/-- Claim C13 fails as stated: on a PHY that is not initialized, `SetChannelWidth (40)`
changes the channel width from 20 to 40 MHz and returns without a call: the
interference helper is not cleared, and the receive spectrum model keeps its 193
bands while the model of the new configuration has 385. -/
theorem SetChannelWidth_counterexample :
    SetChannelWidth exampleConfigEnv
        ⟨⟨WIFI_PHY_STANDARD_80211a, 20, 193, false, 0, none, []⟩, 5180, false⟩ 40
      = .ok (some (⟨⟨WIFI_PHY_STANDARD_80211a, 40, 193, false, 0, none, []⟩, 5180, false⟩, []))
      ∧ exampleConfigEnv.GetSpectrumModelNumBands 5180 40 312500 (GetGuardBandwidth 40) = 385
      ∧ ¬ (∃ o calls, SetChannelWidth exampleConfigEnv
              ⟨⟨WIFI_PHY_STANDARD_80211a, 20, 193, false, 0, none, []⟩, 5180, false⟩ 40
            = .ok (some (o, calls))
          ∧ ConfigCall.RemoveBands ∈ calls
          ∧ o.phy.rxNumBands
              = exampleConfigEnv.GetSpectrumModelNumBands 5180 40 312500
                  (GetGuardBandwidth 40)) := by
  have hval : SetChannelWidth exampleConfigEnv
        ⟨⟨WIFI_PHY_STANDARD_80211a, 20, 193, false, 0, none, []⟩, 5180, false⟩ 40
      = .ok (some (⟨⟨WIFI_PHY_STANDARD_80211a, 40, 193, false, 0, none, []⟩, 5180, false⟩,
          [])) := rfl
  refine ⟨hval, rfl, ?_⟩
  rintro ⟨o, calls, h, hmem, _⟩
  rw [hval] at h
  simp only [Except.ok.injEq, Option.some.injEq, Prod.mk.injEq] at h
  rw [← h.2] at hmem
  simp at hmem

/-- Claim C13, as amended: on a PHY that is initialized after the call of the base
class, each of `SetChannelNumber`, `SetFrequency`, `SetChannelWidth` and
`ConfigureStandard` replaces the receive spectrum model by the model of the new
configuration, adds the PHY to its channel again, and makes the calls of
`UpdateInterferenceHelperBands` for the new configuration: `RemoveBands`, which clears
the interference helper, then one `AddBand` per band of the partition. -/
theorem setters_rebuild_bands (env : ConfigEnv) (o o1 : RunTimePhy) (bb : Nat)
    (calls : List ConfigCall) (hinit : o1.isInitialized = true)
    (hbb : GetBandBandwidth o1.phy = .ok bb)
    (hupd : UpdateInterferenceHelperBands env.heRu
        (withRxSpectrumModel o1.phy
          (env.GetSpectrumModelNumBands o1.frequency o1.phy.channelWidth bb
            (GetGuardBandwidth o1.phy.channelWidth)))
      = .ok (some calls))
    (result : Except Fatal (Option (RunTimePhy × List ConfigCall)))
    (hresult : result =
      .ok (some (⟨withRxSpectrumModel o1.phy
          (env.GetSpectrumModelNumBands o1.frequency o1.phy.channelWidth bb
            (GetGuardBandwidth o1.phy.channelWidth)), o1.frequency, true⟩,
        .AddRx :: calls))) :
    (∀ nch, env.WifiPhySetChannelNumber o nch = .ok o1 → SetChannelNumber env o nch = result)
      ∧ (∀ freq, env.WifiPhySetFrequency o freq = .ok o1 → SetFrequency env o freq = result)
      ∧ (∀ channelwidth, env.WifiPhySetChannelWidth o channelwidth = .ok o1 →
          SetChannelWidth env o channelwidth = result)
      ∧ (∀ standard, env.WifiPhyConfigureStandard o standard = .ok o1 →
          ConfigureStandard env o standard = result)
      ∧ ∃ bands : List WifiSpectrumBand, calls = .RemoveBands :: bands.map .AddBand := by
  have h := resetIfInitialized_initialized env o1 bb calls hinit hbb hupd
  rw [← hresult] at h
  refine ⟨fun x hx => ?_, fun x hx => ?_, fun x hx => ?_, fun x hx => ?_,
    UpdateInterferenceHelperBands_calls _ _ _ hupd⟩
  · unfold SetChannelNumber; rw [hx]; exact h
  · unfold SetFrequency; rw [hx]; exact h
  · unfold SetChannelWidth; rw [hx]; exact h
  · unfold ConfigureStandard; rw [hx]; exact h

/-- Worked instance of claim C13 as amended: `SetChannelWidth (40)` on an initialized
802.11a PHY replaces the 193-band model by the 385-band one and registers the two
20 MHz bands of the new channel. -/
theorem setters_rebuild_bands_witness :
    SetChannelWidth exampleConfigEnv
        ⟨⟨WIFI_PHY_STANDARD_80211a, 20, 193, false, 0, none, []⟩, 5180, true⟩ 40
      = .ok (some (⟨⟨WIFI_PHY_STANDARD_80211a, 40, 385, false, 0, none, []⟩, 5180, true⟩,
          [.AddRx, .RemoveBands, .AddBand ⟨128, 191⟩, .AddBand ⟨193, 256⟩])) :=
  (setters_rebuild_bands exampleConfigEnv
    ⟨⟨WIFI_PHY_STANDARD_80211a, 20, 193, false, 0, none, []⟩, 5180, true⟩
    ⟨⟨WIFI_PHY_STANDARD_80211a, 40, 193, false, 0, none, []⟩, 5180, true⟩ 312500
    [.RemoveBands, .AddBand ⟨128, 191⟩, .AddBand ⟨193, 256⟩] rfl rfl rfl _ rfl).2.2.1 40 rfl

/-! ## Radiotap header: flag words, auxiliary facts -/

/-- Masking a union of two words is the union of the masked words. -/
theorem or_and_distrib_flag (a b c : Nat) : (a ||| b) &&& c = (a &&& c) ||| (b &&& c) := by
  apply Nat.eq_of_testBit_eq
  intro i
  simp only [Nat.testBit_and, Nat.testBit_or]
  cases a.testBit i <;> cases b.testBit i <;> cases c.testBit i <;> rfl

/-- A word contains the mask `f` exactly when every bit of `f` is set in it. -/
theorem and_eq_self_iff_testBit (v f : Nat) :
    v &&& f = f ↔ ∀ i, f.testBit i = true → v.testBit i = true := by
  constructor
  · intro h i hi
    have h1 := congrArg (fun x => x.testBit i) h
    simp only [Nat.testBit_and, hi, Bool.and_true] at h1
    exact h1
  · intro h
    apply Nat.eq_of_testBit_eq
    intro i
    rw [Nat.testBit_and]
    cases hf : f.testBit i
    · simp
    · simp [h i hf]

/-- The union of two words of `w` bits is not changed by the truncation to `w` bits. -/
theorem or_mod_two_pow_flag {a b w : Nat} (ha : a < 2 ^ w) (hb : b < 2 ^ w) :
    (a ||| b) % 2 ^ w = a ||| b :=
  Nat.mod_eq_of_lt (Nat.or_lt_two_pow ha hb)

/-- A word that holds the mask `f`, or nothing, next to bits disjoint from `f` contains
`f` exactly when it was put there. -/
theorem flag_set_iff (rest f : Nat) (c : Prop) [Decidable c] (hf : f ≠ 0)
    (hd : rest &&& f = 0) : (rest ||| (if c then f else 0)) &&& f = f ↔ c := by
  by_cases hc : c
  · rw [if_pos hc, or_and_distrib_flag, hd, Nat.and_self, Nat.zero_or]
    exact ⟨fun _ => hc, fun _ => rfl⟩
  · rw [if_neg hc, Nat.or_zero, hd]
    exact ⟨fun h => absurd h.symm hf, fun h => absurd h hc⟩

/-- A conditional mask is disjoint from `f` when the mask is. -/
theorem ite_and_flag (c : Prop) [Decidable c] (a f : Nat) (h : a &&& f = 0) :
    (if c then a else 0) &&& f = 0 := by
  by_cases hc : c
  · rw [if_pos hc]; exact h
  · rw [if_neg hc]; exact Nat.zero_and f

/-- A conditional mask fits in `w` bits when the mask does. -/
theorem ite_lt_flag (c : Prop) [Decidable c] (a w : Nat) (h : a < 2 ^ w) :
    (if c then a else 0) < 2 ^ w := by
  by_cases hc : c
  · rw [if_pos hc]; exact h
  · rw [if_neg hc]; exact Nat.two_pow_pos w

/-- A conditional `|=` on a word of `w` bits adds the conditional mask. -/
theorem or_ite_mod_flag (c : Prop) [Decidable c] {v a w : Nat} (hv : v < 2 ^ w)
    (ha : a < 2 ^ w) :
    (if c then (v ||| a) % 2 ^ w else v) = v ||| (if c then a else 0) := by
  by_cases hc : c
  · rw [if_pos hc, if_pos hc]; exact or_mod_two_pow_flag hv ha
  · rw [if_neg hc, if_neg hc]; exact (Nat.or_zero v).symm

/-- A mask contained in a word is contained in its union with another word. -/
theorem flag_in_or_left {a f : Nat} (b : Nat) (h : a &&& f = f) : (a ||| b) &&& f = f := by
  rw [or_and_distrib_flag, h]
  exact Nat.eq_of_testBit_eq fun i => by
    simp only [Nat.testBit_or, Nat.testBit_and]
    cases f.testBit i <;> simp

/-- A mask contained in a word is contained in the union of another word with it. -/
theorem flag_in_or_right {b f : Nat} (a : Nat) (h : b &&& f = f) : (a ||| b) &&& f = f := by
  rw [Nat.or_comm]
  exact flag_in_or_left a h

/-- A word disjoint from a mask that is not empty does not contain it. -/
theorem flag_absent {v f : Nat} (hf : f ≠ 0) (h : v &&& f = 0) : ¬ (v &&& f = f) := by
  rw [h]
  exact fun h0 => hf h0.symm

/-- The union of two words disjoint from `f` is disjoint from `f`. -/
theorem or_and_eq_zero_flag {a b f : Nat} (ha : a &&& f = 0) (hb : b &&& f = 0) :
    (a ||| b) &&& f = 0 := by
  rw [or_and_distrib_flag, ha, hb]
  rfl

/-- Truncation to `w` bits keeps a mask of `w` bits that the word contains. -/
theorem flag_in_mod {v f w : Nat} (hf : f < 2 ^ w) (h : v &&& f = f) : v % 2 ^ w &&& f = f := by
  rw [and_eq_self_iff_testBit] at h ⊢
  intro i hi
  rw [Nat.testBit_mod_two_pow, h i hi, Bool.and_true, decide_eq_true_eq]
  by_contra hge
  have h0 : f.testBit i = false :=
    Nat.testBit_lt_two_pow
      (Nat.lt_of_lt_of_le hf (Nat.pow_le_pow_right (by decide) (Nat.le_of_not_lt hge)))
  rw [h0] at hi
  cases hi

/-- After `v |= f` on a word of `w` bits the word contains `f`. -/
theorem flag_step_add {f w : Nat} (v : Nat) (hf : f < 2 ^ w) : (v ||| f) % 2 ^ w &&& f = f :=
  flag_in_mod hf (flag_in_or_right v (Nat.and_self f))

/-- A `|=` on a word of `w` bits keeps the masks the word contains. -/
theorem flag_step_keep {v f w : Nat} (g : Nat) (hf : f < 2 ^ w) (h : v &&& f = f) :
    (v ||| g) % 2 ^ w &&& f = f :=
  flag_in_mod hf (flag_in_or_left g h)

/-- A conditional `|=` on a word of `w` bits keeps the masks the word contains. -/
theorem flag_ite_keep (c : Prop) [Decidable c] {v f w : Nat} (g : Nat) (hf : f < 2 ^ w)
    (h : v &&& f = f) : (if c then (v ||| g) % 2 ^ w else v) &&& f = f := by
  by_cases hc : c
  · rw [if_pos hc]; exact flag_step_keep g hf h
  · rw [if_neg hc]; exact h

/-! ## Radiotap header: the fields `GetRadiotapHeader` sets -/

/-- Packing of two nibbles as the VHT block does it. -/
theorem vhtMcsNss_pack : ∀ n m : Fin 16,
    ((0 ||| (n.val &&& 0x0f)) % 2 ^ 8 ||| ((m.val <<< 4) &&& 0xf0)) % 2 ^ 8
      = 16 * m.val + n.val := by
  decide

/-- Claim C14: for a VHT transmission with fewer than 16 streams and an MCS index below
16, the first byte of the MCS/NSS array passed to `SetVhtFields` is `16 * mcs + nss`:
its low nibble is the number of streams, its high nibble the MCS index; the three
other bytes are 0. -/
theorem GetRadiotapHeader_vht_mcs_nss (k : RadiotapConstants) (env : RadiotapEnv)
    (packet : Packet) (channelFreqMhz : Nat) (txVector : WifiTxVector) (aMpdu : MpduInfo)
    (hvht : txVector.mode.modulationClass = WIFI_MOD_CLASS_VHT)
    (hnss : txVector.nss < 16) (hmcs : txVector.mode.mcsValue < 16) :
    ∃ v b, (GetRadiotapHeader k env packet channelFreqMhz txVector aMpdu).header.vhtFields
        = some v
      ∧ v.mcs_nss = [b, 0, 0, 0]
      ∧ b = 16 * txVector.mode.mcsValue + txVector.nss
      ∧ b % 16 = txVector.nss ∧ b &&& 0x0f = txVector.nss
      ∧ b / 16 = txVector.mode.mcsValue ∧ b >>> 4 = txVector.mode.mcsValue := by
  have hb := vhtMcsNss_pack ⟨txVector.nss, hnss⟩ ⟨txVector.mode.mcsValue, hmcs⟩
  simp only [] at hb
  refine ⟨GetRadiotapHeader.vhtFields k txVector, 16 * txVector.mode.mcsValue + txVector.nss,
    ?_, ?_, rfl, ?_, ?_, ?_, ?_⟩
  · unfold GetRadiotapHeader
    simp only [hvht, if_true]
  · unfold GetRadiotapHeader.vhtFields
    simp only [hb]
  · omega
  · rw [show (0x0f : Nat) = 2 ^ 4 - 1 from rfl, Nat.and_pow_two_sub_one_eq_mod]
    omega
  · omega
  · rw [Nat.shiftRight_eq_div_pow]
    omega

/-- Worked instance of claim C14: MCS 7 with 2 streams is encoded as the byte 0x72. -/
theorem GetRadiotapHeader_vht_mcs_nss_witness :
    ∃ v b, (GetRadiotapHeader radiotapConstants exampleRadiotapEnv [1, 2, 3] 5180
          (exampleTxVector WIFI_PREAMBLE_VHT_SU 80 ⟨0, WIFI_MOD_CLASS_VHT, 7⟩ 2)
          ⟨NORMAL_MPDU, 0⟩).header.vhtFields = some v
      ∧ v.mcs_nss = [b, 0, 0, 0]
      ∧ b = 16 * 7 + 2
      ∧ b % 16 = 2 ∧ b &&& 0x0f = 2
      ∧ b / 16 = 7 ∧ b >>> 4 = 7 :=
  GetRadiotapHeader_vht_mcs_nss radiotapConstants exampleRadiotapEnv [1, 2, 3] 5180
    (exampleTxVector WIFI_PREAMBLE_VHT_SU 80 ⟨0, WIFI_MOD_CLASS_VHT, 7⟩ 2) ⟨NORMAL_MPDU, 0⟩
    rfl (by decide) (by decide)

/-- The channel flags are the modulation flag next to the spectrum flag, when each of
the four constants fits in 16 bits. -/
theorem channelFlags_value (k : RadiotapConstants) (rate channelFreqMhz : Nat)
    (hcck : k.CHANNEL_FLAG_CCK < 2 ^ 16) (hofdm : k.CHANNEL_FLAG_OFDM < 2 ^ 16)
    (h2 : k.CHANNEL_FLAG_SPECTRUM_2GHZ < 2 ^ 16)
    (h5 : k.CHANNEL_FLAG_SPECTRUM_5GHZ < 2 ^ 16) :
    GetRadiotapHeader.channelFlags k rate channelFreqMhz =
      (if rate = 2 ∨ rate = 4 ∨ rate = 10 ∨ rate = 22 then k.CHANNEL_FLAG_CCK
        else k.CHANNEL_FLAG_OFDM)
      ||| (if channelFreqMhz < 2500 then k.CHANNEL_FLAG_SPECTRUM_2GHZ
        else k.CHANNEL_FLAG_SPECTRUM_5GHZ) := by
  unfold GetRadiotapHeader.channelFlags
  simp only [Nat.zero_or]
  by_cases hr : rate = 2 ∨ rate = 4 ∨ rate = 10 ∨ rate = 22 <;>
    by_cases hf : channelFreqMhz < 2500
  · rw [if_pos hr, if_pos hr, if_pos hf, if_pos hf, Nat.mod_eq_of_lt hcck,
      or_mod_two_pow_flag hcck h2]
  · rw [if_pos hr, if_pos hr, if_neg hf, if_neg hf, Nat.mod_eq_of_lt hcck,
      or_mod_two_pow_flag hcck h5]
  · rw [if_neg hr, if_neg hr, if_pos hf, if_pos hf, Nat.mod_eq_of_lt hofdm,
      or_mod_two_pow_flag hofdm h2]
  · rw [if_neg hr, if_neg hr, if_neg hf, if_neg hf, Nat.mod_eq_of_lt hofdm,
      or_mod_two_pow_flag hofdm h5]

/-- Claim C15: the channel flags passed to `SetChannelFrequencyAndFlags` contain the
2 GHz spectrum flag exactly when the channel frequency is below 2500 and the 5 GHz
spectrum flag exactly when it is 2500 or more, so never both and never neither, and
the frequency passed is the channel frequency.  The four channel flag constants are
taken to be 16-bit masks, the spectrum flags not empty and disjoint from each other
and from the modulation flags. -/
theorem GetRadiotapHeader_spectrum (k : RadiotapConstants) (env : RadiotapEnv)
    (packet : Packet) (channelFreqMhz : Nat) (txVector : WifiTxVector) (aMpdu : MpduInfo)
    (hcck : k.CHANNEL_FLAG_CCK < 2 ^ 16) (hofdm : k.CHANNEL_FLAG_OFDM < 2 ^ 16)
    (h2 : k.CHANNEL_FLAG_SPECTRUM_2GHZ ≠ 0 ∧ k.CHANNEL_FLAG_SPECTRUM_2GHZ < 2 ^ 16)
    (h5 : k.CHANNEL_FLAG_SPECTRUM_5GHZ ≠ 0 ∧ k.CHANNEL_FLAG_SPECTRUM_5GHZ < 2 ^ 16)
    (hd : k.CHANNEL_FLAG_SPECTRUM_2GHZ &&& k.CHANNEL_FLAG_SPECTRUM_5GHZ = 0)
    (hdcck : k.CHANNEL_FLAG_CCK &&& k.CHANNEL_FLAG_SPECTRUM_2GHZ = 0
      ∧ k.CHANNEL_FLAG_CCK &&& k.CHANNEL_FLAG_SPECTRUM_5GHZ = 0)
    (hdofdm : k.CHANNEL_FLAG_OFDM &&& k.CHANNEL_FLAG_SPECTRUM_2GHZ = 0
      ∧ k.CHANNEL_FLAG_OFDM &&& k.CHANNEL_FLAG_SPECTRUM_5GHZ = 0) :
    ∃ flags, (GetRadiotapHeader k env packet channelFreqMhz txVector aMpdu).header.channel
        = some (channelFreqMhz, flags)
      ∧ (flags &&& k.CHANNEL_FLAG_SPECTRUM_2GHZ = k.CHANNEL_FLAG_SPECTRUM_2GHZ
          ↔ channelFreqMhz < 2500)
      ∧ (flags &&& k.CHANNEL_FLAG_SPECTRUM_5GHZ = k.CHANNEL_FLAG_SPECTRUM_5GHZ
          ↔ 2500 ≤ channelFreqMhz)
      ∧ ¬ (flags &&& k.CHANNEL_FLAG_SPECTRUM_2GHZ = k.CHANNEL_FLAG_SPECTRUM_2GHZ
          ∧ flags &&& k.CHANNEL_FLAG_SPECTRUM_5GHZ = k.CHANNEL_FLAG_SPECTRUM_5GHZ)
      ∧ (flags &&& k.CHANNEL_FLAG_SPECTRUM_2GHZ = k.CHANNEL_FLAG_SPECTRUM_2GHZ
          ∨ flags &&& k.CHANNEL_FLAG_SPECTRUM_5GHZ = k.CHANNEL_FLAG_SPECTRUM_5GHZ) := by
  have hm2 : (if GetRadiotapHeader.rate env txVector = 2 ∨ GetRadiotapHeader.rate env txVector = 4
      ∨ GetRadiotapHeader.rate env txVector = 10 ∨ GetRadiotapHeader.rate env txVector = 22
      then k.CHANNEL_FLAG_CCK else k.CHANNEL_FLAG_OFDM) &&& k.CHANNEL_FLAG_SPECTRUM_2GHZ = 0 := by
    split_ifs
    · exact hdcck.1
    · exact hdofdm.1
  have hm5 : (if GetRadiotapHeader.rate env txVector = 2 ∨ GetRadiotapHeader.rate env txVector = 4
      ∨ GetRadiotapHeader.rate env txVector = 10 ∨ GetRadiotapHeader.rate env txVector = 22
      then k.CHANNEL_FLAG_CCK else k.CHANNEL_FLAG_OFDM) &&& k.CHANNEL_FLAG_SPECTRUM_5GHZ = 0 := by
    split_ifs
    · exact hdcck.2
    · exact hdofdm.2
  have hval := channelFlags_value k (GetRadiotapHeader.rate env txVector) channelFreqMhz
    hcck hofdm h2.2 h5.2
  refine ⟨GetRadiotapHeader.channelFlags k (GetRadiotapHeader.rate env txVector)
    channelFreqMhz, rfl, ?_⟩
  rw [hval]
  by_cases hf : channelFreqMhz < 2500
  · rw [if_pos hf]
    have hin : ∀ m : Nat, (m ||| k.CHANNEL_FLAG_SPECTRUM_2GHZ) &&& k.CHANNEL_FLAG_SPECTRUM_2GHZ
        = k.CHANNEL_FLAG_SPECTRUM_2GHZ := fun m => flag_in_or_right m (Nat.and_self _)
    have hout := flag_absent h5.1 (or_and_eq_zero_flag hm5 hd)
    exact ⟨⟨fun _ => hf, fun _ => hin _⟩, ⟨fun h => absurd h hout, fun h => by omega⟩,
      fun h => hout h.2, Or.inl (hin _)⟩
  · rw [if_neg hf]
    have hin : ∀ m : Nat, (m ||| k.CHANNEL_FLAG_SPECTRUM_5GHZ) &&& k.CHANNEL_FLAG_SPECTRUM_5GHZ
        = k.CHANNEL_FLAG_SPECTRUM_5GHZ := fun m => flag_in_or_right m (Nat.and_self _)
    have hout := flag_absent h2.1
      (or_and_eq_zero_flag hm2 (by rw [Nat.and_comm]; exact hd))
    exact ⟨⟨fun h => absurd h hout, fun h => absurd h hf⟩, ⟨fun _ => by omega, fun _ => hin _⟩,
      fun h => hout h.1, Or.inr (hin _)⟩

/-- Worked instance of claim C15: with the radiotap values of the constants, 2412 MHz is
flagged 2 GHz only, the boundary 2500 MHz and 5180 MHz 5 GHz only. -/
theorem GetRadiotapHeader_spectrum_witness :
    (GetRadiotapHeader radiotapConstants exampleRadiotapEnv [1, 2, 3] 2412
        (exampleTxVector WIFI_PREAMBLE_SHORT 22 ⟨11, WIFI_MOD_CLASS_HR_DSSS, 0⟩ 1)
        ⟨NORMAL_MPDU, 0⟩).header.channel = some (2412, 0x00a0)
      ∧ (GetRadiotapHeader radiotapConstants exampleRadiotapEnv [1, 2, 3] 2500
        (exampleTxVector WIFI_PREAMBLE_LONG 20 ⟨12, WIFI_MOD_CLASS_OFDM, 0⟩ 1)
        ⟨NORMAL_MPDU, 0⟩).header.channel = some (2500, 0x0140)
      ∧ ∃ flags, (GetRadiotapHeader radiotapConstants exampleRadiotapEnv [1, 2, 3] 5180
          (exampleTxVector WIFI_PREAMBLE_LONG 20 ⟨12, WIFI_MOD_CLASS_OFDM, 0⟩ 1)
          ⟨NORMAL_MPDU, 0⟩).header.channel = some (5180, flags)
        ∧ (flags &&& 0x0080 = 0x0080 ↔ 5180 < 2500)
        ∧ (flags &&& 0x0100 = 0x0100 ↔ 2500 ≤ 5180)
        ∧ ¬ (flags &&& 0x0080 = 0x0080 ∧ flags &&& 0x0100 = 0x0100)
        ∧ (flags &&& 0x0080 = 0x0080 ∨ flags &&& 0x0100 = 0x0100) :=
  ⟨rfl, rfl,
    GetRadiotapHeader_spectrum radiotapConstants exampleRadiotapEnv [1, 2, 3] 5180
      (exampleTxVector WIFI_PREAMBLE_LONG 20 ⟨12, WIFI_MOD_CLASS_OFDM, 0⟩ 1) ⟨NORMAL_MPDU, 0⟩
      (by decide) (by decide) ⟨by decide, by decide⟩ ⟨by decide, by decide⟩ (by decide)
      ⟨by decide, by decide⟩ ⟨by decide, by decide⟩⟩

/-- Claim C16: `GetRadiotapHeader` calls `SetRate` exactly when the modulation class is
none of HT, VHT and HE, `SetMcsFields` exactly when it is HT, `SetVhtFields` exactly
when it is VHT and `SetHeFields` exactly when it is HE; so exactly one of the four
blocks is set. -/
theorem GetRadiotapHeader_one_block (k : RadiotapConstants) (env : RadiotapEnv)
    (packet : Packet) (channelFreqMhz : Nat) (txVector : WifiTxVector) (aMpdu : MpduInfo) :
    ((GetRadiotapHeader k env packet channelFreqMhz txVector aMpdu).header.rate.isSome = true
        ↔ txVector.mode.modulationClass ≠ WIFI_MOD_CLASS_HT
          ∧ txVector.mode.modulationClass ≠ WIFI_MOD_CLASS_VHT
          ∧ txVector.mode.modulationClass ≠ WIFI_MOD_CLASS_HE)
      ∧ ((GetRadiotapHeader k env packet channelFreqMhz txVector aMpdu).header.mcsFields.isSome
          = true ↔ txVector.mode.modulationClass = WIFI_MOD_CLASS_HT)
      ∧ ((GetRadiotapHeader k env packet channelFreqMhz txVector aMpdu).header.vhtFields.isSome
          = true ↔ txVector.mode.modulationClass = WIFI_MOD_CLASS_VHT)
      ∧ ((GetRadiotapHeader k env packet channelFreqMhz txVector aMpdu).header.heFields.isSome
          = true ↔ txVector.mode.modulationClass = WIFI_MOD_CLASS_HE)
      ∧ List.count true
          [(GetRadiotapHeader k env packet channelFreqMhz txVector aMpdu).header.rate.isSome,
            (GetRadiotapHeader k env packet channelFreqMhz txVector aMpdu).header.mcsFields.isSome,
            (GetRadiotapHeader k env packet channelFreqMhz txVector aMpdu).header.vhtFields.isSome,
            (GetRadiotapHeader k env packet channelFreqMhz txVector aMpdu).header.heFields.isSome]
          = 1 := by
  unfold GetRadiotapHeader GetRadiotapHeader.isLegacy
  cases hc : txVector.mode.modulationClass <;> simp

/-- The frame flags are the FCS flag next to the two conditional flags, when each of the
constants fits in 8 bits. -/
theorem frameFlags_value (k : RadiotapConstants) (txVector : WifiTxVector)
    (hnone : k.FRAME_FLAG_NONE = 0)
    (hfcs : k.FRAME_FLAG_FCS_INCLUDED < 2 ^ 8)
    (hsp : k.FRAME_FLAG_SHORT_PREAMBLE < 2 ^ 8)
    (hsg : k.FRAME_FLAG_SHORT_GUARD < 2 ^ 8) :
    GetRadiotapHeader.frameFlags k txVector =
      k.FRAME_FLAG_FCS_INCLUDED
        ||| (if txVector.preambleType = WIFI_PREAMBLE_SHORT then k.FRAME_FLAG_SHORT_PREAMBLE
              else 0)
        ||| (if txVector.guardInterval = 400 then k.FRAME_FLAG_SHORT_GUARD else 0) := by
  unfold GetRadiotapHeader.frameFlags
  simp only [hnone, Nat.zero_mod, Nat.zero_or]
  rw [Nat.mod_eq_of_lt hfcs, or_ite_mod_flag _ hfcs hsp,
    or_ite_mod_flag _ (Nat.or_lt_two_pow hfcs (ite_lt_flag _ _ _ hsp)) hsg]

/-- Claim C17: the frame flags passed to `SetFrameFlags` are exactly the FCS-included
flag, the short-preamble flag when the preamble is `WIFI_PREAMBLE_SHORT` and the
short-guard flag when the guard interval is 400: the first is always contained, each
of the other two exactly under its condition, and no other bit is set.  The three
constants are taken to be 8-bit masks, disjoint from each other, the two conditional
ones not empty, and `FRAME_FLAG_NONE` to be 0. -/
theorem GetRadiotapHeader_frameFlags (k : RadiotapConstants) (env : RadiotapEnv)
    (packet : Packet) (channelFreqMhz : Nat) (txVector : WifiTxVector) (aMpdu : MpduInfo)
    (hnone : k.FRAME_FLAG_NONE = 0)
    (hfcs : k.FRAME_FLAG_FCS_INCLUDED < 2 ^ 8)
    (hsp : k.FRAME_FLAG_SHORT_PREAMBLE ≠ 0 ∧ k.FRAME_FLAG_SHORT_PREAMBLE < 2 ^ 8)
    (hsg : k.FRAME_FLAG_SHORT_GUARD ≠ 0 ∧ k.FRAME_FLAG_SHORT_GUARD < 2 ^ 8)
    (hd : k.FRAME_FLAG_FCS_INCLUDED &&& k.FRAME_FLAG_SHORT_PREAMBLE = 0
      ∧ k.FRAME_FLAG_FCS_INCLUDED &&& k.FRAME_FLAG_SHORT_GUARD = 0
      ∧ k.FRAME_FLAG_SHORT_PREAMBLE &&& k.FRAME_FLAG_SHORT_GUARD = 0) :
    ∃ v, (GetRadiotapHeader k env packet channelFreqMhz txVector aMpdu).header.frameFlags
        = some v
      ∧ v &&& k.FRAME_FLAG_FCS_INCLUDED = k.FRAME_FLAG_FCS_INCLUDED
      ∧ (v &&& k.FRAME_FLAG_SHORT_PREAMBLE = k.FRAME_FLAG_SHORT_PREAMBLE
          ↔ txVector.preambleType = WIFI_PREAMBLE_SHORT)
      ∧ (v &&& k.FRAME_FLAG_SHORT_GUARD = k.FRAME_FLAG_SHORT_GUARD
          ↔ txVector.guardInterval = 400)
      ∧ v = k.FRAME_FLAG_FCS_INCLUDED
          ||| (if txVector.preambleType = WIFI_PREAMBLE_SHORT then
                k.FRAME_FLAG_SHORT_PREAMBLE else 0)
          ||| (if txVector.guardInterval = 400 then k.FRAME_FLAG_SHORT_GUARD else 0) := by
  obtain ⟨hd1, hd2, hd3⟩ := hd
  refine ⟨_, rfl, ?_, ?_, ?_, frameFlags_value k txVector hnone hfcs hsp.2 hsg.2⟩
  · rw [frameFlags_value k txVector hnone hfcs hsp.2 hsg.2]
    rw [or_and_distrib_flag, or_and_distrib_flag, Nat.and_self, Nat.or_assoc]
    exact Nat.eq_of_testBit_eq fun i => by
      simp only [Nat.testBit_or, Nat.testBit_and]
      cases k.FRAME_FLAG_FCS_INCLUDED.testBit i <;> simp
  · rw [frameFlags_value k txVector hnone hfcs hsp.2 hsg.2]
    rw [Nat.or_assoc, Nat.or_comm _ (ite _ k.FRAME_FLAG_SHORT_GUARD 0), ← Nat.or_assoc]
    apply flag_set_iff _ _ _ hsp.1
    rw [or_and_distrib_flag, hd1, ite_and_flag _ _ _ (by rw [Nat.and_comm]; exact hd3)]
    rfl
  · rw [frameFlags_value k txVector hnone hfcs hsp.2 hsg.2]
    apply flag_set_iff _ _ _ hsg.1
    rw [or_and_distrib_flag, hd2, ite_and_flag _ _ _ hd3]
    rfl

/-- Worked instance of claim C17: with the radiotap values of the constants, a short
preamble with the long guard interval gives the byte 0x12. -/
theorem GetRadiotapHeader_frameFlags_witness :
    (GetRadiotapHeader radiotapConstants exampleRadiotapEnv [1, 2, 3] 2412
        (exampleTxVector WIFI_PREAMBLE_SHORT 22 ⟨11, WIFI_MOD_CLASS_HR_DSSS, 0⟩ 1)
        ⟨NORMAL_MPDU, 0⟩).header.frameFlags = some 0x12
      ∧ ∃ v, (GetRadiotapHeader radiotapConstants exampleRadiotapEnv [1, 2, 3] 2412
          (exampleTxVector WIFI_PREAMBLE_SHORT 22 ⟨11, WIFI_MOD_CLASS_HR_DSSS, 0⟩ 1)
          ⟨NORMAL_MPDU, 0⟩).header.frameFlags = some v
        ∧ v &&& 0x10 = 0x10
        ∧ (v &&& 0x02 = 0x02 ↔ WIFI_PREAMBLE_SHORT = WIFI_PREAMBLE_SHORT)
        ∧ (v &&& 0x80 = 0x80 ↔ 800 = 400)
        ∧ v = 0x10 ||| (if WIFI_PREAMBLE_SHORT = WIFI_PREAMBLE_SHORT then 0x02 else 0)
            ||| (if 800 = 400 then 0x80 else 0) :=
  ⟨rfl,
    GetRadiotapHeader_frameFlags radiotapConstants exampleRadiotapEnv [1, 2, 3] 2412
      (exampleTxVector WIFI_PREAMBLE_SHORT 22 ⟨11, WIFI_MOD_CLASS_HR_DSSS, 0⟩ 1)
      ⟨NORMAL_MPDU, 0⟩ rfl (by decide) ⟨by decide, by decide⟩ ⟨by decide, by decide⟩
      ⟨by decide, by decide, by decide⟩⟩

/-- Claim C18: the channel flags passed to `SetChannelFrequencyAndFlags` contain exactly
one of the CCK and OFDM flags: CCK exactly when the modulation class is none of HT, VHT
and HE and the rate value, the `uint64_t` product of the data rate for one stream and
the number of streams divided by 500000, not yet truncated to the 8 bits passed to
`SetRate`, is 2, 4, 10 or 22; OFDM in every other case.  The rate value is the quotient
of the product itself whenever the product is below 2 ^ 64.  The four channel flag
constants are taken to be 16-bit masks, the modulation flags not empty and disjoint
from each other and from the spectrum flags. -/
theorem GetRadiotapHeader_cck_ofdm (k : RadiotapConstants) (env : RadiotapEnv)
    (packet : Packet) (channelFreqMhz : Nat) (txVector : WifiTxVector) (aMpdu : MpduInfo)
    (dataRate r : Nat)
    (hrate : dataRate
      = env.GetDataRate txVector.mode txVector.channelWidth txVector.guardInterval 1)
    (hr : r = (dataRate * txVector.nss) % 2 ^ 64 / 500000)
    (hcck : k.CHANNEL_FLAG_CCK ≠ 0 ∧ k.CHANNEL_FLAG_CCK < 2 ^ 16)
    (hofdm : k.CHANNEL_FLAG_OFDM ≠ 0 ∧ k.CHANNEL_FLAG_OFDM < 2 ^ 16)
    (h2 : k.CHANNEL_FLAG_SPECTRUM_2GHZ < 2 ^ 16)
    (h5 : k.CHANNEL_FLAG_SPECTRUM_5GHZ < 2 ^ 16)
    (hd : k.CHANNEL_FLAG_CCK &&& k.CHANNEL_FLAG_OFDM = 0)
    (hd2 : k.CHANNEL_FLAG_SPECTRUM_2GHZ &&& k.CHANNEL_FLAG_CCK = 0
      ∧ k.CHANNEL_FLAG_SPECTRUM_2GHZ &&& k.CHANNEL_FLAG_OFDM = 0)
    (hd5 : k.CHANNEL_FLAG_SPECTRUM_5GHZ &&& k.CHANNEL_FLAG_CCK = 0
      ∧ k.CHANNEL_FLAG_SPECTRUM_5GHZ &&& k.CHANNEL_FLAG_OFDM = 0) :
    ∃ flags, (GetRadiotapHeader k env packet channelFreqMhz txVector aMpdu).header.channel
        = some (channelFreqMhz, flags)
      ∧ (flags &&& k.CHANNEL_FLAG_CCK = k.CHANNEL_FLAG_CCK
          ↔ (txVector.mode.modulationClass ≠ WIFI_MOD_CLASS_HT
              ∧ txVector.mode.modulationClass ≠ WIFI_MOD_CLASS_VHT
              ∧ txVector.mode.modulationClass ≠ WIFI_MOD_CLASS_HE)
            ∧ (r = 2 ∨ r = 4 ∨ r = 10 ∨ r = 22))
      ∧ (flags &&& k.CHANNEL_FLAG_OFDM = k.CHANNEL_FLAG_OFDM
          ↔ ¬ ((txVector.mode.modulationClass ≠ WIFI_MOD_CLASS_HT
              ∧ txVector.mode.modulationClass ≠ WIFI_MOD_CLASS_VHT
              ∧ txVector.mode.modulationClass ≠ WIFI_MOD_CLASS_HE)
            ∧ (r = 2 ∨ r = 4 ∨ r = 10 ∨ r = 22)))
      ∧ (dataRate * txVector.nss < 2 ^ 64 → r = dataRate * txVector.nss / 500000)
      ∧ ((GetRadiotapHeader k env packet channelFreqMhz txVector aMpdu).header.rate.isSome = true
          → (GetRadiotapHeader k env packet channelFreqMhz txVector aMpdu).header.rate
            = some (r % 2 ^ 8)) := by
  have hs2 : (if channelFreqMhz < 2500 then k.CHANNEL_FLAG_SPECTRUM_2GHZ
      else k.CHANNEL_FLAG_SPECTRUM_5GHZ) &&& k.CHANNEL_FLAG_CCK = 0 := by
    split_ifs
    · exact hd2.1
    · exact hd5.1
  have hs5 : (if channelFreqMhz < 2500 then k.CHANNEL_FLAG_SPECTRUM_2GHZ
      else k.CHANNEL_FLAG_SPECTRUM_5GHZ) &&& k.CHANNEL_FLAG_OFDM = 0 := by
    split_ifs
    · exact hd2.2
    · exact hd5.2
  have hval := channelFlags_value k (GetRadiotapHeader.rate env txVector) channelFreqMhz
    hcck.2 hofdm.2 h2 h5
  have hlegacy : GetRadiotapHeader.isLegacy txVector = true
      ↔ (txVector.mode.modulationClass ≠ WIFI_MOD_CLASS_HT
          ∧ txVector.mode.modulationClass ≠ WIFI_MOD_CLASS_VHT
          ∧ txVector.mode.modulationClass ≠ WIFI_MOD_CLASS_HE) := by
    unfold GetRadiotapHeader.isLegacy
    simp only [Bool.and_eq_true, decide_eq_true_eq, and_assoc]
  have hcond : (GetRadiotapHeader.rate env txVector = 2 ∨ GetRadiotapHeader.rate env txVector = 4
      ∨ GetRadiotapHeader.rate env txVector = 10 ∨ GetRadiotapHeader.rate env txVector = 22)
      ↔ ((txVector.mode.modulationClass ≠ WIFI_MOD_CLASS_HT
              ∧ txVector.mode.modulationClass ≠ WIFI_MOD_CLASS_VHT
              ∧ txVector.mode.modulationClass ≠ WIFI_MOD_CLASS_HE)
            ∧ (r = 2 ∨ r = 4 ∨ r = 10 ∨ r = 22)) := by
    rw [← hlegacy]
    unfold GetRadiotapHeader.rate
    by_cases hl : GetRadiotapHeader.isLegacy txVector = true
    · rw [if_pos hl, ← hrate, ← hr]
      exact ⟨fun h => ⟨hl, h⟩, fun h => h.2⟩
    · rw [if_neg hl]
      exact ⟨fun h => by omega, fun h => absurd h.1 hl⟩
  refine ⟨GetRadiotapHeader.channelFlags k (GetRadiotapHeader.rate env txVector)
    channelFreqMhz, rfl, ?_, ?_, ?_, ?_⟩
  · rw [hval, ← hcond]
    by_cases hc : GetRadiotapHeader.rate env txVector = 2
        ∨ GetRadiotapHeader.rate env txVector = 4
        ∨ GetRadiotapHeader.rate env txVector = 10 ∨ GetRadiotapHeader.rate env txVector = 22
    · rw [if_pos hc]
      exact ⟨fun _ => hc, fun _ => flag_in_or_left _ (Nat.and_self _)⟩
    · rw [if_neg hc]
      exact ⟨fun h => absurd h (flag_absent hcck.1
        (or_and_eq_zero_flag (by rw [Nat.and_comm]; exact hd) hs2)), fun h => absurd h hc⟩
  · rw [hval, ← hcond]
    by_cases hc : GetRadiotapHeader.rate env txVector = 2
        ∨ GetRadiotapHeader.rate env txVector = 4
        ∨ GetRadiotapHeader.rate env txVector = 10 ∨ GetRadiotapHeader.rate env txVector = 22
    · rw [if_pos hc]
      exact ⟨fun h => absurd h (flag_absent hofdm.1 (or_and_eq_zero_flag hd hs5)),
        fun h => absurd hc h⟩
    · rw [if_neg hc]
      exact ⟨fun _ => hc, fun _ => flag_in_or_left _ (Nat.and_self _)⟩
  · intro hlt
    rw [hr, Nat.mod_eq_of_lt hlt]
  · unfold GetRadiotapHeader GetRadiotapHeader.rate
    by_cases hl : GetRadiotapHeader.isLegacy txVector = true
    · simp only [hl, if_true, ← hrate, ← hr, implies_true]
    · simp only [hl, if_false, Option.isSome_none, Bool.false_eq_true, false_implies]

/-- Worked instance of claim C18: 11 Mbit/s DSSS has rate value 22 and is flagged CCK,
not OFDM. -/
theorem GetRadiotapHeader_cck_ofdm_witness :
    (GetRadiotapHeader radiotapConstants exampleRadiotapEnv [1, 2, 3] 2412
        (exampleTxVector WIFI_PREAMBLE_SHORT 22 ⟨11, WIFI_MOD_CLASS_HR_DSSS, 0⟩ 1)
        ⟨NORMAL_MPDU, 0⟩).header.channel = some (2412, 0x00a0)
      ∧ ∃ flags, (GetRadiotapHeader radiotapConstants exampleRadiotapEnv [1, 2, 3] 2412
          (exampleTxVector WIFI_PREAMBLE_SHORT 22 ⟨11, WIFI_MOD_CLASS_HR_DSSS, 0⟩ 1)
          ⟨NORMAL_MPDU, 0⟩).header.channel = some (2412, flags)
        ∧ flags &&& 0x0020 = 0x0020 ∧ ¬ (flags &&& 0x0040 = 0x0040) := by
  obtain ⟨flags, h, hc, ho, _, _⟩ :=
    GetRadiotapHeader_cck_ofdm radiotapConstants exampleRadiotapEnv [1, 2, 3] 2412
      (exampleTxVector WIFI_PREAMBLE_SHORT 22 ⟨11, WIFI_MOD_CLASS_HR_DSSS, 0⟩ 1)
      ⟨NORMAL_MPDU, 0⟩ 11000000 22 rfl rfl ⟨by decide, by decide⟩ ⟨by decide, by decide⟩
      (by decide) (by decide) (by decide) ⟨by decide, by decide⟩ ⟨by decide, by decide⟩
  exact ⟨rfl, flags, h, hc.mpr ⟨⟨by decide, by decide, by decide⟩, Or.inr (Or.inr (Or.inr rfl))⟩,
    fun h => ho.mp h ⟨⟨by decide, by decide, by decide⟩, Or.inr (Or.inr (Or.inr rfl))⟩⟩

/-- The HT flags byte is the union of the five conditional flags, when each of the
constants fits in 8 bits. -/
theorem mcsFlags_value (k : RadiotapConstants) (txVector : WifiTxVector)
    (hnone : k.MCS_FLAGS_NONE = 0)
    (hbw : k.MCS_FLAGS_BANDWIDTH_40 < 2 ^ 8) (hgi : k.MCS_FLAGS_GUARD_INTERVAL < 2 ^ 8)
    (hgf : k.MCS_FLAGS_HT_GREENFIELD < 2 ^ 8) (hness : k.MCS_FLAGS_NESS_BIT_0 < 2 ^ 8)
    (hstbc : k.MCS_FLAGS_STBC_STREAMS < 2 ^ 8) :
    GetRadiotapHeader.mcsFlags k txVector =
      (if txVector.channelWidth = 40 then k.MCS_FLAGS_BANDWIDTH_40 else 0)
        ||| (if txVector.guardInterval = 400 then k.MCS_FLAGS_GUARD_INTERVAL else 0)
        ||| (if txVector.preambleType = WIFI_PREAMBLE_HT_GF then k.MCS_FLAGS_HT_GREENFIELD
              else 0)
        ||| (if txVector.ness &&& 0x01 ≠ 0 then k.MCS_FLAGS_NESS_BIT_0 else 0)
        ||| (if txVector.stbc = true then k.MCS_FLAGS_STBC_STREAMS else 0) := by
  have h0 : (0 : Nat) < 2 ^ 8 := by decide
  have b1 := Nat.or_lt_two_pow h0 (ite_lt_flag (txVector.channelWidth = 40) _ _ hbw)
  have b2 := Nat.or_lt_two_pow b1 (ite_lt_flag (txVector.guardInterval = 400) _ _ hgi)
  have b3 := Nat.or_lt_two_pow b2
    (ite_lt_flag (txVector.preambleType = WIFI_PREAMBLE_HT_GF) _ _ hgf)
  have b4 := Nat.or_lt_two_pow b3 (ite_lt_flag (txVector.ness &&& 0x01 ≠ 0) _ _ hness)
  unfold GetRadiotapHeader.mcsFlags
  simp only [hnone, Nat.zero_mod]
  rw [or_ite_mod_flag _ h0 hbw, or_ite_mod_flag _ b1 hgi, or_ite_mod_flag _ b2 hgf,
    or_ite_mod_flag _ b3 hness, or_ite_mod_flag _ b4 hstbc, Nat.zero_or]

/-- The HT known byte contains every mask that is put into it unconditionally. -/
theorem mcsKnown_contains (k : RadiotapConstants) (txVector : WifiTxVector) :
    ∀ f, f < 2 ^ 8 →
      (f = k.MCS_KNOWN_INDEX ∨ f = k.MCS_KNOWN_BANDWIDTH ∨ f = k.MCS_KNOWN_GUARD_INTERVAL
        ∨ f = k.MCS_KNOWN_HT_FORMAT ∨ f = k.MCS_KNOWN_NESS ∨ f = k.MCS_KNOWN_FEC_TYPE
        ∨ f = k.MCS_KNOWN_STBC) →
      GetRadiotapHeader.mcsKnown k txVector &&& f = f := by
  intro f hf hmem
  unfold GetRadiotapHeader.mcsKnown
  simp only []
  rcases hmem with h | h | h | h | h | h | h <;> subst h <;>
    repeat (first
      | exact flag_step_add _ hf
      | apply flag_step_keep _ hf
      | apply flag_ite_keep _ _ hf)

/-- Claim C19: for an HT transmission the MCS index passed to `SetMcsFields` is the MCS
value of the mode; the flags byte contains the 40 MHz flag exactly when the channel
width is 40, the short guard interval flag exactly when the guard interval is 400, the
greenfield flag exactly when the preamble is `WIFI_PREAMBLE_HT_GF`, the STBC flag
exactly when the tx vector is STBC and the extension-stream bit 0 exactly when bit 0
of Ness is set; and the known byte contains the known bits for index, bandwidth, guard
interval, HT format, Ness, FEC type and STBC in every case.  The constants are taken
to be 8-bit masks, the five flags not empty and disjoint from each other, and
`MCS_FLAGS_NONE` to be 0. -/
theorem GetRadiotapHeader_mcs (k : RadiotapConstants) (env : RadiotapEnv)
    (packet : Packet) (channelFreqMhz : Nat) (txVector : WifiTxVector) (aMpdu : MpduInfo)
    (hht : txVector.mode.modulationClass = WIFI_MOD_CLASS_HT)
    (hnone : k.MCS_FLAGS_NONE = 0)
    (hflags : ∀ f ∈ [k.MCS_FLAGS_BANDWIDTH_40, k.MCS_FLAGS_GUARD_INTERVAL,
        k.MCS_FLAGS_HT_GREENFIELD, k.MCS_FLAGS_NESS_BIT_0, k.MCS_FLAGS_STBC_STREAMS],
      f ≠ 0 ∧ f < 2 ^ 8)
    (hdisjoint : List.Pairwise (fun a b => a &&& b = 0)
      [k.MCS_FLAGS_BANDWIDTH_40, k.MCS_FLAGS_GUARD_INTERVAL, k.MCS_FLAGS_HT_GREENFIELD,
        k.MCS_FLAGS_NESS_BIT_0, k.MCS_FLAGS_STBC_STREAMS])
    (hknown : ∀ f ∈ [k.MCS_KNOWN_INDEX, k.MCS_KNOWN_BANDWIDTH, k.MCS_KNOWN_GUARD_INTERVAL,
        k.MCS_KNOWN_HT_FORMAT, k.MCS_KNOWN_NESS, k.MCS_KNOWN_FEC_TYPE, k.MCS_KNOWN_STBC],
      f < 2 ^ 8) :
    ∃ known flags,
      (GetRadiotapHeader k env packet channelFreqMhz txVector aMpdu).header.mcsFields
        = some (known, flags, txVector.mode.mcsValue)
      ∧ (flags &&& k.MCS_FLAGS_BANDWIDTH_40 = k.MCS_FLAGS_BANDWIDTH_40
          ↔ txVector.channelWidth = 40)
      ∧ (flags &&& k.MCS_FLAGS_GUARD_INTERVAL = k.MCS_FLAGS_GUARD_INTERVAL
          ↔ txVector.guardInterval = 400)
      ∧ (flags &&& k.MCS_FLAGS_HT_GREENFIELD = k.MCS_FLAGS_HT_GREENFIELD
          ↔ txVector.preambleType = WIFI_PREAMBLE_HT_GF)
      ∧ (flags &&& k.MCS_FLAGS_STBC_STREAMS = k.MCS_FLAGS_STBC_STREAMS
          ↔ txVector.stbc = true)
      ∧ (flags &&& k.MCS_FLAGS_NESS_BIT_0 = k.MCS_FLAGS_NESS_BIT_0
          ↔ txVector.ness % 2 = 1)
      ∧ ∀ f ∈ [k.MCS_KNOWN_INDEX, k.MCS_KNOWN_BANDWIDTH, k.MCS_KNOWN_GUARD_INTERVAL,
          k.MCS_KNOWN_HT_FORMAT, k.MCS_KNOWN_NESS, k.MCS_KNOWN_FEC_TYPE, k.MCS_KNOWN_STBC],
        known &&& f = f := by
  simp only [List.mem_cons, List.mem_singleton, List.not_mem_nil, or_false, forall_eq_or_imp,
    forall_eq] at hflags hknown
  simp only [List.pairwise_cons, List.mem_cons, List.mem_singleton, List.not_mem_nil, or_false,
    forall_eq_or_imp, forall_eq, List.Pairwise.nil, and_true, IsEmpty.forall_iff,
    implies_true] at hdisjoint
  obtain ⟨⟨hbw0, hbw⟩, ⟨hgi0, hgi⟩, ⟨hgf0, hgf⟩, ⟨hness0, hness⟩, ⟨hstbc0, hstbc⟩⟩ := hflags
  obtain ⟨⟨d12, d13, d14, d15⟩, ⟨d23, d24, d25⟩, ⟨d34, d35⟩, d45⟩ := hdisjoint
  have hval := mcsFlags_value k txVector hnone hbw hgi hgf hness hstbc
  have hnessbit : txVector.ness &&& 0x01 ≠ 0 ↔ txVector.ness % 2 = 1 := by
    rw [Nat.and_one_is_mod]
    omega
  have c12 := Nat.and_comm k.MCS_FLAGS_GUARD_INTERVAL k.MCS_FLAGS_BANDWIDTH_40
  have c13 := Nat.and_comm k.MCS_FLAGS_HT_GREENFIELD k.MCS_FLAGS_BANDWIDTH_40
  have c14 := Nat.and_comm k.MCS_FLAGS_NESS_BIT_0 k.MCS_FLAGS_BANDWIDTH_40
  have c15 := Nat.and_comm k.MCS_FLAGS_STBC_STREAMS k.MCS_FLAGS_BANDWIDTH_40
  have c23 := Nat.and_comm k.MCS_FLAGS_HT_GREENFIELD k.MCS_FLAGS_GUARD_INTERVAL
  have c24 := Nat.and_comm k.MCS_FLAGS_NESS_BIT_0 k.MCS_FLAGS_GUARD_INTERVAL
  have c25 := Nat.and_comm k.MCS_FLAGS_STBC_STREAMS k.MCS_FLAGS_GUARD_INTERVAL
  have c34 := Nat.and_comm k.MCS_FLAGS_NESS_BIT_0 k.MCS_FLAGS_HT_GREENFIELD
  have c35 := Nat.and_comm k.MCS_FLAGS_STBC_STREAMS k.MCS_FLAGS_HT_GREENFIELD
  have c45 := Nat.and_comm k.MCS_FLAGS_STBC_STREAMS k.MCS_FLAGS_NESS_BIT_0
  rw [d12] at c12; rw [d13] at c13; rw [d14] at c14; rw [d15] at c15; rw [d23] at c23
  rw [d24] at c24; rw [d25] at c25; rw [d34] at c34; rw [d35] at c35; rw [d45] at c45
  refine ⟨GetRadiotapHeader.mcsKnown k txVector, GetRadiotapHeader.mcsFlags k txVector,
    ?_, ?_, ?_, ?_, ?_, ?_, ?_⟩
  · unfold GetRadiotapHeader
    simp only [hht, if_true]
  · rw [hval, show ∀ a b c d e : Nat, a ||| b ||| c ||| d ||| e = (b ||| c ||| d ||| e) ||| a
      from fun a b c d e => by ac_rfl]
    exact flag_set_iff _ _ _ hbw0 (or_and_eq_zero_flag (or_and_eq_zero_flag
      (or_and_eq_zero_flag (ite_and_flag _ _ _ c12) (ite_and_flag _ _ _ c13))
      (ite_and_flag _ _ _ c14)) (ite_and_flag _ _ _ c15))
  · rw [hval, show ∀ a b c d e : Nat, a ||| b ||| c ||| d ||| e = (a ||| c ||| d ||| e) ||| b
      from fun a b c d e => by ac_rfl]
    exact flag_set_iff _ _ _ hgi0 (or_and_eq_zero_flag (or_and_eq_zero_flag
      (or_and_eq_zero_flag (ite_and_flag _ _ _ d12) (ite_and_flag _ _ _ c23))
      (ite_and_flag _ _ _ c24)) (ite_and_flag _ _ _ c25))
  · rw [hval, show ∀ a b c d e : Nat, a ||| b ||| c ||| d ||| e = (a ||| b ||| d ||| e) ||| c
      from fun a b c d e => by ac_rfl]
    exact flag_set_iff _ _ _ hgf0 (or_and_eq_zero_flag (or_and_eq_zero_flag
      (or_and_eq_zero_flag (ite_and_flag _ _ _ d13) (ite_and_flag _ _ _ d23))
      (ite_and_flag _ _ _ c34)) (ite_and_flag _ _ _ c35))
  · rw [hval]
    exact flag_set_iff _ _ _ hstbc0 (or_and_eq_zero_flag (or_and_eq_zero_flag
      (or_and_eq_zero_flag (ite_and_flag _ _ _ d15) (ite_and_flag _ _ _ d25))
      (ite_and_flag _ _ _ d35)) (ite_and_flag _ _ _ d45))
  · rw [hval, show ∀ a b c d e : Nat, a ||| b ||| c ||| d ||| e = (a ||| b ||| c ||| e) ||| d
      from fun a b c d e => by ac_rfl, ← hnessbit]
    exact flag_set_iff _ _ _ hness0 (or_and_eq_zero_flag (or_and_eq_zero_flag
      (or_and_eq_zero_flag (ite_and_flag _ _ _ d14) (ite_and_flag _ _ _ d24))
      (ite_and_flag _ _ _ d34)) (ite_and_flag _ _ _ c45))
  · intro f hf
    simp only [List.mem_cons, List.mem_singleton, List.not_mem_nil, or_false] at hf
    refine mcsKnown_contains k txVector f ?_ hf
    rcases hf with h | h | h | h | h | h | h <;> subst h
    · exact hknown.1
    · exact hknown.2.1
    · exact hknown.2.2.1
    · exact hknown.2.2.2.1
    · exact hknown.2.2.2.2.1
    · exact hknown.2.2.2.2.2.1
    · exact hknown.2.2.2.2.2.2

/-- Worked instance of claim C19: with the radiotap values of the constants, MCS 7 on
40 MHz with the short guard interval, one extension stream and STBC gives the known
byte 0x7f, the flags byte 0xe5 and the index 7. -/
theorem GetRadiotapHeader_mcs_witness :
    (GetRadiotapHeader radiotapConstants exampleRadiotapEnv [3, 1, 0, 0, 9, 9, 9, 0] 5180
        ⟨WIFI_PREAMBLE_HT_MF, 40, ⟨0, WIFI_MOD_CLASS_HT, 7⟩, 400, 2, 1, true, true⟩
        ⟨MPDU_IN_AGGREGATE, 5⟩).header.mcsFields = some (0x7f, 0xe5, 7)
      ∧ ∃ known flags,
        (GetRadiotapHeader radiotapConstants exampleRadiotapEnv [3, 1, 0, 0, 9, 9, 9, 0] 5180
          ⟨WIFI_PREAMBLE_HT_MF, 40, ⟨0, WIFI_MOD_CLASS_HT, 7⟩, 400, 2, 1, true, true⟩
          ⟨MPDU_IN_AGGREGATE, 5⟩).header.mcsFields = some (known, flags, 7)
        ∧ flags &&& 0x01 = 0x01 ∧ flags &&& 0x04 = 0x04 ∧ ¬ (flags &&& 0x08 = 0x08)
        ∧ flags &&& 0x60 = 0x60 ∧ flags &&& 0x80 = 0x80 := by
  obtain ⟨known, flags, h, hbw, hgi, hgf, hstbc, hness, _⟩ :=
    GetRadiotapHeader_mcs radiotapConstants exampleRadiotapEnv [3, 1, 0, 0, 9, 9, 9, 0] 5180
      ⟨WIFI_PREAMBLE_HT_MF, 40, ⟨0, WIFI_MOD_CLASS_HT, 7⟩, 400, 2, 1, true, true⟩
      ⟨MPDU_IN_AGGREGATE, 5⟩ rfl rfl (by decide) (by decide) (by decide)
  exact ⟨rfl, known, flags, h, hbw.mpr rfl, hgi.mpr rfl, fun h => absurd (hgf.mp h) (by decide),
    hstbc.mpr rfl, hness.mpr rfl⟩

/-- The A-MPDU status flags are the last-known flag next to the conditional last flag,
when both constants fit in 16 bits. -/
theorem ampduStatusFlags_value (k : RadiotapConstants) (aMpdu : MpduInfo)
    (hdr : AmpduSubframeHeader) (hnone : k.A_MPDU_STATUS_NONE = 0)
    (hlk : k.A_MPDU_STATUS_LAST_KNOWN < 2 ^ 16) (hl : k.A_MPDU_STATUS_LAST < 2 ^ 16) :
    GetRadiotapHeader.ampduStatusFlags k aMpdu hdr =
      k.A_MPDU_STATUS_LAST_KNOWN
        ||| (if aMpdu.type = LAST_MPDU_IN_AGGREGATE ∨ (hdr.eof = true ∧ hdr.length > 0) then
              k.A_MPDU_STATUS_LAST else 0) := by
  unfold GetRadiotapHeader.ampduStatusFlags
  simp only [hnone, Nat.zero_mod, Nat.zero_or]
  rw [Nat.mod_eq_of_lt hlk, or_ite_mod_flag _ hlk hl]

/-- Claim C20: for an aggregated transmission the arguments of `SetAmpduStatus` are the
reference number `aMpdu.mpduRefNumber` and flags that are exactly the last-known flag,
always, and the last flag exactly when `aMpdu.type` is `LAST_MPDU_IN_AGGREGATE` or the
subframe header removed from the packet has its EOF flag set and a length above 0; for
a transmission that is not aggregated `SetAmpduStatus` is not called and the packet is
left as it was.  The two constants are taken to be disjoint 16-bit masks, the last
flag not empty, and `A_MPDU_STATUS_NONE` to be 0. -/
theorem GetRadiotapHeader_ampdu (k : RadiotapConstants) (env : RadiotapEnv)
    (packet : Packet) (channelFreqMhz : Nat) (txVector : WifiTxVector) (aMpdu : MpduInfo)
    (hdr : AmpduSubframeHeader) (hhdr : hdr = (env.RemoveHeader packet).1)
    (hnone : k.A_MPDU_STATUS_NONE = 0)
    (hlk : k.A_MPDU_STATUS_LAST_KNOWN < 2 ^ 16)
    (hl : k.A_MPDU_STATUS_LAST ≠ 0 ∧ k.A_MPDU_STATUS_LAST < 2 ^ 16)
    (hd : k.A_MPDU_STATUS_LAST_KNOWN &&& k.A_MPDU_STATUS_LAST = 0) :
    (txVector.aggregation = true →
        ∃ flags, (GetRadiotapHeader k env packet channelFreqMhz txVector aMpdu).header.ampduStatus
            = some (aMpdu.mpduRefNumber, flags, 1)
          ∧ flags &&& k.A_MPDU_STATUS_LAST_KNOWN = k.A_MPDU_STATUS_LAST_KNOWN
          ∧ (flags &&& k.A_MPDU_STATUS_LAST = k.A_MPDU_STATUS_LAST
              ↔ aMpdu.type = LAST_MPDU_IN_AGGREGATE ∨ (hdr.eof = true ∧ hdr.length > 0))
          ∧ flags = k.A_MPDU_STATUS_LAST_KNOWN
              ||| (if aMpdu.type = LAST_MPDU_IN_AGGREGATE ∨ (hdr.eof = true ∧ hdr.length > 0)
                    then k.A_MPDU_STATUS_LAST else 0))
      ∧ (txVector.aggregation = false →
          (GetRadiotapHeader k env packet channelFreqMhz txVector aMpdu).header.ampduStatus
              = none
            ∧ (GetRadiotapHeader k env packet channelFreqMhz txVector aMpdu).packet = packet
            ∧ (GetRadiotapHeader k env packet channelFreqMhz txVector aMpdu).localPacket
              = packet) := by
  constructor
  · intro hagg
    refine ⟨GetRadiotapHeader.ampduStatusFlags k aMpdu hdr, ?_, ?_, ?_,
      ampduStatusFlags_value k aMpdu hdr hnone hlk hl.2⟩
    · unfold GetRadiotapHeader
      simp only [hagg, if_true, hhdr]
    · rw [ampduStatusFlags_value k aMpdu hdr hnone hlk hl.2]
      exact flag_in_or_left _ (Nat.and_self _)
    · rw [ampduStatusFlags_value k aMpdu hdr hnone hlk hl.2]
      exact flag_set_iff _ _ _ hl.1 hd
  · intro hagg
    unfold GetRadiotapHeader
    simp only [hagg, Bool.false_eq_true, if_false, and_self]

/-- Worked instance of claim C20: a subframe of an aggregate whose delimiter has length 3
and the EOF flag set gets the flags 0x0c, last known and last, with reference
number 5. -/
theorem GetRadiotapHeader_ampdu_witness :
    (GetRadiotapHeader radiotapConstants exampleRadiotapEnv [3, 1, 0, 0, 9, 9, 9, 0] 5180
        ⟨WIFI_PREAMBLE_HT_MF, 40, ⟨0, WIFI_MOD_CLASS_HT, 7⟩, 400, 2, 1, true, true⟩
        ⟨MPDU_IN_AGGREGATE, 5⟩).header.ampduStatus = some (5, 0x0c, 1)
      ∧ (GetRadiotapHeader radiotapConstants exampleRadiotapEnv [1, 2, 3] 5180
        (exampleTxVector WIFI_PREAMBLE_VHT_SU 80 ⟨0, WIFI_MOD_CLASS_VHT, 7⟩ 2)
        ⟨NORMAL_MPDU, 0⟩).header.ampduStatus = none
      ∧ (GetRadiotapHeader radiotapConstants exampleRadiotapEnv [1, 2, 3] 5180
        (exampleTxVector WIFI_PREAMBLE_VHT_SU 80 ⟨0, WIFI_MOD_CLASS_VHT, 7⟩ 2)
        ⟨NORMAL_MPDU, 0⟩).packet = [1, 2, 3] := by
  have h := GetRadiotapHeader_ampdu radiotapConstants exampleRadiotapEnv
    [3, 1, 0, 0, 9, 9, 9, 0] 5180
    ⟨WIFI_PREAMBLE_HT_MF, 40, ⟨0, WIFI_MOD_CLASS_HT, 7⟩, 400, 2, 1, true, true⟩
    ⟨MPDU_IN_AGGREGATE, 5⟩ ⟨3, true⟩ rfl rfl (by decide) ⟨by decide, by decide⟩ (by decide)
  obtain ⟨flags, h1, _, _, h4⟩ := h.1 rfl
  exact ⟨h1.trans (by rw [h4]; rfl), rfl, rfl⟩

/-! ## Radiotap header: the VHT and HE blocks -/

/-- The VHT flags byte is the union of the two conditional flags, when both constants
fit in 8 bits. -/
theorem vhtFlags_value (k : RadiotapConstants) (txVector : WifiTxVector)
    (hnone : k.VHT_FLAGS_NONE = 0)
    (hstbc : k.VHT_FLAGS_STBC < 2 ^ 8) (hgi : k.VHT_FLAGS_GUARD_INTERVAL < 2 ^ 8) :
    (GetRadiotapHeader.vhtFields k txVector).flags =
      (if txVector.stbc = true then k.VHT_FLAGS_STBC else 0)
        ||| (if txVector.guardInterval = 400 then k.VHT_FLAGS_GUARD_INTERVAL else 0) := by
  have h0 : (0 : Nat) < 2 ^ 8 := by decide
  have b1 := Nat.or_lt_two_pow h0 (ite_lt_flag (txVector.stbc = true) _ _ hstbc)
  unfold GetRadiotapHeader.vhtFields
  simp only [hnone, Nat.zero_mod]
  rw [or_ite_mod_flag _ h0 hstbc, or_ite_mod_flag _ b1 hgi, Nat.zero_or]

/-- The VHT known word contains every mask of 16 bits that is put into it. -/
theorem vhtKnown_contains (k : RadiotapConstants) (txVector : WifiTxVector) :
    ∀ f, f < 2 ^ 16 →
      (f = k.VHT_KNOWN_STBC ∨ f = k.VHT_KNOWN_GUARD_INTERVAL ∨ f = k.VHT_KNOWN_BEAMFORMED
        ∨ f = k.VHT_KNOWN_BANDWIDTH) →
      (GetRadiotapHeader.vhtFields k txVector).known &&& f = f := by
  intro f hf hmem
  unfold GetRadiotapHeader.vhtFields
  simp only []
  rcases hmem with h | h | h | h <;> subst h <;>
    repeat (first
      | exact flag_step_add _ hf
      | apply flag_step_keep _ hf)

/-- Claim C21 fails as stated: a VHT transmission on a channel of 10 MHz, none of the
four widths with a bandwidth code of its own, is encoded without an error, with the
bandwidth code 0 of a 20 MHz channel. -/
theorem GetRadiotapHeader_vht_counterexample :
    (GetRadiotapHeader radiotapConstants exampleRadiotapEnv [1, 2, 3] 5180
        (exampleTxVector WIFI_PREAMBLE_VHT_SU 10 ⟨0, WIFI_MOD_CLASS_VHT, 7⟩ 2)
        ⟨NORMAL_MPDU, 0⟩).header.vhtFields
      = some ⟨0x0065, 0x00, 0, [0x72, 0, 0, 0], 0, 0, 0⟩
    ∧ (10 : Nat) ≠ 20 ∧ (10 : Nat) ≠ 40 ∧ (10 : Nat) ≠ 80 ∧ (10 : Nat) ≠ 160 :=
  ⟨rfl, by decide, by decide, by decide, by decide⟩

/-- Claim C21, as amended: for a VHT transmission the bandwidth code passed to
`SetVhtFields` is 0, 1, 4, 11 for the channel widths 20, 40, 80, 160 MHz and 0 for
every other width, for which the header is returned as well; the known word contains
the known bits for STBC, guard interval, beamformed and bandwidth; the flags byte
contains the STBC flag exactly when the tx vector is STBC and the short guard
interval flag exactly when the guard interval is 400.  The known constants are taken
to be 16-bit masks, the two flags disjoint 8-bit masks that are not empty, and
`VHT_FLAGS_NONE` to be 0. -/
theorem GetRadiotapHeader_vht (k : RadiotapConstants) (env : RadiotapEnv)
    (packet : Packet) (channelFreqMhz : Nat) (txVector : WifiTxVector) (aMpdu : MpduInfo)
    (hvht : txVector.mode.modulationClass = WIFI_MOD_CLASS_VHT)
    (hknown : ∀ f ∈ [k.VHT_KNOWN_STBC, k.VHT_KNOWN_GUARD_INTERVAL, k.VHT_KNOWN_BEAMFORMED,
        k.VHT_KNOWN_BANDWIDTH], f < 2 ^ 16)
    (hnone : k.VHT_FLAGS_NONE = 0)
    (hstbc : k.VHT_FLAGS_STBC ≠ 0 ∧ k.VHT_FLAGS_STBC < 2 ^ 8)
    (hgi : k.VHT_FLAGS_GUARD_INTERVAL ≠ 0 ∧ k.VHT_FLAGS_GUARD_INTERVAL < 2 ^ 8)
    (hd : k.VHT_FLAGS_STBC &&& k.VHT_FLAGS_GUARD_INTERVAL = 0) :
    ∃ v, (GetRadiotapHeader k env packet channelFreqMhz txVector aMpdu).header.vhtFields
        = some v
      ∧ (txVector.channelWidth = 20 → v.bandwidth = 0)
      ∧ (txVector.channelWidth = 40 → v.bandwidth = 1)
      ∧ (txVector.channelWidth = 80 → v.bandwidth = 4)
      ∧ (txVector.channelWidth = 160 → v.bandwidth = 11)
      ∧ (txVector.channelWidth ≠ 40 ∧ txVector.channelWidth ≠ 80
          ∧ txVector.channelWidth ≠ 160 → v.bandwidth = 0)
      ∧ (∀ f ∈ [k.VHT_KNOWN_STBC, k.VHT_KNOWN_GUARD_INTERVAL, k.VHT_KNOWN_BEAMFORMED,
          k.VHT_KNOWN_BANDWIDTH], v.known &&& f = f)
      ∧ (v.flags &&& k.VHT_FLAGS_STBC = k.VHT_FLAGS_STBC ↔ txVector.stbc = true)
      ∧ (v.flags &&& k.VHT_FLAGS_GUARD_INTERVAL = k.VHT_FLAGS_GUARD_INTERVAL
          ↔ txVector.guardInterval = 400) := by
  have hbw : (GetRadiotapHeader.vhtFields k txVector).bandwidth
      = if txVector.channelWidth = 40 then 1 else if txVector.channelWidth = 80 then 4
        else if txVector.channelWidth = 160 then 11 else 0 := by
    unfold GetRadiotapHeader.vhtFields
    rfl
  have hval := vhtFlags_value k txVector hnone hstbc.2 hgi.2
  refine ⟨GetRadiotapHeader.vhtFields k txVector, ?_, ?_, ?_, ?_, ?_, ?_, ?_, ?_, ?_⟩
  · unfold GetRadiotapHeader
    simp only [hvht, if_true]
  · intro h; rw [hbw, h]; rfl
  · intro h; rw [hbw, h]; rfl
  · intro h; rw [hbw, h]; rfl
  · intro h; rw [hbw, h]; rfl
  · intro h; rw [hbw, if_neg h.1, if_neg h.2.1, if_neg h.2.2]
  · intro f hf
    have hlt := hknown f hf
    simp only [List.mem_cons, List.mem_singleton, List.not_mem_nil, or_false] at hf
    exact vhtKnown_contains k txVector f hlt hf
  · rw [hval, Nat.or_comm]
    exact flag_set_iff _ _ _ hstbc.1
      (ite_and_flag _ _ _ (by rw [Nat.and_comm]; exact hd))
  · rw [hval]
    exact flag_set_iff _ _ _ hgi.1 (ite_and_flag _ _ _ hd)

/-- Worked instance of claim C21 as amended: with the radiotap values of the constants,
a VHT transmission on 80 MHz with the long guard interval and no STBC gets the
bandwidth code 4, the known word 0x0065 and the flags byte 0. -/
theorem GetRadiotapHeader_vht_witness :
    (GetRadiotapHeader radiotapConstants exampleRadiotapEnv [1, 2, 3] 5180
        (exampleTxVector WIFI_PREAMBLE_VHT_SU 80 ⟨0, WIFI_MOD_CLASS_VHT, 7⟩ 2)
        ⟨NORMAL_MPDU, 0⟩).header.vhtFields
      = some ⟨0x0065, 0x00, 4, [0x72, 0, 0, 0], 0, 0, 0⟩
    ∧ ∃ v, (GetRadiotapHeader radiotapConstants exampleRadiotapEnv [1, 2, 3] 5180
          (exampleTxVector WIFI_PREAMBLE_VHT_SU 80 ⟨0, WIFI_MOD_CLASS_VHT, 7⟩ 2)
          ⟨NORMAL_MPDU, 0⟩).header.vhtFields = some v
        ∧ v.bandwidth = 4 ∧ v.known &&& 0x0040 = 0x0040 ∧ ¬ (v.flags &&& 0x01 = 0x01) := by
  obtain ⟨v, h, _, _, h80, _, _, hk, hs, _⟩ :=
    GetRadiotapHeader_vht radiotapConstants exampleRadiotapEnv [1, 2, 3] 5180
      (exampleTxVector WIFI_PREAMBLE_VHT_SU 80 ⟨0, WIFI_MOD_CLASS_VHT, 7⟩ 2) ⟨NORMAL_MPDU, 0⟩
      rfl (by decide) rfl ⟨by decide, by decide⟩ ⟨by decide, by decide⟩ (by decide)
  exact ⟨rfl, v, h, h80 rfl, hk 0x0040 (by decide), fun hc => absurd (hs.mp hc) (by decide)⟩

/-- A word inside a field that is disjoint from `b` is disjoint from `b`. -/
theorem and_eq_zero_of_subset {g G b : Nat} (hg : G &&& g = g) (hGb : G &&& b = 0) :
    g &&& b = 0 := by
  apply Nat.eq_of_testBit_eq
  intro i
  have h1 := congrArg (fun x => x.testBit i) hg
  have h2 := congrArg (fun x => x.testBit i) hGb
  simp only [Nat.testBit_and, Nat.zero_testBit] at h1 h2 ⊢
  cases hgi : g.testBit i <;> cases hGi : G.testBit i <;> cases hbi : b.testBit i <;>
    simp_all

/-- A field of three codes contains each word that is one of the codes or empty. -/
theorem field3_contains (a b c x : Nat) (hx : x = a ∨ x = b ∨ x = c ∨ x = 0) :
    (a ||| b ||| c) &&& x = x := by
  rcases hx with h | h | h | h <;> subst h
  · exact flag_in_or_left _ (flag_in_or_left _ (Nat.and_self _))
  · exact flag_in_or_left _ (flag_in_or_right _ (Nat.and_self _))
  · exact flag_in_or_right _ (Nat.and_self _)
  · exact Nat.and_zero _

/-- Reading a field of a word that is a code of the field next to bits outside the
field gives the code. -/
theorem field_read (rest code field : Nat) (hrest : rest &&& field = 0)
    (hcode : field &&& code = code) : (rest ||| code) &&& field = code := by
  rw [or_and_distrib_flag, hrest, Nat.zero_or, Nat.and_comm, hcode]

/-- The first HE data word is the two known bits next to the format code, when the
constants fit in 16 bits. -/
theorem heData1_value (k : RadiotapConstants) (txVector : WifiTxVector)
    (hk : k.HE_DATA1_STBC_KNOWN ||| k.HE_DATA1_DATA_MCS_KNOWN < 2 ^ 16)
    (h1 : k.HE_DATA1_FORMAT_EXT_SU < 2 ^ 16) (h2 : k.HE_DATA1_FORMAT_MU < 2 ^ 16)
    (h3 : k.HE_DATA1_FORMAT_TRIG < 2 ^ 16) :
    (GetRadiotapHeader.heFields k txVector).1 =
      (k.HE_DATA1_STBC_KNOWN ||| k.HE_DATA1_DATA_MCS_KNOWN)
        ||| (if txVector.preambleType = WIFI_PREAMBLE_HE_ER_SU then k.HE_DATA1_FORMAT_EXT_SU
              else if txVector.preambleType = WIFI_PREAMBLE_HE_MU then k.HE_DATA1_FORMAT_MU
              else if txVector.preambleType = WIFI_PREAMBLE_HE_TB then k.HE_DATA1_FORMAT_TRIG
              else 0) := by
  unfold GetRadiotapHeader.heFields
  simp only [Nat.mod_eq_of_lt hk]
  split_ifs
  · exact or_mod_two_pow_flag hk h1
  · exact or_mod_two_pow_flag hk h2
  · exact or_mod_two_pow_flag hk h3
  · exact (Nat.or_zero _).symm

/-- The third HE data word is the conditional STBC bit, when the constant fits in 16
bits. -/
theorem heData3_value (k : RadiotapConstants) (txVector : WifiTxVector)
    (h : k.HE_DATA3_STBC < 2 ^ 16) :
    (GetRadiotapHeader.heFields k txVector).2.2.1 =
      0 ||| (if txVector.stbc = true then k.HE_DATA3_STBC else 0) := by
  unfold GetRadiotapHeader.heFields
  exact or_ite_mod_flag _ (by decide) h

/-- The fifth HE data word is the bandwidth code next to the guard interval code, when
the constants fit in 16 bits. -/
theorem heData5_value (k : RadiotapConstants) (txVector : WifiTxVector)
    (h40 : k.HE_DATA5_DATA_BW_RU_ALLOC_40MHZ < 2 ^ 16)
    (h80 : k.HE_DATA5_DATA_BW_RU_ALLOC_80MHZ < 2 ^ 16)
    (h160 : k.HE_DATA5_DATA_BW_RU_ALLOC_160MHZ < 2 ^ 16)
    (h16 : k.HE_DATA5_GI_1_6 < 2 ^ 16) (h32 : k.HE_DATA5_GI_3_2 < 2 ^ 16) :
    (GetRadiotapHeader.heFields k txVector).2.2.2 =
      (if txVector.guardInterval = 1600 then k.HE_DATA5_GI_1_6
        else if txVector.guardInterval = 3200 then k.HE_DATA5_GI_3_2 else 0)
      ||| (if txVector.channelWidth = 40 then k.HE_DATA5_DATA_BW_RU_ALLOC_40MHZ
        else if txVector.channelWidth = 80 then k.HE_DATA5_DATA_BW_RU_ALLOC_80MHZ
        else if txVector.channelWidth = 160 then k.HE_DATA5_DATA_BW_RU_ALLOC_160MHZ
        else 0) := by
  have hbw : (if txVector.channelWidth = 40 then (0 ||| k.HE_DATA5_DATA_BW_RU_ALLOC_40MHZ) % 2 ^ 16
      else if txVector.channelWidth = 80 then (0 ||| k.HE_DATA5_DATA_BW_RU_ALLOC_80MHZ) % 2 ^ 16
      else if txVector.channelWidth = 160 then
        (0 ||| k.HE_DATA5_DATA_BW_RU_ALLOC_160MHZ) % 2 ^ 16
      else 0)
      = (if txVector.channelWidth = 40 then k.HE_DATA5_DATA_BW_RU_ALLOC_40MHZ
        else if txVector.channelWidth = 80 then k.HE_DATA5_DATA_BW_RU_ALLOC_80MHZ
        else if txVector.channelWidth = 160 then k.HE_DATA5_DATA_BW_RU_ALLOC_160MHZ
        else 0) := by
    simp only [Nat.zero_or, Nat.mod_eq_of_lt h40, Nat.mod_eq_of_lt h80, Nat.mod_eq_of_lt h160]
  have hlt : (if txVector.channelWidth = 40 then k.HE_DATA5_DATA_BW_RU_ALLOC_40MHZ
        else if txVector.channelWidth = 80 then k.HE_DATA5_DATA_BW_RU_ALLOC_80MHZ
        else if txVector.channelWidth = 160 then k.HE_DATA5_DATA_BW_RU_ALLOC_160MHZ
        else 0) < 2 ^ 16 := by
    split_ifs
    · exact h40
    · exact h80
    · exact h160
    · exact Nat.two_pow_pos 16
  unfold GetRadiotapHeader.heFields
  simp only []
  rw [hbw]
  revert hlt
  generalize (if txVector.channelWidth = 40 then k.HE_DATA5_DATA_BW_RU_ALLOC_40MHZ
        else if txVector.channelWidth = 80 then k.HE_DATA5_DATA_BW_RU_ALLOC_80MHZ
        else if txVector.channelWidth = 160 then k.HE_DATA5_DATA_BW_RU_ALLOC_160MHZ
        else 0) = bw
  intro hlt
  split_ifs
  · rw [Nat.or_comm k.HE_DATA5_GI_1_6 bw]; exact or_mod_two_pow_flag hlt h16
  · rw [Nat.or_comm k.HE_DATA5_GI_3_2 bw]; exact or_mod_two_pow_flag hlt h32
  · exact (Nat.zero_or bw).symm

/-- Claim C22: for an HE transmission the words passed to `SetHeFields` hold, in the
format field of the first word, the code for extended-range SU, MU or trigger-based
exactly when the preamble is `WIFI_PREAMBLE_HE_ER_SU`, `WIFI_PREAMBLE_HE_MU` or
`WIFI_PREAMBLE_HE_TB` and nothing otherwise; in the third word the STBC bit exactly
when the tx vector is STBC; in the bandwidth field of the fifth word the code for 40,
80 or 160 MHz exactly when the channel width is 40, 80 or 160 and nothing otherwise;
in its guard interval field the code for 1.6 us or 3.2 us exactly when the guard
interval is 1600 or 3200 and nothing otherwise.  A field is the union of its codes,
so it holds one code at most.  The constants are taken to be 16-bit words, the codes of
one field not empty and different from each other, the format field disjoint from the
two known bits of the first word, and the two fields of the fifth word disjoint. -/
theorem GetRadiotapHeader_he (k : RadiotapConstants) (env : RadiotapEnv)
    (packet : Packet) (channelFreqMhz : Nat) (txVector : WifiTxVector) (aMpdu : MpduInfo)
    (format bandwidth gi : Nat)
    (hhe : txVector.mode.modulationClass = WIFI_MOD_CLASS_HE)
    (hformat : format
      = k.HE_DATA1_FORMAT_EXT_SU ||| k.HE_DATA1_FORMAT_MU ||| k.HE_DATA1_FORMAT_TRIG)
    (hbandwidth : bandwidth = k.HE_DATA5_DATA_BW_RU_ALLOC_40MHZ
      ||| k.HE_DATA5_DATA_BW_RU_ALLOC_80MHZ ||| k.HE_DATA5_DATA_BW_RU_ALLOC_160MHZ)
    (hgi : gi = k.HE_DATA5_GI_1_6 ||| k.HE_DATA5_GI_3_2)
    (hwords : ∀ f ∈ [k.HE_DATA1_STBC_KNOWN ||| k.HE_DATA1_DATA_MCS_KNOWN,
        k.HE_DATA1_FORMAT_EXT_SU, k.HE_DATA1_FORMAT_MU, k.HE_DATA1_FORMAT_TRIG,
        k.HE_DATA3_STBC, k.HE_DATA5_DATA_BW_RU_ALLOC_40MHZ, k.HE_DATA5_DATA_BW_RU_ALLOC_80MHZ,
        k.HE_DATA5_DATA_BW_RU_ALLOC_160MHZ, k.HE_DATA5_GI_1_6, k.HE_DATA5_GI_3_2],
      f < 2 ^ 16)
    (hformats : List.Pairwise (fun a b => a ≠ b)
      [0, k.HE_DATA1_FORMAT_EXT_SU, k.HE_DATA1_FORMAT_MU, k.HE_DATA1_FORMAT_TRIG])
    (hbandwidths : List.Pairwise (fun a b => a ≠ b)
      [0, k.HE_DATA5_DATA_BW_RU_ALLOC_40MHZ, k.HE_DATA5_DATA_BW_RU_ALLOC_80MHZ,
        k.HE_DATA5_DATA_BW_RU_ALLOC_160MHZ])
    (hgis : List.Pairwise (fun a b => a ≠ b) [0, k.HE_DATA5_GI_1_6, k.HE_DATA5_GI_3_2])
    (hstbc : k.HE_DATA3_STBC ≠ 0)
    (hd1 : (k.HE_DATA1_STBC_KNOWN ||| k.HE_DATA1_DATA_MCS_KNOWN) &&& format = 0)
    (hd5 : gi &&& bandwidth = 0) :
    ∃ data1 data2 data3 data5,
      (GetRadiotapHeader k env packet channelFreqMhz txVector aMpdu).header.heFields
        = some (data1, data2, data3, data5)
      ∧ data1 &&& format
          = (if txVector.preambleType = WIFI_PREAMBLE_HE_ER_SU then k.HE_DATA1_FORMAT_EXT_SU
              else if txVector.preambleType = WIFI_PREAMBLE_HE_MU then k.HE_DATA1_FORMAT_MU
              else if txVector.preambleType = WIFI_PREAMBLE_HE_TB then k.HE_DATA1_FORMAT_TRIG
              else 0)
      ∧ (data1 &&& format = k.HE_DATA1_FORMAT_EXT_SU
          ↔ txVector.preambleType = WIFI_PREAMBLE_HE_ER_SU)
      ∧ (data1 &&& format = k.HE_DATA1_FORMAT_MU
          ↔ txVector.preambleType = WIFI_PREAMBLE_HE_MU)
      ∧ (data1 &&& format = k.HE_DATA1_FORMAT_TRIG
          ↔ txVector.preambleType = WIFI_PREAMBLE_HE_TB)
      ∧ (data3 &&& k.HE_DATA3_STBC = k.HE_DATA3_STBC ↔ txVector.stbc = true)
      ∧ data5 &&& bandwidth
          = (if txVector.channelWidth = 40 then k.HE_DATA5_DATA_BW_RU_ALLOC_40MHZ
              else if txVector.channelWidth = 80 then k.HE_DATA5_DATA_BW_RU_ALLOC_80MHZ
              else if txVector.channelWidth = 160 then k.HE_DATA5_DATA_BW_RU_ALLOC_160MHZ
              else 0)
      ∧ (data5 &&& bandwidth = k.HE_DATA5_DATA_BW_RU_ALLOC_40MHZ
          ↔ txVector.channelWidth = 40)
      ∧ (data5 &&& bandwidth = k.HE_DATA5_DATA_BW_RU_ALLOC_80MHZ
          ↔ txVector.channelWidth = 80)
      ∧ (data5 &&& bandwidth = k.HE_DATA5_DATA_BW_RU_ALLOC_160MHZ
          ↔ txVector.channelWidth = 160)
      ∧ data5 &&& gi
          = (if txVector.guardInterval = 1600 then k.HE_DATA5_GI_1_6
              else if txVector.guardInterval = 3200 then k.HE_DATA5_GI_3_2 else 0)
      ∧ (data5 &&& gi = k.HE_DATA5_GI_1_6 ↔ txVector.guardInterval = 1600)
      ∧ (data5 &&& gi = k.HE_DATA5_GI_3_2 ↔ txVector.guardInterval = 3200) := by
  simp only [List.mem_cons, List.mem_singleton, List.not_mem_nil, or_false, forall_eq_or_imp,
    forall_eq] at hwords
  simp only [List.pairwise_cons, List.mem_cons, List.mem_singleton, List.not_mem_nil, or_false,
    forall_eq_or_imp, forall_eq, List.Pairwise.nil, and_true, IsEmpty.forall_iff,
    implies_true] at hformats hbandwidths hgis
  obtain ⟨hk, h1, h2, h3, hs, h40, h80, h160, h16, h32⟩ := hwords
  obtain ⟨⟨f01, f02, f03⟩, ⟨f12, f13⟩, f23⟩ := hformats
  obtain ⟨⟨b01, b02, b03⟩, ⟨b12, b13⟩, b23⟩ := hbandwidths
  obtain ⟨⟨g01, g02⟩, g12⟩ := hgis
  have hv1 := heData1_value k txVector hk h1 h2 h3
  have hv3 := heData3_value k txVector hs
  have hv5 := heData5_value k txVector h40 h80 h160 h16 h32
  have hfmt : (GetRadiotapHeader.heFields k txVector).1 &&& format
      = (if txVector.preambleType = WIFI_PREAMBLE_HE_ER_SU then k.HE_DATA1_FORMAT_EXT_SU
          else if txVector.preambleType = WIFI_PREAMBLE_HE_MU then k.HE_DATA1_FORMAT_MU
          else if txVector.preambleType = WIFI_PREAMBLE_HE_TB then k.HE_DATA1_FORMAT_TRIG
          else 0) := by
    rw [hv1]
    apply field_read _ _ _ hd1
    rw [hformat]
    apply field3_contains
    split_ifs <;> simp
  have hgibw : (if txVector.guardInterval = 1600 then k.HE_DATA5_GI_1_6
        else if txVector.guardInterval = 3200 then k.HE_DATA5_GI_3_2 else 0) &&& bandwidth
      = 0 := by
    refine and_eq_zero_of_subset ?_ hd5
    rw [hgi, ← Nat.zero_or (k.HE_DATA5_GI_1_6 ||| k.HE_DATA5_GI_3_2), ← Nat.or_assoc]
    apply field3_contains
    split_ifs <;> simp
  have hbwgi : (if txVector.channelWidth = 40 then k.HE_DATA5_DATA_BW_RU_ALLOC_40MHZ
        else if txVector.channelWidth = 80 then k.HE_DATA5_DATA_BW_RU_ALLOC_80MHZ
        else if txVector.channelWidth = 160 then k.HE_DATA5_DATA_BW_RU_ALLOC_160MHZ
        else 0) &&& gi = 0 := by
    refine and_eq_zero_of_subset ?_ (by rw [Nat.and_comm]; exact hd5)
    rw [hbandwidth]
    apply field3_contains
    split_ifs <;> simp
  have hbw : (GetRadiotapHeader.heFields k txVector).2.2.2 &&& bandwidth
      = (if txVector.channelWidth = 40 then k.HE_DATA5_DATA_BW_RU_ALLOC_40MHZ
          else if txVector.channelWidth = 80 then k.HE_DATA5_DATA_BW_RU_ALLOC_80MHZ
          else if txVector.channelWidth = 160 then k.HE_DATA5_DATA_BW_RU_ALLOC_160MHZ
          else 0) := by
    rw [hv5]
    apply field_read _ _ _ hgibw
    rw [hbandwidth]
    apply field3_contains
    split_ifs <;> simp
  have hgiv : (GetRadiotapHeader.heFields k txVector).2.2.2 &&& gi
      = (if txVector.guardInterval = 1600 then k.HE_DATA5_GI_1_6
          else if txVector.guardInterval = 3200 then k.HE_DATA5_GI_3_2 else 0) := by
    rw [hv5, Nat.or_comm]
    apply field_read _ _ _ hbwgi
    rw [hgi, ← Nat.zero_or (k.HE_DATA5_GI_1_6 ||| k.HE_DATA5_GI_3_2), ← Nat.or_assoc]
    apply field3_contains
    split_ifs <;> simp
  refine ⟨(GetRadiotapHeader.heFields k txVector).1, (GetRadiotapHeader.heFields k txVector).2.1,
    (GetRadiotapHeader.heFields k txVector).2.2.1, (GetRadiotapHeader.heFields k txVector).2.2.2,
    ?_, hfmt, ?_, ?_, ?_, ?_, hbw, ?_, ?_, ?_, hgiv, ?_, ?_⟩
  · unfold GetRadiotapHeader
    simp only [hhe, if_true]
  · rw [hfmt]
    split_ifs with c1 c2 c3
    · exact ⟨fun _ => c1, fun _ => rfl⟩
    · exact ⟨fun h => absurd h.symm f12, fun h => absurd h c1⟩
    · exact ⟨fun h => absurd h.symm f13, fun h => absurd h c1⟩
    · exact ⟨fun h => absurd h f01, fun h => absurd h c1⟩
  · rw [hfmt]
    split_ifs with c1 c2 c3
    · exact ⟨fun h => absurd h f12, fun h => by rw [c1] at h; cases h⟩
    · exact ⟨fun _ => c2, fun _ => rfl⟩
    · exact ⟨fun h => absurd h.symm f23, fun h => absurd h c2⟩
    · exact ⟨fun h => absurd h f02, fun h => absurd h c2⟩
  · rw [hfmt]
    split_ifs with c1 c2 c3
    · exact ⟨fun h => absurd h f13, fun h => by rw [c1] at h; cases h⟩
    · exact ⟨fun h => absurd h f23, fun h => by rw [c2] at h; cases h⟩
    · exact ⟨fun _ => c3, fun _ => rfl⟩
    · exact ⟨fun h => absurd h f03, fun h => absurd h c3⟩
  · rw [hv3]
    exact flag_set_iff _ _ _ hstbc (Nat.zero_and _)
  · rw [hbw]
    split_ifs with c1 c2 c3
    · exact ⟨fun _ => c1, fun _ => rfl⟩
    · exact ⟨fun h => absurd h.symm b12, fun h => absurd h c1⟩
    · exact ⟨fun h => absurd h.symm b13, fun h => absurd h c1⟩
    · exact ⟨fun h => absurd h b01, fun h => absurd h c1⟩
  · rw [hbw]
    split_ifs with c1 c2 c3
    · exact ⟨fun h => absurd h b12, fun h => by omega⟩
    · exact ⟨fun _ => c2, fun _ => rfl⟩
    · exact ⟨fun h => absurd h.symm b23, fun h => absurd h c2⟩
    · exact ⟨fun h => absurd h b02, fun h => absurd h c2⟩
  · rw [hbw]
    split_ifs with c1 c2 c3
    · exact ⟨fun h => absurd h b13, fun h => by omega⟩
    · exact ⟨fun h => absurd h b23, fun h => by omega⟩
    · exact ⟨fun _ => c3, fun _ => rfl⟩
    · exact ⟨fun h => absurd h b03, fun h => absurd h c3⟩
  · rw [hgiv]
    split_ifs with c1 c2
    · exact ⟨fun _ => c1, fun _ => rfl⟩
    · exact ⟨fun h => absurd h.symm g12, fun h => absurd h c1⟩
    · exact ⟨fun h => absurd h g01, fun h => absurd h c1⟩
  · rw [hgiv]
    split_ifs with c1 c2
    · exact ⟨fun h => absurd h g12, fun h => by omega⟩
    · exact ⟨fun _ => c2, fun _ => rfl⟩
    · exact ⟨fun h => absurd h g02, fun h => absurd h c2⟩

/-- Worked instance of claim C22: with the radiotap values of the constants, an HE TB
transmission on 80 MHz with a guard interval of 1600 ns and STBC gives the format
code 3, the STBC bit, the bandwidth code 2 and the guard interval code 0x10. -/
theorem GetRadiotapHeader_he_witness :
    (GetRadiotapHeader radiotapConstants exampleRadiotapEnv [1, 2, 3] 5180
        ⟨WIFI_PREAMBLE_HE_TB, 80, ⟨0, WIFI_MOD_CLASS_HE, 7⟩, 1600, 2, 0, true, false⟩
        ⟨NORMAL_MPDU, 0⟩).header.heFields = some (0x0223, 0x0006, 0x8000, 0x0012)
    ∧ ∃ data1 data2 data3 data5,
        (GetRadiotapHeader radiotapConstants exampleRadiotapEnv [1, 2, 3] 5180
          ⟨WIFI_PREAMBLE_HE_TB, 80, ⟨0, WIFI_MOD_CLASS_HE, 7⟩, 1600, 2, 0, true, false⟩
          ⟨NORMAL_MPDU, 0⟩).header.heFields = some (data1, data2, data3, data5)
        ∧ data1 &&& 0x0003 = 0x0003 ∧ data3 &&& 0x8000 = 0x8000
        ∧ data5 &&& 0x0003 = 0x0002 ∧ data5 &&& 0x0030 = 0x0010 := by
  obtain ⟨data1, data2, data3, data5, h, hf, _, _, _, hs, hb, _, _, _, hg, _, _⟩ :=
    GetRadiotapHeader_he radiotapConstants exampleRadiotapEnv [1, 2, 3] 5180
      ⟨WIFI_PREAMBLE_HE_TB, 80, ⟨0, WIFI_MOD_CLASS_HE, 7⟩, 1600, 2, 0, true, false⟩
      ⟨NORMAL_MPDU, 0⟩ 0x0003 0x0003 0x0030 rfl rfl rfl rfl (by decide) (by decide) (by decide)
      (by decide) (by decide) (by decide) (by decide)
  exact ⟨rfl, data1, data2, data3, data5, h, hf, hs.mpr rfl, hb, hg⟩

/-! ## Transmit path: power spectral density and the two parts of an HE TB PPDU -/

/-- Claim C23: for a PPDU of modulation class OFDM or ERP-OFDM,
`GetTxPowerSpectralDensity` returns the mask of `CreateHtOfdmTxPowerSpectralDensity`
exactly when the channel width of the tx vector is 40 or more, and then its result is
the result for every HT or VHT PPDU of the same channel width (on the same PHY, with
the same power); for a width below 40 it returns the mask of
`CreateOfdmTxPowerSpectralDensity`; and for every PPDU whose modulation class is not
HE the result is the same for both values of `isOfdma`. -/
theorem GetTxPowerSpectralDensity_ofdm {W D : Type} (env : TxEnv W D) (txPowerW : W)
    (ppdu : WifiPpdu) (isOfdma : Bool)
    (hmod : env.GetModulation ppdu = WIFI_MOD_CLASS_OFDM
      ∨ env.GetModulation ppdu = WIFI_MOD_CLASS_ERP_OFDM) :
    (GetTxPowerSpectralDensity env txPowerW ppdu isOfdma
        = .ok (.CreateHtOfdmTxPowerSpectralDensity
            (env.GetCenterFrequencyForChannelWidth ppdu.txVector.channelWidth)
            ppdu.txVector.channelWidth txPowerW (GetGuardBandwidth ppdu.txVector.channelWidth)
            env.m_txMaskInnerBandMinimumRejection env.m_txMaskOuterBandMinimumRejection
            env.m_txMaskOuterBandMaximumRejection)
        ↔ 40 ≤ ppdu.txVector.channelWidth)
      ∧ (40 ≤ ppdu.txVector.channelWidth →
          ∀ (other : WifiPpdu) (otherIsOfdma : Bool),
            (env.GetModulation other = WIFI_MOD_CLASS_HT
              ∨ env.GetModulation other = WIFI_MOD_CLASS_VHT) →
            other.txVector.channelWidth = ppdu.txVector.channelWidth →
            GetTxPowerSpectralDensity env txPowerW ppdu isOfdma
              = GetTxPowerSpectralDensity env txPowerW other otherIsOfdma)
      ∧ (ppdu.txVector.channelWidth < 40 →
          GetTxPowerSpectralDensity env txPowerW ppdu isOfdma
            = .ok (.CreateOfdmTxPowerSpectralDensity
                (env.GetCenterFrequencyForChannelWidth ppdu.txVector.channelWidth)
                ppdu.txVector.channelWidth txPowerW
                (GetGuardBandwidth ppdu.txVector.channelWidth)
                env.m_txMaskInnerBandMinimumRejection env.m_txMaskOuterBandMinimumRejection
                env.m_txMaskOuterBandMaximumRejection))
      ∧ ∀ (any : WifiPpdu), env.GetModulation any ≠ WIFI_MOD_CLASS_HE →
          GetTxPowerSpectralDensity env txPowerW any true
            = GetTxPowerSpectralDensity env txPowerW any false := by
  refine ⟨?_, ?_, ?_, ?_⟩
  · unfold GetTxPowerSpectralDensity
    by_cases hcw : 40 ≤ ppdu.txVector.channelWidth
    · rcases hmod with h | h <;> simp [h, hcw]
    · rcases hmod with h | h <;> simp [h, hcw]
  · intro hcw other otherIsOfdma hother hsame
    unfold GetTxPowerSpectralDensity
    rcases hmod with h | h <;> rcases hother with h' | h' <;> simp [h, h', hcw, hsame]
  · intro hcw
    unfold GetTxPowerSpectralDensity
    rcases hmod with h | h <;> simp [h, Nat.not_le.mpr hcw]
  · intro any hany
    unfold GetTxPowerSpectralDensity
    cases h : env.GetModulation any <;> simp_all

/-- Worked instance of claim C23: an OFDM PPDU on 40 MHz gets the mask of an HT PPDU on
40 MHz. -/
theorem GetTxPowerSpectralDensity_ofdm_witness :
    GetTxPowerSpectralDensity exampleTxEnv (16 : Int)
        ⟨exampleTxVector WIFI_PREAMBLE_LONG 40 ⟨0, WIFI_MOD_CLASS_OFDM, 0⟩ 1, 1, 100⟩ false
      = .ok (.CreateHtOfdmTxPowerSpectralDensity 5180 40 16 40 (-20) (-28) (-40))
    ∧ GetTxPowerSpectralDensity exampleTxEnv (16 : Int)
        ⟨exampleTxVector WIFI_PREAMBLE_LONG 40 ⟨0, WIFI_MOD_CLASS_OFDM, 0⟩ 1, 1, 100⟩ false
      = GetTxPowerSpectralDensity exampleTxEnv (16 : Int)
        ⟨exampleTxVector WIFI_PREAMBLE_HT_MF 40 ⟨0, WIFI_MOD_CLASS_HT, 7⟩ 1, 2, 100⟩ true :=
  ⟨rfl,
    (GetTxPowerSpectralDensity_ofdm exampleTxEnv (16 : Int)
      ⟨exampleTxVector WIFI_PREAMBLE_LONG 40 ⟨0, WIFI_MOD_CLASS_OFDM, 0⟩ 1, 1, 100⟩ false
      (Or.inl rfl)).2.1 (by decide)
      ⟨exampleTxVector WIFI_PREAMBLE_HT_MF 40 ⟨0, WIFI_MOD_CLASS_HT, 7⟩ 1, 2, 100⟩ true
      (Or.inl rfl) rfl⟩

/-- Claim C24: `GetTxPowerSpectralDensity` ends in a fatal error exactly when the
modulation class of the PPDU is none of OFDM, ERP-OFDM, DSSS, HR-DSSS, HT, VHT and HE,
or it is DSSS or HR-DSSS and the channel width is not 22; on every other input it
returns a mask. -/
theorem GetTxPowerSpectralDensity_fatal {W D : Type} (env : TxEnv W D) (txPowerW : W)
    (ppdu : WifiPpdu) (isOfdma : Bool) :
    ((∃ e, GetTxPowerSpectralDensity env txPowerW ppdu isOfdma = .error e)
        ↔ (env.GetModulation ppdu ≠ WIFI_MOD_CLASS_OFDM
            ∧ env.GetModulation ppdu ≠ WIFI_MOD_CLASS_ERP_OFDM
            ∧ env.GetModulation ppdu ≠ WIFI_MOD_CLASS_DSSS
            ∧ env.GetModulation ppdu ≠ WIFI_MOD_CLASS_HR_DSSS
            ∧ env.GetModulation ppdu ≠ WIFI_MOD_CLASS_HT
            ∧ env.GetModulation ppdu ≠ WIFI_MOD_CLASS_VHT
            ∧ env.GetModulation ppdu ≠ WIFI_MOD_CLASS_HE)
          ∨ ((env.GetModulation ppdu = WIFI_MOD_CLASS_DSSS
              ∨ env.GetModulation ppdu = WIFI_MOD_CLASS_HR_DSSS)
            ∧ ppdu.txVector.channelWidth ≠ 22))
      ∧ ((∃ v, GetTxPowerSpectralDensity env txPowerW ppdu isOfdma = .ok v)
        ↔ ¬ ((env.GetModulation ppdu ≠ WIFI_MOD_CLASS_OFDM
            ∧ env.GetModulation ppdu ≠ WIFI_MOD_CLASS_ERP_OFDM
            ∧ env.GetModulation ppdu ≠ WIFI_MOD_CLASS_DSSS
            ∧ env.GetModulation ppdu ≠ WIFI_MOD_CLASS_HR_DSSS
            ∧ env.GetModulation ppdu ≠ WIFI_MOD_CLASS_HT
            ∧ env.GetModulation ppdu ≠ WIFI_MOD_CLASS_VHT
            ∧ env.GetModulation ppdu ≠ WIFI_MOD_CLASS_HE)
          ∨ ((env.GetModulation ppdu = WIFI_MOD_CLASS_DSSS
              ∨ env.GetModulation ppdu = WIFI_MOD_CLASS_HR_DSSS)
            ∧ ppdu.txVector.channelWidth ≠ 22))) := by
  unfold GetTxPowerSpectralDensity
  cases h : env.GetModulation ppdu <;>
    by_cases hcw : ppdu.txVector.channelWidth = 22 <;>
    by_cases h40 : 40 ≤ ppdu.txVector.channelWidth <;>
    cases isOfdma <;> simp [hcw, h40]

/-- The branch `StartRx` takes for a signal of an HE TB PPDU that is at or above the
sensitivity, with reception enabled and no open reception of the same PPDU, is the one
`StartRx.isOfdma` selects: the signal is added as interference when the test holds and
passed to `StartReceivePreamble` when it does not. -/
theorem StartRx_heTb_by_isOfdma {W D : Type} (env : RxEnv W D) (phy : SpectrumWifiPhy)
    (rxParams : SpectrumSignalParameters W) (channelBands ruBands : List WifiSpectrumBand)
    (ppdu : WifiPpdu)
    (hch : StartRx.channelBands phy = .ok (some channelBands))
    (hru : StartRx.ruBands env phy = .ok ruBands)
    (hstrong : env.ltD (env.WToDbm (StartRx.totalRxPowerW env rxParams channelBands))
      env.GetRxSensitivity = false)
    (hppdu : rxParams.ppdu = some ppdu) (henabled : phy.m_disableWifiReception = false)
    (htb : ppdu.txVector.preambleType = WIFI_PREAMBLE_HE_TB)
    (hnomatch : phy.m_currentHeTbPpduUid ≠ ppdu.uid ∨ phy.m_currentEvent = none) :
    (StartRx.isOfdma env rxParams.duration ppdu = true →
        StartRx env phy rxParams = .ok (.returned
          ⟨phy.standard, phy.channelWidth, phy.rxNumBands, phy.m_disableWifiReception,
            phy.m_currentHeTbPpduUid, phy.m_currentEvent,
            preambleEventsErase phy.m_currentPreambleEvents ppdu.uid⟩
          ([.m_signalCb true (rxParams.txNodeId.getD 0)
              (env.WToDbm (StartRx.totalRxPowerW env rxParams channelBands)) rxParams.duration,
            .InterferenceAdd ppdu ppdu.txVector rxParams.duration
              (StartRx.rxPowerW rxParams channelBands ruBands)]
            ++ (if preambleEventsErase phy.m_currentPreambleEvents ppdu.uid = []
                then [PhyCall.Reset] else []))))
      ∧ (StartRx.isOfdma env rxParams.duration ppdu = false →
        StartRx env phy rxParams = .ok (.returned phy
          [.m_signalCb true (rxParams.txNodeId.getD 0)
              (env.WToDbm (StartRx.totalRxPowerW env rxParams channelBands)) rxParams.duration,
            .StartReceivePreamble ppdu (StartRx.rxPowerW rxParams channelBands ruBands)])) := by
  have hcond : ¬ (phy.m_currentHeTbPpduUid = ppdu.uid ∧ phy.m_currentEvent ≠ none) := by
    rintro ⟨h1, h2⟩
    rcases hnomatch with h | h
    · exact h h1
    · exact h2 h
  constructor
  · intro his
    unfold StartRx.isOfdma at his
    unfold StartRx
    rw [hch, hru]
    simp only [hstrong, hppdu, henabled, htb, hcond, his]
    cases hE : preambleEventsErase phy.m_currentPreambleEvents ppdu.uid with
    | nil => simp
    | cons a l => simp
  · intro his
    unfold StartRx.isOfdma at his
    unfold StartRx
    rw [hch, hru]
    simp only [hstrong, hppdu, henabled, htb, hcond, his]
    simp

/-- Claim C25 fails as stated: for an HE TB PPDU of 80 ticks whose preamble and header
take 40 ticks, `StartTx` emits a non-OFDMA part of 40 ticks, which is also the duration
of the payload; the payload-only test of the receiver holds for it, and `StartRx`
adds the part as interference instead of starting the reception of a preamble. -/
theorem StartTx_heTb_counterexample :
    StartTx exampleTxEnv
        ⟨⟨WIFI_PREAMBLE_HE_TB, 20, ⟨0, WIFI_MOD_CLASS_HE, 0⟩, 800, 1, 0, false, false⟩, 7, 80⟩ 0
      = .ok [.Transmit ⟨40, .CreateHeOfdmTxPowerSpectralDensity 5180 20 16 20 (-20) (-28) (-40),
            ⟨⟨WIFI_PREAMBLE_HE_TB, 20, ⟨0, WIFI_MOD_CLASS_HE, 0⟩, 800, 1, 0, false, false⟩, 7, 80⟩⟩,
          .ScheduleStartOfdmaTx 40
            ⟨⟨WIFI_PREAMBLE_HE_TB, 20, ⟨0, WIFI_MOD_CLASS_HE, 0⟩, 800, 1, 0, false, false⟩, 7, 80⟩
            16]
    ∧ (0 : Time) < 40 ∧ (40 : Time) < 80
    ∧ StartRx.isOfdma exampleEnv 40
        ⟨⟨WIFI_PREAMBLE_HE_TB, 20, ⟨0, WIFI_MOD_CLASS_HE, 0⟩, 800, 1, 0, false, false⟩, 7, 80⟩
      = true
    ∧ StartRx exampleEnv ⟨WIFI_PHY_STANDARD_80211a, 20, 193, false, 0, none, []⟩
        (exampleSignal 40 20 (some
          ⟨⟨WIFI_PREAMBLE_HE_TB, 20, ⟨0, WIFI_MOD_CLASS_HE, 0⟩, 800, 1, 0, false, false⟩, 7, 80⟩))
      = .ok (.returned ⟨WIFI_PHY_STANDARD_80211a, 20, 193, false, 0, none, []⟩
          [.m_signalCb true 0 20 40,
            .InterferenceAdd
              ⟨⟨WIFI_PREAMBLE_HE_TB, 20, ⟨0, WIFI_MOD_CLASS_HE, 0⟩, 800, 1, 0, false, false⟩, 7, 80⟩
              ⟨WIFI_PREAMBLE_HE_TB, 20, ⟨0, WIFI_MOD_CLASS_HE, 0⟩, 800, 1, 0, false, false⟩ 40
              [(⟨64, 127⟩, 20)],
            .Reset]) :=
  ⟨rfl, by decide, by decide, rfl, rfl⟩

/-- Claim C25, as amended: for an HE TB PPDU of duration `D` whose preamble and header
take `P`, `StartTx` emits a signal of duration `P` and schedules `StartOfdmaTx` after
the delay `P`, which emits a signal of duration `D - P`; the payload-only test of
`StartRx` holds for the second signal, and it fails for the first one exactly when `D`
is not `2 * P`.  This holds for all `P` and `D`, in particular for `0 < P < D`.  The
receiver is taken to compute the same duration `P` for the preamble and header. -/
theorem StartTx_heTb {W D : Type} (env : TxEnv W D) (rxEnv : RxEnv W D) (ppdu : WifiPpdu)
    (txPowerLevel : Nat) (P Dur : Time) (txPowerWatts : W)
    (htb : ppdu.txVector.preambleType = WIFI_PREAMBLE_HE_TB)
    (hmod : env.GetModulation ppdu = WIFI_MOD_CLASS_HE)
    (hul : env.IsUlMu ppdu = true)
    (hset : env.m_wifiSpectrumPhyInterface = true)
    (hP : P = env.CalculatePlcpPreambleAndHeaderDuration ppdu.txVector)
    (hrx : rxEnv.CalculatePlcpPreambleAndHeaderDuration ppdu.txVector = P)
    (hD : Dur = ppdu.txDuration)
    (hw : txPowerWatts = env.DbmToW
      (env.addD (env.GetTxPowerForTransmission ppdu.txVector txPowerLevel) env.GetTxGain)) :
    StartTx env ppdu txPowerLevel
        = .ok [.Transmit ⟨P, .CreateHeOfdmTxPowerSpectralDensity
              (env.GetCenterFrequencyForChannelWidth ppdu.txVector.channelWidth)
              ppdu.txVector.channelWidth txPowerWatts
              (GetGuardBandwidth ppdu.txVector.channelWidth)
              env.m_txMaskInnerBandMinimumRejection env.m_txMaskOuterBandMinimumRejection
              env.m_txMaskOuterBandMaximumRejection, ppdu⟩,
            .ScheduleStartOfdmaTx P ppdu txPowerWatts]
      ∧ StartOfdmaTx env ppdu txPowerWatts
        = .ok [.Transmit ⟨Dur - P, .CreateHeMuOfdmTxPowerSpectralDensity
              (env.GetCenterFrequencyForChannelWidth ppdu.txVector.channelWidth)
              ppdu.txVector.channelWidth txPowerWatts
              (GetGuardBandwidth ppdu.txVector.channelWidth)
              (env.GetRuBand ppdu.txVector (env.GetStaId ppdu)), ppdu⟩]
      ∧ StartRx.isOfdma rxEnv (Dur - P) ppdu = true
      ∧ (StartRx.isOfdma rxEnv P ppdu = false ↔ Dur ≠ 2 * P) := by
  refine ⟨?_, ?_, ?_, ?_⟩
  · unfold StartTx GetTxPowerSpectralDensity
    simp [hset, htb, hmod, ← hP, ← hw]
  · unfold StartOfdmaTx GetTxPowerSpectralDensity
    simp [hul, hmod, ← hP, ← hD]
  · unfold StartRx.isOfdma
    simp [hrx, ← hD]
  · unfold StartRx.isOfdma
    rw [hrx, ← hD]
    simp only [decide_eq_false_iff_not, ne_eq]
    constructor
    · intro h h2
      apply h
      rw [h2]
      exact (by ring : (2 * P - P : Int) = P).symm
    · intro h h2
      apply h
      have h3 : (P : Int) = Dur - P := h2
      have h4 : (Dur : Int) = 2 * P := by linarith
      exact h4

/-- Worked instance of claim C25 as amended: the HE TB PPDU of 100 ticks with a preamble
and header of 40 ticks is sent as a part of 40 ticks and, 40 ticks later, a part of 60
ticks. -/
theorem StartTx_heTb_witness :
    StartTx exampleTxEnv exampleHeTbPpdu 0
        = .ok [.Transmit ⟨40, .CreateHeOfdmTxPowerSpectralDensity 5180 20 16 20 (-20) (-28)
              (-40), exampleHeTbPpdu⟩,
            .ScheduleStartOfdmaTx 40 exampleHeTbPpdu 16]
      ∧ StartOfdmaTx exampleTxEnv exampleHeTbPpdu 16
        = .ok [.Transmit ⟨100 - 40, .CreateHeMuOfdmTxPowerSpectralDensity 5180 20 16 20
              ⟨262, 506⟩, exampleHeTbPpdu⟩]
      ∧ StartRx.isOfdma exampleEnv (100 - 40) exampleHeTbPpdu = true
      ∧ (StartRx.isOfdma exampleEnv 40 exampleHeTbPpdu = false ↔ (100 : Time) ≠ 2 * 40) :=
  StartTx_heTb exampleTxEnv exampleEnv exampleHeTbPpdu 0 40 100 16 rfl rfl rfl rfl rfl rfl rfl rfl

/-! ## Capture of aggregated frames -/

/-- Behaviour examined for claim C26: for an aggregated frame and the radiotap link type,
`PcapSniffTxEvent` and `PcapSniffRxEvent` write, after the radiotap header, all the
bytes that follow the subframe header removed from the packet; the fragment of the
length given in the subframe header is assigned to the parameter `packet` of
`GetRadiotapHeader` only, which is passed by value, and is not what is written. -/
theorem PcapSniff_aggregated (D : Type) (k : RadiotapConstants) (env : RadiotapEnv)
    (packet : Packet) (channelFreqMhz : Nat) (txVector : WifiTxVector) (aMpdu : MpduInfo)
    (signalNoise : SignalNoiseDbm D) (hagg : txVector.aggregation = true) :
    PcapSniffTxEvent D k env DLT_IEEE802_11_RADIO packet channelFreqMhz txVector aMpdu
        = .ok ⟨env.nowMicroSeconds,
            some (GetRadiotapHeader k env packet channelFreqMhz txVector aMpdu).header,
            none, none, (env.RemoveHeader packet).2⟩
      ∧ PcapSniffRxEvent D k env DLT_IEEE802_11_RADIO packet channelFreqMhz txVector aMpdu
          signalNoise
        = .ok ⟨env.nowMicroSeconds,
            some (GetRadiotapHeader k env packet channelFreqMhz txVector aMpdu).header,
            some signalNoise.signal, some signalNoise.noise, (env.RemoveHeader packet).2⟩
      ∧ (GetRadiotapHeader k env packet channelFreqMhz txVector aMpdu).localPacket
        = env.CreateFragment (env.RemoveHeader packet).2 0 (env.RemoveHeader packet).1.length := by
  refine ⟨?_, ?_, ?_⟩
  · unfold PcapSniffTxEvent GetRadiotapHeader
    simp only [hagg, if_true]
  · unfold PcapSniffRxEvent GetRadiotapHeader
    simp only [hagg, if_true]
  · unfold GetRadiotapHeader
    simp only [hagg, if_true]

/-- Worked instance for claim C26: a subframe made of a delimiter of four bytes with
length field 3, the MPDU 9, 9, 9 and one byte of padding is written as 9, 9, 9, 0,
padding included, where the MPDU alone is 9, 9, 9. -/
theorem PcapSniff_aggregated_witness :
    (∃ header, PcapSniffTxEvent Int radiotapConstants exampleRadiotapEnv DLT_IEEE802_11_RADIO
          [3, 1, 0, 0, 9, 9, 9, 0] 5180
          ⟨WIFI_PREAMBLE_HT_MF, 40, ⟨0, WIFI_MOD_CLASS_HT, 7⟩, 400, 2, 1, true, true⟩
          ⟨MPDU_IN_AGGREGATE, 5⟩
        = .ok ⟨0, some header, none, none, [9, 9, 9, 0]⟩)
      ∧ (∃ header, PcapSniffRxEvent Int radiotapConstants exampleRadiotapEnv
          DLT_IEEE802_11_RADIO [3, 1, 0, 0, 9, 9, 9, 0] 5180
          ⟨WIFI_PREAMBLE_HT_MF, 40, ⟨0, WIFI_MOD_CLASS_HT, 7⟩, 400, 2, 1, true, true⟩
          ⟨MPDU_IN_AGGREGATE, 5⟩ ⟨-60, -90⟩
        = .ok ⟨0, some header, some (-60), some (-90), [9, 9, 9, 0]⟩)
      ∧ (GetRadiotapHeader radiotapConstants exampleRadiotapEnv [3, 1, 0, 0, 9, 9, 9, 0] 5180
          ⟨WIFI_PREAMBLE_HT_MF, 40, ⟨0, WIFI_MOD_CLASS_HT, 7⟩, 400, 2, 1, true, true⟩
          ⟨MPDU_IN_AGGREGATE, 5⟩).localPacket = [9, 9, 9]
      ∧ ([9, 9, 9, 0] : Packet) ≠ [9, 9, 9] := by
  have h := PcapSniff_aggregated Int radiotapConstants exampleRadiotapEnv
    [3, 1, 0, 0, 9, 9, 9, 0] 5180
    ⟨WIFI_PREAMBLE_HT_MF, 40, ⟨0, WIFI_MOD_CLASS_HT, 7⟩, 400, 2, 1, true, true⟩
    ⟨MPDU_IN_AGGREGATE, 5⟩ ⟨-60, -90⟩ rfl
  exact ⟨⟨_, h.1⟩, ⟨_, h.2.1⟩, h.2.2, by decide⟩

/-! ## Receive path: the bands with a power value -/

/-- The channel bands of `StartRx`, when it leaves its loop: the single band of a 5 or
10 MHz channel, or the 20 MHz bands by index. -/
theorem StartRx_channelBands_ok (phy : SpectrumWifiPhy) (channelBands : List WifiSpectrumBand)
    (hch : StartRx.channelBands phy = .ok (some channelBands)) :
    ((phy.channelWidth = 5 ∨ phy.channelWidth = 10) →
        ∃ b, GetBand phy phy.channelWidth 0 = .ok b ∧ channelBands = [b])
      ∧ (¬ (phy.channelWidth = 5 ∨ phy.channelWidth = 10) →
        channelBands.length = phy.channelWidth / 20
          ∧ ∀ i b, channelBands[i]? = some b → GetBand phy 20 i = .ok b) := by
  unfold StartRx.channelBands at hch
  simp only [] at hch
  by_cases hn : phy.channelWidth = 5 ∨ phy.channelWidth = 10
  · rw [if_pos hn] at hch
    have h0 : phy.channelWidth / 20 = 0 := by omega
    refine ⟨fun _ => ?_, fun h => absurd hn h⟩
    cases hb : GetBand phy phy.channelWidth 0 with
    | error e => rw [hb] at hch; simp at hch
    | ok b =>
      rw [hb, h0] at hch
      simp only [Nat.zero_min, List.range_zero, List.mapM_nil, pure, Except.pure,
        Nat.zero_le, if_true, List.singleton_append] at hch
      injection hch with hch
      injection hch with hch
      exact ⟨b, rfl, hch.symm⟩
  · rw [if_neg hn] at hch
    refine ⟨fun h => absurd h hn, fun _ => ?_⟩
    cases hm : (List.range (min (phy.channelWidth / 20) 256)).mapM (fun i => GetBand phy 20 i)
      with
    | error e => rw [hm] at hch; simp at hch
    | ok bands20 =>
      rw [hm] at hch
      dsimp only at hch
      by_cases hle : phy.channelWidth / 20 ≤ 255
      · rw [if_pos hle] at hch
        simp at hch
        subst hch
        have := (mapM_range_ok_iff _ _ _).mp hm
        rw [Nat.min_eq_left (by omega)] at this
        exact this
      · rw [if_neg hle] at hch
        simp at hch

/-- Once its bands are computed `StartRx` returns: its first call is the arrival trace with
the total power of the channel bands, no call follows exactly when that total is below
the sensitivity, and every power list it passes on is the list of all bands. -/
theorem StartRx_outcome {W D : Type} (env : RxEnv W D) (phy : SpectrumWifiPhy)
    (rxParams : SpectrumSignalParameters W) (channelBands ruBands : List WifiSpectrumBand)
    (hch : StartRx.channelBands phy = .ok (some channelBands))
    (hru : StartRx.ruBands env phy = .ok ruBands) :
    ∃ phy1 rest,
      StartRx env phy rxParams = .ok (.returned phy1
        (.m_signalCb rxParams.ppdu.isSome (rxParams.txNodeId.getD 0)
          (env.WToDbm (StartRx.totalRxPowerW env rxParams channelBands)) rxParams.duration
          :: rest))
      ∧ (rest = [] ↔ env.ltD (env.WToDbm (StartRx.totalRxPowerW env rxParams channelBands))
          env.GetRxSensitivity = true)
      ∧ ∀ c ∈ rest, ∀ l,
          ((∃ d, c = .AddForeignSignal d l) ∨ (∃ p, c = .StartReceiveOfdmaPayload p l)
            ∨ (∃ p t d, c = .InterferenceAdd p t d l) ∨ (∃ p, c = .StartReceivePreamble p l)) →
          l = StartRx.rxPowerW rxParams channelBands ruBands := by
  unfold StartRx
  rw [hch, hru]
  simp only []
  cases hweak : env.ltD (env.WToDbm (StartRx.totalRxPowerW env rxParams channelBands))
    env.GetRxSensitivity
  · simp only [Bool.false_eq_true, if_false]
    cases hp : rxParams.ppdu with
    | none =>
      refine ⟨_, _, rfl, by simp, ?_⟩
      intro c hc l hl
      simp only [List.mem_cons, List.mem_singleton, List.not_mem_nil, or_false] at hc
      rcases hc with rfl | rfl <;>
        first | (simp at hl; done) | (simp at hl; exact hl.symm)
    | some ppdu =>
      simp only []
      split_ifs <;>
        (refine ⟨_, _, rfl, by simp, ?_⟩
         intro c hc l hl
         simp only [List.mem_cons, List.mem_singleton, List.not_mem_nil, or_false] at hc
         rcases hc with rfl | rfl | rfl <;>
           first | (simp at hl; done) | (simp at hl; exact hl.symm))
  · simp only [if_true]
    refine ⟨_, _, rfl, by simp, ?_⟩
    intro c hc
    simp at hc

/-- Claim C27: the power `StartRx` compares with the sensitivity is the sum, from 0 and in
order, of the powers of its channel bands only, which are the single band of a 5 or
10 MHz channel or the `channelWidth / 20` bands of 20 MHz by index: `StartRx` returns
after the arrival trace alone exactly when that sum is below the sensitivity, so two
receptions with the same list of channel band powers, whatever their standards and
RU bands, are both ignored or both processed; and every power list `StartRx` passes on
holds the channel bands in that order followed by the RU bands. -/
theorem StartRx_total_power {W D : Type} (env : RxEnv W D) (phy : SpectrumWifiPhy)
    (rxParams : SpectrumSignalParameters W) (channelBands ruBands : List WifiSpectrumBand)
    (hch : StartRx.channelBands phy = .ok (some channelBands))
    (hru : StartRx.ruBands env phy = .ok ruBands) :
    ((phy.channelWidth = 5 ∨ phy.channelWidth = 10) →
        ∃ b, GetBand phy phy.channelWidth 0 = .ok b ∧ channelBands = [b])
      ∧ (¬ (phy.channelWidth = 5 ∨ phy.channelWidth = 10) →
        channelBands.length = phy.channelWidth / 20
          ∧ ∀ i b, channelBands[i]? = some b → GetBand phy 20 i = .ok b)
      ∧ StartRx.totalRxPowerW env rxParams channelBands
          = (channelBands.map rxParams.rxPowerPerBandW).foldl env.addW env.zeroW
      ∧ (∃ phy1 rest,
          StartRx env phy rxParams = .ok (.returned phy1
            (.m_signalCb rxParams.ppdu.isSome (rxParams.txNodeId.getD 0)
              (env.WToDbm ((channelBands.map rxParams.rxPowerPerBandW).foldl env.addW
                env.zeroW)) rxParams.duration :: rest))
          ∧ (rest = [] ↔ env.ltD
              (env.WToDbm ((channelBands.map rxParams.rxPowerPerBandW).foldl env.addW
                env.zeroW)) env.GetRxSensitivity = true)
          ∧ ∀ c ∈ rest, ∀ l,
              ((∃ d, c = .AddForeignSignal d l) ∨ (∃ p, c = .StartReceiveOfdmaPayload p l)
                ∨ (∃ p t d, c = .InterferenceAdd p t d l)
                ∨ (∃ p, c = .StartReceivePreamble p l)) →
              l = (channelBands ++ ruBands).map (fun band =>
                (band, rxParams.rxPowerPerBandW band)))
      ∧ ∀ (phy' : SpectrumWifiPhy) (rxParams' : SpectrumSignalParameters W)
          (channelBands' ruBands' : List WifiSpectrumBand),
          StartRx.channelBands phy' = .ok (some channelBands') →
          StartRx.ruBands env phy' = .ok ruBands' →
          channelBands'.map rxParams'.rxPowerPerBandW
            = channelBands.map rxParams.rxPowerPerBandW →
          ((∃ phy1 c, StartRx env phy' rxParams' = .ok (.returned phy1 [c]))
            ↔ (∃ phy1 c, StartRx env phy rxParams = .ok (.returned phy1 [c]))) := by
  have htotal : ∀ (rx : SpectrumSignalParameters W) (bands : List WifiSpectrumBand),
      StartRx.totalRxPowerW env rx bands
        = (bands.map rx.rxPowerPerBandW).foldl env.addW env.zeroW := by
    intro rx bands
    unfold StartRx.totalRxPowerW
    rw [List.foldl_map]
  have hignored : ∀ (p : SpectrumWifiPhy) (rx : SpectrumSignalParameters W)
      (ch ru : List WifiSpectrumBand), StartRx.channelBands p = .ok (some ch) →
      StartRx.ruBands env p = .ok ru →
      ((∃ phy1 c, StartRx env p rx = .ok (.returned phy1 [c]))
        ↔ env.ltD (env.WToDbm ((ch.map rx.rxPowerPerBandW).foldl env.addW env.zeroW))
            env.GetRxSensitivity = true) := by
    intro p rx ch ru h1 h2
    obtain ⟨phy1, rest, hres, hrest, _⟩ := StartRx_outcome env p rx ch ru h1 h2
    rw [htotal] at hres hrest
    rw [← hrest, hres]
    constructor
    · rintro ⟨phy2, c, h⟩
      injection h with h
      injection h with _ h
      injection h with _ h
    · intro h
      subst h
      exact ⟨phy1, _, rfl⟩
  obtain ⟨phy1, rest, hres, hrest, hlists⟩ :=
    StartRx_outcome env phy rxParams channelBands ruBands hch hru
  rw [htotal] at hres hrest
  refine ⟨(StartRx_channelBands_ok phy channelBands hch).1,
    (StartRx_channelBands_ok phy channelBands hch).2, htotal rxParams channelBands,
    ⟨phy1, rest, hres, hrest, hlists⟩, ?_⟩
  intro phy' rxParams' channelBands' ruBands' hch' hru' hsame
  rw [hignored phy' rxParams' channelBands' ruBands' hch' hru',
    hignored phy rxParams channelBands ruBands hch hru, hsame]

/-- Worked instance of claim C27: on a 20 MHz 802.11ax PHY with one RU, a signal of power
20 in every band has the total power 20 of the single 20 MHz band, although the power
list holds the 20 MHz band and the RU band. -/
theorem StartRx_total_power_witness :
    StartRx exampleHeEnv ⟨WIFI_PHY_STANDARD_80211ax_5GHZ, 20, 769, false, 0, none, []⟩
        (exampleSignal 60 20 none)
      = .ok (.returned ⟨WIFI_PHY_STANDARD_80211ax_5GHZ, 20, 769, false, 0, none, []⟩
          [.m_signalCb false 0 20 60,
            .AddForeignSignal 60 [(⟨256, 511⟩, 20), (⟨262, 506⟩, 20)], .MaybeCcaBusy])
    ∧ ∃ phy1 rest,
      StartRx exampleHeEnv ⟨WIFI_PHY_STANDARD_80211ax_5GHZ, 20, 769, false, 0, none, []⟩
          (exampleSignal 60 20 none)
        = .ok (.returned phy1 (.m_signalCb false 0 20 60 :: rest))
      ∧ rest ≠ [] := by
  obtain ⟨phy1, rest, h1, h2, _⟩ := (StartRx_total_power exampleHeEnv
    ⟨WIFI_PHY_STANDARD_80211ax_5GHZ, 20, 769, false, 0, none, []⟩ (exampleSignal 60 20 none)
    [⟨256, 511⟩] [⟨262, 506⟩] rfl rfl).2.2.2.1
  exact ⟨rfl, phy1, rest, h1, fun hnil => absurd (h2.mp hnil) (by decide)⟩

/-- The channel bands of `StartRx` are those of `UpdateInterferenceHelperBands` on a channel
of 5 MHz, of 10 MHz or of 20 MHz and more. -/
theorem channelBands_eq (phy : SpectrumWifiPhy)
    (hcw : phy.channelWidth = 5 ∨ phy.channelWidth = 10 ∨ 20 ≤ phy.channelWidth) :
    StartRx.channelBands phy = UpdateInterferenceHelperBands.channelBands phy := by
  unfold StartRx.channelBands UpdateInterferenceHelperBands.channelBands
  simp only []
  by_cases hn : phy.channelWidth = 5 ∨ phy.channelWidth = 10
  · have h0 : phy.channelWidth / 20 = 0 := by omega
    have hlt : phy.channelWidth < 20 := by omega
    rw [if_pos hn, if_pos hlt, h0]
    cases hb : GetBand phy phy.channelWidth 0 with
    | error e => rfl
    | ok b => rfl
  · have hge : ¬ phy.channelWidth < 20 := by omega
    rw [if_neg hn, if_neg hge]
    cases hm : (List.range (min (phy.channelWidth / 20) 256)).mapM (fun i => GetBand phy 20 i)
      with
    | error e => rfl
    | ok bands => simp

/-- The RU bands of `StartRx` are those of `UpdateInterferenceHelperBands`, for the same
tables of `HeRu`. -/
theorem ruBands_eq {W D : Type} (env : RxEnv W D) (phy : SpectrumWifiPhy) :
    StartRx.ruBands env phy
      = UpdateInterferenceHelperBands.ruBands ⟨env.GetNRus, env.GetSubcarrierGroup⟩ phy := by
  unfold StartRx.ruBands UpdateInterferenceHelperBands.ruBands isHeStandard
  simp only [Bool.or_eq_true, decide_eq_true_eq]

/-- Claim C28: on a channel of 5, 10, 20, 22, 40, 80 or 160 MHz, under every standard,
the bands for which `StartRx` computes a power are the bands that
`UpdateInterferenceHelperBands` registers, in the same order: both compute the same
channel bands and the same RU bands (or end in the same error),
`UpdateInterferenceHelperBands` returns exactly when `StartRx` has its bands, its
calls being `RemoveBands` and one `AddBand` per band, and the bands of the power list
of `StartRx` are those bands. -/
theorem StartRx_bands_registered {W D : Type} (env : RxEnv W D) (phy : SpectrumWifiPhy)
    (hcw : phy.channelWidth ∈ [5, 10, 20, 22, 40, 80, 160]) :
    StartRx.channelBands phy = UpdateInterferenceHelperBands.channelBands phy
      ∧ StartRx.ruBands env phy
        = UpdateInterferenceHelperBands.ruBands ⟨env.GetNRus, env.GetSubcarrierGroup⟩ phy
      ∧ (∀ calls,
          UpdateInterferenceHelperBands ⟨env.GetNRus, env.GetSubcarrierGroup⟩ phy
              = .ok (some calls)
            ↔ ∃ channelBands ruBands, StartRx.channelBands phy = .ok (some channelBands)
                ∧ StartRx.ruBands env phy = .ok ruBands
                ∧ calls = .RemoveBands :: (channelBands ++ ruBands).map .AddBand)
      ∧ ∀ (rxParams : SpectrumSignalParameters W) (channelBands ruBands : List WifiSpectrumBand),
          StartRx.channelBands phy = .ok (some channelBands) →
          StartRx.ruBands env phy = .ok ruBands →
          (StartRx.rxPowerW rxParams channelBands ruBands).map Prod.fst
              = channelBands ++ ruBands
            ∧ UpdateInterferenceHelperBands ⟨env.GetNRus, env.GetSubcarrierGroup⟩ phy
              = .ok (some (.RemoveBands
                :: ((StartRx.rxPowerW rxParams channelBands ruBands).map Prod.fst).map
                  .AddBand)) := by
  have hwidth : phy.channelWidth = 5 ∨ phy.channelWidth = 10 ∨ 20 ≤ phy.channelWidth := by
    simp only [List.mem_cons, List.mem_singleton, List.not_mem_nil, or_false] at hcw
    omega
  have h1 := channelBands_eq phy hwidth
  have h2 := ruBands_eq env phy
  have hfst : ∀ (rxParams : SpectrumSignalParameters W) (ch ru : List WifiSpectrumBand),
      (StartRx.rxPowerW rxParams ch ru).map Prod.fst = ch ++ ru := by
    intro rxParams ch ru
    unfold StartRx.rxPowerW
    rw [List.map_map]
    exact List.map_id _
  have hiff : ∀ calls,
      UpdateInterferenceHelperBands ⟨env.GetNRus, env.GetSubcarrierGroup⟩ phy
          = .ok (some calls)
        ↔ ∃ channelBands ruBands, StartRx.channelBands phy = .ok (some channelBands)
            ∧ StartRx.ruBands env phy = .ok ruBands
            ∧ calls = .RemoveBands :: (channelBands ++ ruBands).map .AddBand := by
    intro calls
    unfold UpdateInterferenceHelperBands
    rw [h1, h2]
    cases hc : UpdateInterferenceHelperBands.channelBands phy with
    | error e => simp
    | ok o =>
      cases o with
      | none => simp
      | some ch =>
        cases hr : UpdateInterferenceHelperBands.ruBands
            ⟨env.GetNRus, env.GetSubcarrierGroup⟩ phy with
        | error e => simp
        | ok ru =>
          simp only [Except.ok.injEq, Option.some.injEq, exists_and_left, exists_eq_left']
          exact ⟨fun h => h.symm, fun h => h.symm⟩
  refine ⟨h1, h2, hiff, ?_⟩
  intro rxParams channelBands ruBands hch hru
  refine ⟨hfst rxParams channelBands ruBands, ?_⟩
  rw [hfst]
  exact (hiff _).mpr ⟨channelBands, ruBands, hch, hru, rfl⟩

/-- Worked instance of claim C28: on a 20 MHz 802.11ax PHY with one RU, the two bands of
the power list of `StartRx` are the two bands registered. -/
theorem StartRx_bands_registered_witness :
    (StartRx.rxPowerW (exampleSignal 60 20 none) [⟨256, 511⟩] [⟨262, 506⟩]).map Prod.fst
        = [⟨256, 511⟩, ⟨262, 506⟩]
      ∧ UpdateInterferenceHelperBands ⟨exampleHeEnv.GetNRus, exampleHeEnv.GetSubcarrierGroup⟩
          ⟨WIFI_PHY_STANDARD_80211ax_5GHZ, 20, 769, false, 0, none, []⟩
        = .ok (some [.RemoveBands, .AddBand ⟨256, 511⟩, .AddBand ⟨262, 506⟩]) :=
  (StartRx_bands_registered exampleHeEnv
    ⟨WIFI_PHY_STANDARD_80211ax_5GHZ, 20, 769, false, 0, none, []⟩ (by decide)).2.2.2
    (exampleSignal 60 20 none) [⟨256, 511⟩] [⟨262, 506⟩] rfl rfl

/-! ## Band index model: the anchor of the RU bands and the span of the channel -/

/-- In a channel split into an even number `2 * m` of sub-bands whose bands add up to
those of the channel, no band `GetBand` returns contains the centre band `T / 2`: band
`m - 1` stops one band below it and band `m` starts one band above it. -/
theorem GetBand_even_split_centre (phy : SpectrumWifiPhy) (bandWidth bb w sub T m i : Nat)
    (hbb : GetBandBandwidth phy = .ok bb) (hw : w = effectiveBandWidth bandWidth)
    (hsub : sub = numBandsInBand bb w) (hT : T = phy.rxNumBands)
    (hbw1 : 1 ≤ bandWidth) (hbw : bandWidth < 2 ^ 16)
    (hcw : phy.channelWidth = 2 * m * w) (hm : 2 * m ≤ 256)
    (hbins : numBandsOf phy.channelWidth bb = 2 * m * sub)
    (hseven : sub % 2 = 0) (hTodd : T % 2 = 1)
    (hCT : numBandsInChannel bb phy.channelWidth w ≤ T) (hT32 : T < 2 ^ 32)
    (hi : i < 2 * m) :
    ∃ b, GetBand phy bandWidth i = .ok b
      ∧ ¬ (b.first ≤ T / 2 ∧ T / 2 ≤ b.second)
      ∧ (i + 1 = m → b.second + 1 = T / 2)
      ∧ (i = m → b.first = T / 2 + 1) := by
  obtain ⟨hband, hms, hsub3⟩ := GetBand_even_split phy bandWidth bb w sub T m i hbb hw hsub hT
    hbw1 hbw hcw hm hbins hseven hTodd hCT hT32 hi
  refine ⟨_, hband, ?_, ?_, ?_⟩
  · by_cases him : i < m
    · have h1 : (i + 1) * sub ≤ m * sub := Nat.mul_le_mul_right _ him
      rw [Nat.add_mul, Nat.one_mul] at h1
      rw [if_pos him]
      generalize i * sub = a at *
      generalize m * sub = c at *
      simp only []
      omega
    · have h1 : m * sub ≤ i * sub := Nat.mul_le_mul_right _ (Nat.le_of_not_lt him)
      rw [if_neg him]
      generalize i * sub = a at *
      generalize m * sub = c at *
      simp only []
      omega
  · intro him
    have h1 : (i + 1) * sub = m * sub := by rw [him]
    rw [Nat.add_mul, Nat.one_mul] at h1
    rw [if_pos (by omega)]
    generalize i * sub = a at *
    generalize m * sub = c at *
    simp only []
    omega
  · intro him
    subst him
    rw [if_neg (by omega)]
    generalize i * sub = a at *
    simp only []
    omega

/-- Claim C29 fails as stated for the channel width 20: on a 20 MHz 802.11ax channel, whose
spectrum model has 769 bands, the index that `ConvertHeRuSubcarriers` adds is the centre
index 384, and `GetBand` does not step over it: the only 20 MHz band, `GetBand (20, 0)`,
is (256, 511) and contains it. -/
theorem ConvertHeRuSubcarriers_anchor_counterexample :
    ConvertHeRuSubcarriers ⟨WIFI_PHY_STANDARD_80211ax_5GHZ, 20, 769, false, 0, none, []⟩ 20
        (0, 0) = .ok ⟨384, 384⟩
      ∧ 769 = 3 * 20 * 1000000 / 78125 + 1 ∧ 769 / 2 = 384
      ∧ GetBand ⟨WIFI_PHY_STANDARD_80211ax_5GHZ, 20, 769, false, 0, none, []⟩ 20 0
        = .ok ⟨256, 511⟩
      ∧ 256 ≤ 384 ∧ 384 ≤ 511 :=
  ⟨rfl, by decide, by decide, rfl, by decide, by decide⟩

/-- Claim C29, as amended: with bands of 78125 Hz, for the channel widths 20, 40, 80 and
160 MHz, whose guard bandwidth is the channel width, the index that
`ConvertHeRuSubcarriers` adds is 384, 768, 1536 and 3072; it is the centre index
`totalBins / 2` of a spectrum model of `3 * channelWidth * 10 ^ 6 / 78125 + 1` bands.
On such a model no band returned by `GetBand` starts at it; for the widths 40, 80 and
160 `GetBand` steps over it between the 20 MHz bands: none of them contains it, band
`channelWidth / 40 - 1` stops one band below it and band `channelWidth / 40` starts one
band above it; for the width 20 the only 20 MHz band is (256, 511), which contains
it.  Sub-carrier 0 is converted to it, and a range `(lo, hi)` of `int16_t` values with
`-anchor <= lo <= hi`, as every range inside the spectrum model is, is converted to
`(anchor + lo, anchor + hi)`, in the same order and of the same length. -/
theorem ConvertHeRuSubcarriers_anchor (phy : SpectrumWifiPhy) (channelWidth anchor : Nat)
    (hbb : GetBandBandwidth phy = .ok 78125)
    (hcw : channelWidth = 20 ∨ channelWidth = 40 ∨ channelWidth = 80 ∨ channelWidth = 160)
    (hanchor : anchor = if channelWidth = 20 then 384 else if channelWidth = 40 then 768
      else if channelWidth = 80 then 1536 else 3072) :
    GetGuardBandwidth channelWidth = channelWidth
      ∧ anchor = (3 * channelWidth * 1000000 / 78125 + 1) / 2
      ∧ ConvertHeRuSubcarriers phy channelWidth (0, 0) = .ok ⟨anchor, anchor⟩
      ∧ (phy.channelWidth = channelWidth →
          phy.rxNumBands = 3 * channelWidth * 1000000 / 78125 + 1 →
          (∀ bandWidth bandIndex b, bandWidth < 2 ^ 16 → bandIndex < 2 ^ 8 →
            GetBand phy bandWidth bandIndex = .ok b → b.first ≠ anchor)
          ∧ (channelWidth ≠ 20 →
              (∀ i, i < channelWidth / 20 →
                ∃ b, GetBand phy 20 i = .ok b ∧ ¬ (b.first ≤ anchor ∧ anchor ≤ b.second))
              ∧ (∃ b, GetBand phy 20 (channelWidth / 40 - 1) = .ok b ∧ b.second + 1 = anchor)
              ∧ (∃ b, GetBand phy 20 (channelWidth / 40) = .ok b ∧ b.first = anchor + 1))
          ∧ (channelWidth = 20 → GetBand phy 20 0 = .ok ⟨256, 511⟩))
      ∧ ∀ lo hi : Int, -(anchor : Int) ≤ lo → lo ≤ hi → hi < 2 ^ 15 →
          ∃ b, ConvertHeRuSubcarriers phy channelWidth (lo, hi) = .ok b
            ∧ (b.first : Int) = anchor + lo ∧ (b.second : Int) = anchor + hi
            ∧ b.first ≤ b.second ∧ (b.second : Int) - b.first = hi - lo := by
  have hconv : ∀ lo hi : Int,
      ConvertHeRuSubcarriers phy channelWidth (lo, hi)
        = .ok ⟨(((anchor : Int) + lo) % 2 ^ 32).toNat, (((anchor : Int) + hi) % 2 ^ 32).toNat⟩ := by
    intro lo hi
    unfold ConvertHeRuSubcarriers
    rw [hbb]
    rcases hcw with h | h | h | h <;> subst h <;> subst hanchor <;>
      simp [nGuardBandsOf, GetGuardBandwidth]
  refine ⟨?_, ?_, ?_, ?_, ?_⟩
  · unfold GetGuardBandwidth
    rw [if_neg (by omega)]
  · rcases hcw with h | h | h | h <;> subst h <;> subst hanchor <;> rfl
  · rw [hconv]
    simp only [add_zero]
    have hlt : (anchor : Int) < 2 ^ 32 := by
      rcases hcw with h | h | h | h <;> subst h <;> subst hanchor <;> decide
    have h1 : (((anchor : Int) % 2 ^ 32).toNat : Nat) = anchor := by omega
    rw [h1]
  · intro hphy hT
    have hT2 : phy.rxNumBands / 2 = anchor ∧ phy.rxNumBands < 2 ^ 32
        ∧ numBandsOf phy.channelWidth 78125 + 1 ≤ phy.rxNumBands
        ∧ phy.rxNumBands % 2 = 1 := by
      rw [hT, hphy]
      unfold numBandsOf
      rcases hcw with h | h | h | h <;> subst h <;> subst hanchor <;> decide
    have hC : ∀ bandWidth, numBandsInChannel 78125 phy.channelWidth
        (effectiveBandWidth bandWidth) ≤ phy.rxNumBands := by
      intro bandWidth
      unfold numBandsInChannel
      split_ifs <;> omega
    refine ⟨?_, ?_, ?_⟩
    · intro bandWidth bandIndex b hbw hidx hok
      have hv := (GetBand_ok_value phy bandWidth bandIndex 78125 _ _ _ _ _ b hbb rfl rfl rfl
        rfl rfl hok hbw hidx (hC bandWidth) hT2.2.1).1
      rw [hT2.1] at hv
      rw [hv]
      split_ifs <;> omega
    · intro hne
      have hsplit : ∀ i, i < 2 * (channelWidth / 40) →
          ∃ b, GetBand phy 20 i = .ok b
            ∧ ¬ (b.first ≤ phy.rxNumBands / 2 ∧ phy.rxNumBands / 2 ≤ b.second)
            ∧ (i + 1 = channelWidth / 40 → b.second + 1 = phy.rxNumBands / 2)
            ∧ (i = channelWidth / 40 → b.first = phy.rxNumBands / 2 + 1) := by
        intro i hi
        refine GetBand_even_split_centre phy 20 78125 20 256 phy.rxNumBands (channelWidth / 40)
          i hbb rfl rfl rfl (by decide) (by decide) ?_ ?_ ?_ (by decide) hT2.2.2.2 (hC 20)
          hT2.2.1 hi
        · rw [hphy]; omega
        · omega
        · rw [hphy]
          rcases hcw with h | h | h | h <;> subst h <;> first | (exact absurd rfl hne) | rfl
      rw [hT2.1] at hsplit
      refine ⟨fun i hi => ?_, ?_, ?_⟩
      · obtain ⟨b, hb, hnot, _⟩ := hsplit i (by omega)
        exact ⟨b, hb, hnot⟩
      · obtain ⟨b, hb, _, hlast, _⟩ := hsplit (channelWidth / 40 - 1) (by omega)
        exact ⟨b, hb, hlast (by omega)⟩
      · obtain ⟨b, hb, _, _, hfirst⟩ := hsplit (channelWidth / 40) (by omega)
        exact ⟨b, hb, hfirst rfl⟩
    · intro h20
      subst h20
      have hval := GetBand_nowrap phy 20 0 78125 20 257 256 769 256 hbb rfl
        (by rw [hphy]; rfl) rfl (by rw [hT]) rfl (by decide) (by decide)
        (by rw [hphy]; decide) (by decide) (by decide) (by decide)
      rw [hval]
      rfl
  · intro lo hi hlo hle hhi
    have hlt : (anchor : Int) ≤ 3072 := by
      rcases hcw with h | h | h | h <;> subst h <;> subst hanchor <;> decide
    refine ⟨_, hconv lo hi, ?_, ?_, ?_, ?_⟩
    · simp only []; omega
    · simp only []; omega
    · simp only []; omega
    · simp only []; omega

/-- Worked instance of claim C29 as amended: on a 40 MHz 802.11ax channel of 1537 bands the
index added is 768; the two 20 MHz bands are (512, 767) and (769, 1024), and the
26-tone range (-243, -218) is converted to the band (525, 550). -/
theorem ConvertHeRuSubcarriers_anchor_witness :
    (GetBand ⟨WIFI_PHY_STANDARD_80211ax_5GHZ, 40, 1537, false, 0, none, []⟩ 20 0
        = .ok ⟨512, 767⟩
      ∧ GetBand ⟨WIFI_PHY_STANDARD_80211ax_5GHZ, 40, 1537, false, 0, none, []⟩ 20 1
        = .ok ⟨769, 1024⟩
      ∧ ConvertHeRuSubcarriers ⟨WIFI_PHY_STANDARD_80211ax_5GHZ, 40, 1537, false, 0, none, []⟩
          40 (-243, -218) = .ok ⟨525, 550⟩)
      ∧ ∃ b, ConvertHeRuSubcarriers
            ⟨WIFI_PHY_STANDARD_80211ax_5GHZ, 40, 1537, false, 0, none, []⟩ 40 (-243, -218)
          = .ok b
        ∧ (b.first : Int) = (768 : Nat) + (-243) ∧ (b.second : Int) = (768 : Nat) + (-218)
        ∧ b.first ≤ b.second ∧ (b.second : Int) - b.first = -218 - (-243) :=
  ⟨⟨rfl, rfl, rfl⟩,
    (ConvertHeRuSubcarriers_anchor
      ⟨WIFI_PHY_STANDARD_80211ax_5GHZ, 40, 1537, false, 0, none, []⟩ 40 768 rfl
      (Or.inr (Or.inl rfl)) rfl).2.2.2.2 (-243) (-218) (by decide) (by decide) (by decide)⟩

/-- Claim C30: for a sub-band of at least 1 MHz with an even number of bins, an odd
number of bins `totalBins` of the spectrum model with `channelBins <= totalBins`
(and below `2 ^ 32`, the range of the members of a band), and an index with
`(index + 1) * subBandWidth <= channelWidth`, the subtraction in `GetBand` does not
wrap; `GetBand` returns a band when `channelBins` is odd, and the band lies in the span
of the channel: `(totalBins - channelBins) / 2 <= first <= last
<= (totalBins + channelBins) / 2 - 1 < totalBins`; when `channelBins` is even it ends
on its first assertion and returns no band. -/
theorem GetBand_inside (phy : SpectrumWifiPhy) (bandWidth bandIndex bb w C sub T : Nat)
    (hbb : GetBandBandwidth phy = .ok bb) (hw : w = effectiveBandWidth bandWidth)
    (hC : C = numBandsInChannel bb phy.channelWidth w) (hsub : sub = numBandsInBand bb w)
    (hT : T = phy.rxNumBands)
    (hbw1 : 1 ≤ bandWidth) (hbw : bandWidth < 2 ^ 16) (hidx : bandIndex < 2 ^ 8)
    (hTodd : T % 2 = 1) (hCT : C ≤ T) (hT32 : T < 2 ^ 32) (hseven : sub % 2 = 0)
    (hfit : (bandIndex + 1) * bandWidth ≤ phy.channelWidth) :
    (T + 2 ^ 64 - C) % 2 ^ 64 = T - C
      ∧ (C % 2 = 1 →
          ∃ b, GetBand phy bandWidth bandIndex = .ok b
            ∧ (T - C) / 2 ≤ b.first ∧ b.first ≤ b.second
            ∧ b.second ≤ (T + C) / 2 - 1 ∧ (T + C) / 2 - 1 < T)
      ∧ (C % 2 ≠ 1 → GetBand phy bandWidth bandIndex = .error .shouldHaveOddNumberOfBands) := by
  have hw1 : 1 ≤ w := hw ▸ effectiveBandWidth_pos bandWidth hbw1
  have hwle : w ≤ bandWidth := by
    rw [hw]; unfold effectiveBandWidth; split_ifs <;> omega
  have hw16 : w < 2 ^ 16 := by omega
  have hsub3 : 3 ≤ sub := hsub ▸ numBandsInBand_pos phy bb w hbb hw1
  have hbbpos : 0 < bb := by
    rcases GetBandBandwidth_cases phy bb hbb with h | h | h <;> omega
  -- the sub-bands up to the index fit in the channel
  have hfitw : (bandIndex + 1) * w ≤ phy.channelWidth :=
    Nat.le_trans (Nat.mul_le_mul_left _ hwle) hfit
  have hidxw : bandIndex * w < phy.channelWidth := by
    have : bandIndex * w + w ≤ phy.channelWidth := by
      rw [← Nat.succ_mul]; exact hfitw
    omega
  have hN : (bandIndex + 1) * sub ≤ numBandsOf phy.channelWidth bb := by
    rw [hsub]
    unfold numBandsInBand numBandsOf
    rw [Nat.le_div_iff_mul_le hbbpos]
    calc (bandIndex + 1) * (w * 1000000 / bb) * bb
        = (bandIndex + 1) * ((w * 1000000 / bb) * bb) := Nat.mul_assoc _ _ _
      _ ≤ (bandIndex + 1) * (w * 1000000) :=
          Nat.mul_le_mul_left _ (Nat.div_mul_le_self _ _)
      _ = ((bandIndex + 1) * w) * 1000000 := (Nat.mul_assoc _ _ _).symm
      _ ≤ phy.channelWidth * 1000000 := Nat.mul_le_mul_right _ hfitw
  have hCval : C = numBandsOf phy.channelWidth bb + 1 := by
    rw [hC]
    unfold numBandsInChannel
    rw [← hsub, if_pos hseven]
  have hmul : (bandIndex + 1) * sub = bandIndex * sub + sub := Nat.succ_mul _ _
  generalize hm : bandIndex * sub = m at hmul
  generalize hn : numBandsOf phy.channelWidth bb = N at hN hCval
  refine ⟨by omega, ?_, ?_⟩
  · intro hCodd
    have hfits := GetBand_fits phy bandIndex bb w C sub T hbb hsub hw16 hidx hT32
    rw [hm] at hfits
    have hval := GetBand_nowrap phy bandWidth bandIndex bb w C sub T ((T - C) / 2 + m)
      hbb hw hC hsub hT (by rw [hm]) hCodd hTodd hidxw hCT (by omega) (by omega)
    refine ⟨_, hval, ?_, ?_, ?_, ?_⟩
    · simp only []; split_ifs <;> omega
    · simp only []; split_ifs <;> omega
    · simp only []; split_ifs <;> omega
    · omega
  · intro hCeven
    rw [GetBand_unfold phy bandWidth bandIndex bb w C sub T hbb hw hC hsub hT]
    rw [if_pos (fun h => hCeven h.1)]

/-- Worked instance of claim C30: on an 80 MHz 802.11a channel of 769 bins the
band of index 3 is (449, 512), inside the span from 256 to 512 of the channel. -/
theorem GetBand_inside_witness :
    GetBand ⟨WIFI_PHY_STANDARD_80211a, 80, 769, false, 0, none, []⟩ 20 3 = .ok ⟨449, 512⟩
      ∧ ∃ b, GetBand ⟨WIFI_PHY_STANDARD_80211a, 80, 769, false, 0, none, []⟩ 20 3 = .ok b
        ∧ (769 - 257) / 2 ≤ b.first ∧ b.first ≤ b.second
        ∧ b.second ≤ (769 + 257) / 2 - 1 ∧ (769 + 257) / 2 - 1 < 769 :=
  ⟨rfl,
    (GetBand_inside ⟨WIFI_PHY_STANDARD_80211a, 80, 769, false, 0, none, []⟩ 20 3 312500 20 257
      64 769 rfl rfl rfl rfl rfl (by decide) (by decide) (by decide) (by decide) (by decide)
      (by decide) (by decide) (by decide)).2.1 (by decide)⟩

end ns3
